import Mathlib

/-!
# Workout Budy: plan generator, session engine and local store

A shallow embedding of `src/utils/workoutGenerator.js`, of `filterExercises`
from `src/services/exerciseDB.js` and of the set editors (`updateSet`,
`completeSet`) and the finish handler of `src/screens/WorkoutScreen.js`, of
the storage functions of `src/services/storage.js`, of the exercise cache of
`src/services/exerciseDB.js`, and of the pieces of `HomeScreen.js`,
`ExerciseDetailScreen.js` and `HistoryScreen.js` that continue a workout, look
up when an exercise was last performed and repeat a workout, followed by
theorems about them.

Conventions of the embedding.

* JS numbers are exact rationals (`ℚ`); counters that only ever hold
  non-negative integers are `Nat`.  `NaN` and rounding are outside the model.
* A nullable field is an `Option`.
* Strings are Lean strings.  `toLowerCase` folds the ASCII letters `A`-`Z`;
  every other character is left as it is.
* A property read `obj[key]` on an object literal sees the literal's own
  entries first and then the members every object inherits from
  `Object.prototype` (`JsLookup`).
* Clock reads (`Date.now()`, `new Date().toISOString()`) and the outcome of
  `sort(() => Math.random() - 0.5)` are inputs (`World`).
* A state updater is a function from the previous log to `Except JsError` of
  the next log; logs are values, so two set entries never share storage.
* A table of the SQLite database is the list of its rows, each with its id,
  and the largest id issued; a scan reads the rows by id.  A JSON column
  holds the value its text parses to.
* A storage function runs on a `Conn`: the database and the number of
  statements the store still carries out before it fails.  A statement that
  throws ends the `try` block; the statements before it stay applied, since
  the source opens no transaction.
* In SQL, `NULL` sorts below every value, `MAX` and `SUM` skip `NULL`, and an
  arithmetic expression with a `NULL` operand is `NULL`.  The row a bare
  column of an aggregate query is read from is an input (`pick`).
-/

namespace WorkoutBudy

/-! ## Strings -/

/-- JS `String.prototype.toLowerCase` on the ASCII letters. -/
def toLowerCase (s : String) : String := String.mk (s.data.map Char.toLower)

/-- JS `String.prototype.includes`: `t` occurs in `s` as a contiguous run. -/
def includes (s t : String) : Bool := decide (t.data <:+: s.data)

/-! ## Data model -/

/-- One row of the sets table of a logged exercise. -/
structure SetEntry where
  setNumber : Nat
  weight : Option ℚ
  reps : Option ℚ
  completed : Bool
  rpe : Option ℚ
  notes : Option String
  deriving DecidableEq

/-- An exercise of the remote catalog. -/
structure ExerciseRecord where
  id : String
  name : String
  bodyPart : String
  target : String
  equipment : String
  gifUrl : Option String
  deriving DecidableEq

/-- An exercise of a template: display fields and the prescription. -/
structure TemplateExercise where
  id : String
  name : String
  bodyPart : String
  target : String
  equipment : String
  gifUrl : Option String
  sets : Nat
  targetReps : String
  restTime : Nat
  notes : Option String
  deriving DecidableEq

/-- A workout template.  `estimatedDuration` and `createdAt` are only set by
the plan generator. -/
structure WorkoutTemplate where
  templateId : Option String
  name : String
  type : String
  estimatedDuration : Option Nat
  createdAt : Option String
  exercises : List TemplateExercise
  deriving DecidableEq

/-- An exercise of a log: `{ ...ex, sets: [...] }`, the template exercise with
its set count replaced by the list of set entries. -/
structure LoggedExercise where
  id : String
  name : String
  bodyPart : String
  target : String
  equipment : String
  gifUrl : Option String
  sets : List SetEntry
  targetReps : String
  restTime : Nat
  notes : Option String
  deriving DecidableEq

/-- A workout log, active (`completedAt = none`) or completed. -/
structure WorkoutLog where
  logId : String
  templateId : Option String
  name : String
  type : String
  startedAt : String
  completedAt : Option String
  totalVolume : ℚ
  totalSets : Nat
  totalReps : ℚ
  durationMinutes : Nat
  notes : Option String
  exercises : List LoggedExercise
  deriving DecidableEq

/-- The object returned by `calculateWorkoutStats`. -/
structure WorkoutStats where
  totalVolume : ℚ
  totalSets : Nat
  totalReps : ℚ
  deriving DecidableEq

/-! ## Property reads on object literals -/

/-- The member names every object inherits from `Object.prototype`. -/
def objectPrototypeKeys : List String :=
  ["constructor", "__defineGetter__", "__defineSetter__", "hasOwnProperty",
   "__lookupGetter__", "__lookupSetter__", "isPrototypeOf", "propertyIsEnumerable",
   "toString", "valueOf", "__proto__", "toLocaleString"]

/-- Outcome of the read `table[key]` on an object literal: one of the
literal's own values, a member inherited from `Object.prototype` (an object or
function, so truthy and never a string), or `undefined`. -/
inductive JsLookup (α : Type) where
  | own (value : α)
  | inherited (key : String)
  | undefined
  deriving DecidableEq

/-- The read `table[key]` on the object literal with the given own entries. -/
def jsLookup {α : Type} (table : List (String × α)) (key : String) : JsLookup α :=
  match table.lookup key with
  | some value => .own value
  | none => if key ∈ objectPrototypeKeys then .inherited key else .undefined

/-! ## Exercise catalog: `filterExercises` -/

/-- A member of an equipment tag list: a string, or the non-string object that
the read of an inherited member produced (see `normalizeEquipment`). -/
inductive EquipmentTag where
  | text (s : String)
  | object (key : String)
  deriving DecidableEq

/-- The `equipment` criterion: one tag, or an array of tags. -/
inductive EquipmentFilter where
  | single (tag : String)
  | list (tags : List EquipmentTag)
  deriving DecidableEq

/-- The criteria object of `filterExercises`; `none` is an absent criterion. -/
structure ExerciseFilters where
  bodyPart : Option String := none
  equipment : Option EquipmentFilter := none
  target : Option String := none
  search : Option String := none
  deriving DecidableEq

/-- Step `if (filters.bodyPart)`: an absent criterion and the empty string are
both falsy and skip the step. -/
def filterByBodyPart (bodyPart : Option String) (filtered : List ExerciseRecord) :
    List ExerciseRecord :=
  match bodyPart with
  | none => filtered
  | some b =>
    if b = "" then filtered
    else filtered.filter (fun ex => toLowerCase ex.bodyPart = toLowerCase b)

/-- The callback of `filters.equipment.some(...)` run over the tags in order:
`some true` at the first match, `some false` when the tags are exhausted, and
`none` when `eq.toLowerCase()` is called on a tag that is not a string (a
`TypeError`). -/
def someTagMatches (ex : ExerciseRecord) : List EquipmentTag → Option Bool
  | [] => some false
  | .text eq :: rest =>
    if toLowerCase ex.equipment = toLowerCase eq then some true
    else someTagMatches ex rest
  | .object _ :: _ => none

/-- The call `filtered.filter(ex => filters.equipment.some(...))`; `none` when
the callback throws. -/
def filterByTags (tags : List EquipmentTag) : List ExerciseRecord → Option (List ExerciseRecord)
  | [] => some []
  | ex :: rest =>
    match someTagMatches ex tags with
    | none => none
    | some keep =>
      match filterByTags tags rest with
      | none => none
      | some kept => some (if keep then ex :: kept else kept)

/-- Step `if (filters.equipment)`: absent and the empty string skip the step;
an array (arrays are truthy, also the empty one) is matched by membership. -/
def filterByEquipment (equipment : Option EquipmentFilter) (filtered : List ExerciseRecord) :
    Option (List ExerciseRecord) :=
  match equipment with
  | none => some filtered
  | some (.list tags) => filterByTags tags filtered
  | some (.single tag) =>
    if tag = "" then some filtered
    else some (filtered.filter (fun ex => toLowerCase ex.equipment = toLowerCase tag))

/-- Step `if (filters.target)`. -/
def filterByTarget (target : Option String) (filtered : List ExerciseRecord) :
    List ExerciseRecord :=
  match target with
  | none => filtered
  | some t =>
    if t = "" then filtered
    else filtered.filter (fun ex => toLowerCase ex.target = toLowerCase t)

/-- Step `if (filters.search)`. -/
def filterBySearch (search : Option String) (filtered : List ExerciseRecord) :
    List ExerciseRecord :=
  match search with
  | none => filtered
  | some text =>
    if text = "" then filtered
    else
      let searchLower := toLowerCase text
      filtered.filter (fun ex => includes (toLowerCase ex.name) searchLower)

/-- `filterExercises(exercises, filters)`: the four steps in source order.
The result is `none` when a `TypeError` escapes (only the equipment step can
raise one, on a tag that is not a string). -/
def filterExercises (exercises : List ExerciseRecord) (filters : ExerciseFilters) :
    Option (List ExerciseRecord) :=
  if exercises.isEmpty then some []
  else
    (filterByEquipment filters.equipment (filterByBodyPart filters.bodyPart exercises)).map
      (fun filtered => filterBySearch filters.search (filterByTarget filters.target filtered))

/-! ## Plan generator: tables -/

/-- An entry of `WORKOUT_SPLITS`. -/
structure SplitConfig where
  name : String
  frequency : Nat
  workouts : List String
  deriving DecidableEq

/-- An entry of `WORKOUT_STRUCTURES`. -/
structure WorkoutStructure where
  bodyParts : List String
  exerciseCount : List (String × Nat)
  deriving DecidableEq

/-- An entry of `REP_SCHEMES`. -/
structure RepScheme where
  sets : Nat
  reps : String
  rest : Nat
  deriving DecidableEq

/-- The table `WORKOUT_SPLITS`. -/
def WORKOUT_SPLITS : List (String × SplitConfig) :=
  [("PPL", { name := "Push Pull Legs", frequency := 6,
             workouts := ["Push", "Pull", "Legs", "Push", "Pull", "Legs"] }),
   ("UpperLower", { name := "Upper/Lower", frequency := 4,
                    workouts := ["Upper", "Lower", "Upper", "Lower"] }),
   ("FullBody", { name := "Full Body", frequency := 3,
                  workouts := ["Full Body", "Full Body", "Full Body"] })]

/-- The table `WORKOUT_STRUCTURES`. -/
def WORKOUT_STRUCTURES : List (String × WorkoutStructure) :=
  [("Push", { bodyParts := ["chest", "shoulders", "triceps"],
              exerciseCount := [("chest", 3), ("shoulders", 2), ("triceps", 2)] }),
   ("Pull", { bodyParts := ["back", "biceps"],
              exerciseCount := [("back", 4), ("biceps", 2)] }),
   ("Legs", { bodyParts := ["legs", "glutes"],
              exerciseCount := [("legs", 5), ("glutes", 1)] }),
   ("Upper", { bodyParts := ["chest", "back", "shoulders", "triceps", "biceps"],
               exerciseCount := [("chest", 2), ("back", 2), ("shoulders", 1),
                                 ("triceps", 1), ("biceps", 1)] }),
   ("Lower", { bodyParts := ["legs", "glutes", "calves"],
               exerciseCount := [("legs", 4), ("glutes", 2), ("calves", 1)] }),
   ("Full Body", { bodyParts := ["chest", "back", "legs", "shoulders"],
                   exerciseCount := [("chest", 1), ("back", 2), ("legs", 2),
                                     ("shoulders", 1)] })]

/-- The table `REP_SCHEMES`, goal first, experience second. -/
def REP_SCHEMES : List (String × List (String × RepScheme)) :=
  [("strength",
      [("beginner", { sets := 3, reps := "5-8", rest := 180 }),
       ("intermediate", { sets := 4, reps := "4-6", rest := 180 }),
       ("advanced", { sets := 5, reps := "3-5", rest := 240 })]),
   ("hypertrophy",
      [("beginner", { sets := 3, reps := "8-12", rest := 90 }),
       ("intermediate", { sets := 3, reps := "8-12", rest := 90 }),
       ("advanced", { sets := 4, reps := "8-12", rest := 90 })]),
   ("endurance",
      [("beginner", { sets := 2, reps := "12-15", rest := 60 }),
       ("intermediate", { sets := 3, reps := "15-20", rest := 60 }),
       ("advanced", { sets := 3, reps := "20-25", rest := 45 })]),
   ("weight loss",
      [("beginner", { sets := 3, reps := "12-15", rest := 60 }),
       ("intermediate", { sets := 3, reps := "12-15", rest := 45 }),
       ("advanced", { sets := 4, reps := "15-20", rest := 45 })])]

/-- The read `REP_SCHEMES[primaryGoal][experienceKey]`.  Both keys are results
of `getPrimaryGoal` and `getExperienceKey`, which only return names of own
entries; `none` stands for the `TypeError` of a read through `undefined`. -/
def repSchemeFor (primaryGoal experienceKey : String) : Option RepScheme :=
  (REP_SCHEMES.lookup primaryGoal).bind (fun byLevel => byLevel.lookup experienceKey)

/-- The synonym table `mapping` of `normalizeEquipment`. -/
def equipmentMapping : List (String × String) :=
  [("barbell", "barbell"),
   ("dumbbells", "dumbbell"),
   ("cable machine", "cable"),
   ("resistance bands", "band"),
   ("bodyweight", "body weight"),
   ("smith machine", "smith machine"),
   ("kettlebell", "kettlebell")]

/-! ## Plan generator: helpers -/

/-- `getPrimaryGoal(goals)`; `none` is an absent goal list. -/
def getPrimaryGoal (goals : Option (List String)) : String :=
  match goals with
  | none => "hypertrophy"
  | some [] => "hypertrophy"
  | some (first :: _) =>
    let goalLower := toLowerCase first
    if includes goalLower "strength" then "strength"
    else if includes goalLower "hypertrophy" then "hypertrophy"
    else if includes goalLower "endurance" then "endurance"
    else if includes goalLower "weight" || includes goalLower "loss" then "weight loss"
    else "hypertrophy"

/-- `getExperienceKey(level)`. -/
def getExperienceKey (level : String) : String :=
  let levelLower := toLowerCase level
  if includes levelLower "beginner" then "beginner"
  else if includes levelLower "intermediate" then "intermediate"
  else if includes levelLower "advanced" then "advanced"
  else "beginner"

/-- `normalizeEquipment(equipment)`, that is `mapping[equipmentLower] ||
equipmentLower`.  An own entry is a string (kept when non-empty); an inherited
member is a truthy object, so it is what `||` returns. -/
def normalizeEquipment (equipment : String) : EquipmentTag :=
  let equipmentLower := toLowerCase equipment
  match jsLookup equipmentMapping equipmentLower with
  | .own value => if value = "" then .text equipmentLower else .text value
  | .inherited key => .object key
  | .undefined => .text equipmentLower

/-- `selectRandomExercises(exercises, count)`; `shuffle` is the outcome of
`[...exercises].sort(() => Math.random() - 0.5)` for this call. -/
def selectRandomExercises (shuffle : List ExerciseRecord → List ExerciseRecord)
    (exercises : List ExerciseRecord) (count : Nat) : List ExerciseRecord :=
  if exercises.isEmpty then []
  else
    let shuffled := shuffle exercises
    shuffled.take count

/-- The iteration `[...new Set(workouts)]`: members in order of first
insertion. -/
def newSet (workouts : List String) : List String :=
  workouts.foldl (fun seen w => if w ∈ seen then seen else seen ++ [w]) []

/-! ## Plan generator: `generateWorkoutPlan` -/

/-- The inputs of `generateWorkoutPlan` that come from outside the program:
the clock reads made while template `i` is built and the outcome of the random
sort for body part number `k` of template `i`. -/
structure World where
  dateNow : Nat → Nat
  isoNow : Nat → String
  shuffle : Nat → Nat → List ExerciseRecord → List ExerciseRecord

/-- The part of the user profile the generator reads. -/
structure UserProfile where
  fitnessGoals : Option (List String)
  experienceLevel : String
  availableEquipment : List String
  preferredSplit : String
  deriving DecidableEq

/-- The object pushed on `workoutExercises` for one selected exercise. -/
def stampExercise (repScheme : RepScheme) (exercise : ExerciseRecord) : TemplateExercise :=
  { id := exercise.id, name := exercise.name, bodyPart := exercise.bodyPart,
    target := exercise.target, equipment := exercise.equipment, gifUrl := exercise.gifUrl,
    sets := repScheme.sets, targetReps := repScheme.reps, restTime := repScheme.rest,
    notes := none }

/-- The loop `for (const bodyPart of structure.bodyParts)` of template `i`.
A count missing from `exerciseCount` is `undefined`, and `slice(0, undefined)`
keeps the whole list. -/
def selectWorkoutExercises (world : World) (repScheme : RepScheme)
    (availableExercises : List ExerciseRecord) (i : Nat) (structure_ : WorkoutStructure) :
    List TemplateExercise :=
  structure_.bodyParts.enum.foldl
    (fun workoutExercises kb =>
      let bodyPart := kb.2
      let count := structure_.exerciseCount.lookup bodyPart
      let bodyPartExercises :=
        availableExercises.filter (fun ex => toLowerCase ex.bodyPart = toLowerCase bodyPart)
      let selected :=
        selectRandomExercises (world.shuffle i kb.1) bodyPartExercises
          (count.getD bodyPartExercises.length)
      selected.foldl (fun acc exercise => acc ++ [stampExercise repScheme exercise])
        workoutExercises)
    []

/-- The template object built at the end of iteration `i`. -/
def makeTemplate (world : World) (i : Nat) (workoutType : String)
    (workoutExercises : List TemplateExercise) : WorkoutTemplate :=
  let totalSets := workoutExercises.foldl (fun sum ex => sum + ex.sets) 0
  let estimatedDuration := totalSets * 3
  { templateId := some ("template-" ++ toString (world.dateNow i) ++ "-" ++ toString i)
    name := workoutType ++ " Day"
    type := workoutType
    estimatedDuration := some estimatedDuration
    createdAt := some (world.isoNow i)
    exercises := workoutExercises }

/-- The loop `for (let i = 0; i < uniqueWorkoutTypes.length; i++)`.  The day
labels are constants of `WORKOUT_SPLITS`; a label without a structure is
skipped (`continue`). -/
def buildTemplates (world : World) (repScheme : RepScheme)
    (availableExercises : List ExerciseRecord) (uniqueWorkoutTypes : List String) :
    List WorkoutTemplate :=
  uniqueWorkoutTypes.enum.foldl
    (fun templates iw =>
      match WORKOUT_STRUCTURES.lookup iw.2 with
      | none => templates
      | some structure_ =>
        templates ++
          [makeTemplate world iw.1 iw.2
            (selectWorkoutExercises world repScheme availableExercises iw.1 structure_)])
    []

/-- `generateWorkoutPlan(userProfile)` with the catalog `allExercises` that
`getCachedExercises()` resolved to.  Every exception is caught by the
function's own `try`/`catch`, which returns `[]`: that is the `none` of the
equipment filter and of the rep-scheme read.  A split name that is an inherited
member passes the `!splitConfig` test, but its `workouts` is `undefined`, the
set built from it is empty and the loop body never runs. -/
def generateWorkoutPlan (world : World) (allExercises : List ExerciseRecord)
    (userProfile : UserProfile) : List WorkoutTemplate :=
  if allExercises.isEmpty then []
  else
    let userEquipment := userProfile.availableEquipment.map normalizeEquipment
    match filterExercises allExercises { equipment := some (.list userEquipment) } with
    | none => []
    | some availableExercises =>
      match jsLookup WORKOUT_SPLITS userProfile.preferredSplit with
      | .undefined => []
      | .inherited _ => []
      | .own splitConfig =>
        let primaryGoal := getPrimaryGoal userProfile.fitnessGoals
        let experienceKey := getExperienceKey userProfile.experienceLevel
        match repSchemeFor primaryGoal experienceKey with
        | none => []
        | some repScheme =>
          buildTemplates world repScheme availableExercises (newSet splitConfig.workouts)

/-! ## Session engine: `createWorkoutLog`, `calculateWorkoutStats`, finish -/

/-- The set entry `Array.from` builds at index `i`. -/
def emptySet (i : Nat) : SetEntry :=
  { setNumber := i + 1, weight := none, reps := none, completed := false,
    rpe := none, notes := none }

/-- The callback of `template.exercises.map` in `createWorkoutLog`. -/
def logExercise (ex : TemplateExercise) : LoggedExercise :=
  { id := ex.id, name := ex.name, bodyPart := ex.bodyPart, target := ex.target,
    equipment := ex.equipment, gifUrl := ex.gifUrl,
    sets := (List.range ex.sets).map emptySet,
    targetReps := ex.targetReps, restTime := ex.restTime, notes := ex.notes }

/-- `createWorkoutLog(template)`; `nowMs` is the value of `Date.now()` and
`nowIso` that of `new Date().toISOString()`. -/
def createWorkoutLog (nowMs : Nat) (nowIso : String) (template : WorkoutTemplate) :
    WorkoutLog :=
  { logId := "log-" ++ toString nowMs
    templateId := template.templateId
    name := template.name
    type := template.type
    startedAt := nowIso
    completedAt := none
    totalVolume := 0
    totalSets := 0
    totalReps := 0
    durationMinutes := 0
    notes := none
    exercises := template.exercises.map logExercise }

/-- The body of the inner loop of `calculateWorkoutStats`: the guard
`set.completed && set.weight && set.reps` is JS truthiness, so `null` and `0`
both fail it. -/
def statsStep (acc : WorkoutStats) (set : SetEntry) : WorkoutStats :=
  match set.completed, set.weight, set.reps with
  | true, some w, some r =>
    if w ≠ 0 ∧ r ≠ 0 then
      { totalVolume := acc.totalVolume + w * r
        totalSets := acc.totalSets + 1
        totalReps := acc.totalReps + r }
    else acc
  | _, _, _ => acc

/-- `calculateWorkoutStats(workoutLog)`: two nested loops over three
accumulators. -/
def calculateWorkoutStats (workoutLog : WorkoutLog) : WorkoutStats :=
  workoutLog.exercises.foldl (fun acc exercise => exercise.sets.foldl statsStep acc)
    { totalVolume := 0, totalSets := 0, totalReps := 0 }

/-- `Math.round(workoutElapsedTime / 60)` for a counter of whole seconds:
halves round up. -/
def roundMinutes (seconds : Nat) : Nat := (seconds + 30) / 60

/-- The `completedLog` built by the Finish button of `handleFinishWorkout`;
`elapsed` is the seconds counter and `nowIso` the clock read. -/
def handleFinishWorkout (workoutLog : WorkoutLog) (elapsed : Nat) (nowIso : String) :
    WorkoutLog :=
  let stats := calculateWorkoutStats workoutLog
  { workoutLog with
    completedAt := some nowIso
    totalVolume := stats.totalVolume
    totalSets := stats.totalSets
    totalReps := stats.totalReps
    durationMinutes := roundMinutes elapsed }

/-! ## Session engine: `updateSet` and `completeSet` -/

/-- An exception raised by a state updater.  `typeError` is what a property
access through `undefined` raises; `preconditionViolation` is the error kind
the spec names, which no statement of the source raises. -/
inductive JsError where
  | typeError (message : String)
  | preconditionViolation
  deriving DecidableEq

/-- Equality of results is decidable. -/
instance instDecidableEqExcept {ε α : Type} [DecidableEq ε] [DecidableEq α] :
    DecidableEq (Except ε α)
  | .ok a, .ok b =>
    if h : a = b then isTrue (congrArg Except.ok h)
    else isFalse (fun h2 => h (Except.ok.inj h2))
  | .error a, .error b =>
    if h : a = b then isTrue (congrArg Except.error h)
    else isFalse (fun h2 => h (Except.error.inj h2))
  | .ok _, .error _ => isFalse (fun h => Except.noConfusion h)
  | .error _, .ok _ => isFalse (fun h => Except.noConfusion h)

/-- The arguments `field, value` of `updateSet`: the field is one of the three
the session edits and the value has the field's type. -/
inductive SetUpdate where
  | weight (value : Option ℚ)
  | reps (value : Option ℚ)
  | notes (value : Option String)
  deriving DecidableEq

/-- The assignment `set[field] = value`. -/
def SetUpdate.assign (update : SetUpdate) (set : SetEntry) : SetEntry :=
  match update with
  | .weight value => { set with weight := value }
  | .reps value => { set with reps := value }
  | .notes value => { set with notes := value }

/-- The updater of `updateSet(exerciseIndex, setIndex, field, value)` applied
to the state `prev`: `updated.exercises[exerciseIndex].sets[setIndex][field] =
value` on a shallow copy of `prev`.  There is no bounds check; the read of
`.sets` on a missing exercise and the write to a missing set entry raise a
`TypeError` before anything is written. -/
def updateSet (prev : WorkoutLog) (exerciseIndex setIndex : Nat) (update : SetUpdate) :
    Except JsError WorkoutLog :=
  match prev.exercises[exerciseIndex]? with
  | none => .error (.typeError "cannot read property sets of undefined")
  | some exercise =>
    match exercise.sets[setIndex]? with
    | none => .error (.typeError "cannot set a property of undefined")
    | some set =>
      .ok { prev with
            exercises :=
              prev.exercises.set exerciseIndex
                { exercise with sets := exercise.sets.set setIndex (update.assign set) } }

/-- The updater of `completeSet(exerciseIndex, setIndex)` applied to the state
`prev`: `set.completed = !set.completed` on the addressed entry. -/
def completeSet (prev : WorkoutLog) (exerciseIndex setIndex : Nat) :
    Except JsError WorkoutLog :=
  match prev.exercises[exerciseIndex]? with
  | none => .error (.typeError "cannot read property sets of undefined")
  | some exercise =>
    match exercise.sets[setIndex]? with
    | none => .error (.typeError "cannot read property completed of undefined")
    | some set =>
      .ok { prev with
            exercises :=
              prev.exercises.set exerciseIndex
                { exercise with
                  sets := exercise.sets.set setIndex { set with completed := !set.completed } } }

/-- The state `setWorkoutLog(updater)` leaves: the updater's result, or the
previous state when the updater raised. -/
def setWorkoutLog (prev : WorkoutLog) (result : Except JsError WorkoutLog) : WorkoutLog :=
  match result with
  | .ok updated => updated
  | .error _ => prev

/-- An edit made during a session. -/
inductive SessionOp where
  | updateSet (exerciseIndex setIndex : Nat) (update : SetUpdate)
  | completeSet (exerciseIndex setIndex : Nat)
  deriving DecidableEq

/-- The state after one edit. -/
def SessionOp.apply (log : WorkoutLog) : SessionOp → WorkoutLog
  | .updateSet exerciseIndex setIndex update =>
    setWorkoutLog log (WorkoutBudy.updateSet log exerciseIndex setIndex update)
  | .completeSet exerciseIndex setIndex =>
    setWorkoutLog log (WorkoutBudy.completeSet log exerciseIndex setIndex)

/-- The state after a sequence of edits, first to last. -/
def applyOps (log : WorkoutLog) (ops : List SessionOp) : WorkoutLog :=
  ops.foldl SessionOp.apply log

/-! ### The wording of the spec for the edits -/

/-- The index pair addresses a set entry of the log. -/
def inRange (log : WorkoutLog) (exerciseIndex setIndex : Nat) : Bool :=
  match log.exercises[exerciseIndex]? with
  | none => false
  | some exercise => decide (setIndex < exercise.sets.length)

/-- An exercise with the editable fields of its entries blanked. -/
def LoggedExercise.frame (exercise : LoggedExercise) : LoggedExercise :=
  { exercise with
    sets :=
      exercise.sets.map
        (fun set => { set with weight := none, reps := none, completed := false, notes := none }) }

/-- A log with the editable fields of all its entries blanked. -/
def WorkoutLog.frame (log : WorkoutLog) : WorkoutLog :=
  { log with exercises := log.exercises.map LoggedExercise.frame }

/-- The set numbers of a log, exercise by exercise. -/
def WorkoutLog.setNumbers (log : WorkoutLog) : List (List Nat) :=
  log.exercises.map (fun exercise => exercise.sets.map (fun set => set.setNumber))

/-! ### The wording of the spec for the totals -/

/-- A set counts towards the totals: it is completed and both its weight and
its reps are present and non-zero. -/
def SetEntry.counts (s : SetEntry) : Bool :=
  s.completed && decide (s.weight.isSome ∧ s.weight ≠ some 0) &&
    decide (s.reps.isSome ∧ s.reps ≠ some 0)

/-- All set entries of a log, exercise after exercise. -/
def WorkoutLog.allSets (log : WorkoutLog) : List SetEntry :=
  log.exercises.flatMap (fun ex => ex.sets)

/-- The log without the sets that do not count. -/
def WorkoutLog.countedOnly (log : WorkoutLog) : WorkoutLog :=
  { log with
    exercises :=
      log.exercises.map (fun ex => { ex with sets := ex.sets.filter SetEntry.counts }) }


/-! ## The wording of the spec for goal and experience resolution -/

/-- Resolution by substring match: the key of the first entry of `table`, in
order, one of whose words occurs in the lower-cased text, and `fallback` when
no entry matches. -/
def resolveBySubstring (table : List (List String × String)) (fallback : String)
    (text : String) : String :=
  match table.find? (fun entry => entry.1.any (fun word => includes (toLowerCase text) word)) with
  | some entry => entry.2
  | none => fallback

/-- The four goals in the order they are tried, each with the words that
select it; the weight-loss goal is selected by `weight` or by `loss`. -/
def goalWords : List (List String × String) :=
  [(["strength"], "strength"), (["hypertrophy"], "hypertrophy"),
   (["endurance"], "endurance"), (["weight", "loss"], "weight loss")]

/-- The three experience levels in the order they are tried. -/
def experienceWords : List (List String × String) :=
  [(["beginner"], "beginner"), (["intermediate"], "intermediate"),
   (["advanced"], "advanced")]

/-! ## The wording of the spec for `filterExercises` -/

/-- The tag of a tag list equals the record's equipment, ignoring case. -/
def EquipmentTag.matchesEquipment (ex : ExerciseRecord) : EquipmentTag → Bool
  | .text eq => decide (toLowerCase ex.equipment = toLowerCase eq)
  | .object _ => false

/-- The tag is a string. -/
def EquipmentTag.isText : EquipmentTag → Bool
  | .text _ => true
  | .object _ => false

/-- The record satisfies every criterion that is present: body part, one
equipment tag or membership in the tag list, target, and name search. -/
def satisfiesPresent (filters : ExerciseFilters) (ex : ExerciseRecord) : Bool :=
  (match filters.bodyPart with
    | none => true
    | some bodyPart => decide (toLowerCase ex.bodyPart = toLowerCase bodyPart)) &&
  (match filters.equipment with
    | none => true
    | some (.single tag) => decide (toLowerCase ex.equipment = toLowerCase tag)
    | some (.list tags) => tags.any (EquipmentTag.matchesEquipment ex)) &&
  (match filters.target with
    | none => true
    | some target => decide (toLowerCase ex.target = toLowerCase target)) &&
  (match filters.search with
    | none => true
    | some text => includes (toLowerCase ex.name) (toLowerCase text))

/-- A text criterion with the empty string read as absent. -/
def nonEmptyText (criterion : Option String) : Option String :=
  match criterion with
  | none => none
  | some text => if text = "" then none else some text

/-- The criteria with every empty-string criterion read as absent. -/
def ExerciseFilters.nonEmpty (filters : ExerciseFilters) : ExerciseFilters :=
  { bodyPart := nonEmptyText filters.bodyPart
    equipment :=
      match filters.equipment with
      | none => none
      | some (.list tags) => some (.list tags)
      | some (.single tag) => if tag = "" then none else some (.single tag)
    target := nonEmptyText filters.target
    search := nonEmptyText filters.search }

/-- Every member of the equipment tag list, when there is one, is a string. -/
def ExerciseFilters.tagsAreStrings (filters : ExerciseFilters) : Bool :=
  match filters.equipment with
  | some (.list tags) => tags.all EquipmentTag.isText
  | _ => true

/-! ## Local store (`src/services/storage.js`): tables -/

/-- An exception thrown by a statement of the store: the store itself failed,
or a constraint of the schema rejected the statement. -/
inductive DbError where
  | unavailable
  | constraint (message : String)
  deriving DecidableEq

/-- A table with an `INTEGER PRIMARY KEY AUTOINCREMENT` column: the rows, each
with its id, and the largest id ever issued (`sqlite_sequence`). -/
structure Table (ρ : Type) where
  rows : List (Nat × ρ)
  sequence : Nat
  deriving DecidableEq

/-- The empty table of a fresh database. -/
def Table.empty {ρ : Type} : Table ρ := { rows := [], sequence := 0 }

/-- The id `AUTOINCREMENT` gives the next row: one more than the largest id
issued or present. -/
def Table.nextId {ρ : Type} (t : Table ρ) : Nat :=
  max t.sequence (t.rows.foldl (fun largest row => max largest row.1) 0) + 1

/-- The statement `INSERT INTO t (...) VALUES (...)`. -/
def Table.insert {ρ : Type} (t : Table ρ) (row : ρ) : Table ρ :=
  { rows := t.rows ++ [(t.nextId, row)], sequence := t.nextId }

/-- The statement `DELETE FROM t`; the sequence is kept. -/
def Table.deleteAll {ρ : Type} (t : Table ρ) : Table ρ := { t with rows := [] }

/-- The rows in the order of a table scan, that is by id. -/
def Table.scan {ρ : Type} (t : Table ρ) : List (Nat × ρ) :=
  t.rows.insertionSort (fun a b => a.1 ≤ b.1)

/-- A row of `user_profile`; the two JSON columns hold the value their text
parses to. -/
structure UserProfileRow where
  user_id : String
  fitness_goals : Option (List String)
  experience_level : String
  available_equipment : List String
  workout_frequency : Option Nat
  preferred_split : Option String
  rest_timer_default : Option Nat
  weight_unit : Option String
  created_at : String
  deriving DecidableEq

/-- A row of `workout_templates`. -/
structure WorkoutTemplateRow where
  template_id : String
  name : String
  type : String
  estimated_duration : Option Nat
  created_at : String
  deriving DecidableEq

/-- A row of `template_exercises`. -/
structure TemplateExerciseRow where
  template_id : String
  exercise_id : String
  name : String
  body_part : String
  target : String
  equipment : String
  gif_url : Option String
  sets : Nat
  target_reps : String
  rest_time : Nat
  notes : Option String
  exercise_order : Nat
  deriving DecidableEq

/-- A row of `workout_logs`. -/
structure WorkoutLogRow where
  log_id : String
  template_id : Option String
  name : String
  type : String
  started_at : String
  completed_at : Option String
  total_volume : Option ℚ
  total_sets : Option Nat
  total_reps : Option ℚ
  duration_minutes : Option Nat
  notes : Option String
  deriving DecidableEq

/-- A row of `logged_exercises`. -/
structure LoggedExerciseRow where
  log_id : String
  exercise_id : String
  name : String
  body_part : String
  target : String
  equipment : String
  exercise_order : Nat
  deriving DecidableEq

/-- A row of `sets`; `completed` is the integer 1 or 0. -/
structure SetRow where
  logged_exercise_id : Nat
  set_number : Nat
  weight : Option ℚ
  reps : Option ℚ
  completed : Nat
  rpe : Option ℚ
  notes : Option String
  deriving DecidableEq

/-- A row of `active_workout`; `workout_data` holds the log its JSON text
parses to (a log is plain data, which `JSON.parse` gives back from
`JSON.stringify` unchanged). -/
structure ActiveWorkoutRow where
  workout_data : WorkoutLog
  last_updated : String
  deriving DecidableEq

/-- The database `workout.db`. -/
structure Db where
  user_profile : Table UserProfileRow
  workout_templates : Table WorkoutTemplateRow
  template_exercises : Table TemplateExerciseRow
  workout_logs : Table WorkoutLogRow
  logged_exercises : Table LoggedExerciseRow
  sets : Table SetRow
  active_workout : Table ActiveWorkoutRow
  deriving DecidableEq

/-- The database after `initDatabase` on a fresh install. -/
def Db.empty : Db :=
  { user_profile := Table.empty, workout_templates := Table.empty,
    template_exercises := Table.empty, workout_logs := Table.empty,
    logged_exercises := Table.empty, sets := Table.empty, active_workout := Table.empty }

/-! ## Local store: statements that may fail -/

/-- The store as a storage function sees it: the database, and how many more
statements the store carries out before it fails (`none`: it does not fail). -/
structure Conn where
  db : Db
  failAfter : Option Nat
  deriving DecidableEq

/-- A computation on the store: its result or the exception it threw, and the
store it leaves.  What ran before a failing statement stays done: the source
opens no transaction. -/
def DbM (α : Type) : Type := Conn → Except DbError α × Conn

/-- Return a value without touching the store. -/
def DbM.pure {α : Type} (value : α) : DbM α := fun conn => (.ok value, conn)

/-- Run `first`, then `next` on its result; an exception ends the sequence. -/
def DbM.bind {α β : Type} (first : DbM α) (next : α → DbM β) : DbM β := fun conn =>
  match first conn with
  | (.ok value, conn2) => next value conn2
  | (.error e, conn2) => (.error e, conn2)

/-- The sequencing of statements. -/
instance instMonadDbM : Monad DbM where
  pure := DbM.pure
  bind := DbM.bind

/-- One call of `db.runSync`, `db.getFirstSync` or `db.getAllSync`: it throws
when the store has failed or the statement is rejected, and otherwise applies
`action` to the database. -/
def statement {α : Type} (action : Db → Except DbError (α × Db)) : DbM α := fun conn =>
  match conn.failAfter with
  | some 0 => (.error .unavailable, conn)
  | failAfter =>
    match action conn.db with
    | .error e => (.error e, conn)
    | .ok (value, db) => (.ok value, { db := db, failAfter := failAfter.map Nat.pred })

/-- A statement that changes the database and cannot be rejected. -/
def runSync (change : Db → Db) : DbM Unit :=
  statement (fun db => .ok ((), change db))

/-- A statement that only reads. -/
def querySync {α : Type} (read : Db → α) : DbM α :=
  statement (fun db => .ok (read db, db))

/-- A `for` loop over a list, one computation per element. -/
def forEach {α : Type} (items : List α) (body : α → DbM Unit) : DbM Unit :=
  match items with
  | [] => DbM.pure ()
  | item :: rest => DbM.bind (body item) (fun _ => forEach rest body)

/-- The call `items.map(callback)` with a callback that reads the store. -/
def mapEach {α β : Type} (items : List α) (callback : α → DbM β) : DbM (List β) :=
  match items with
  | [] => DbM.pure []
  | item :: rest =>
    DbM.bind (callback item) (fun value =>
      DbM.bind (mapEach rest callback) (fun values => DbM.pure (value :: values)))

/-- The shape `try { body } catch (error) { console.error(...); return
fallback }`. -/
def catchReturn {α : Type} (body : DbM α) (fallback : α) (conn : Conn) : α × Conn :=
  match body conn with
  | (.ok value, conn2) => (value, conn2)
  | (.error _, conn2) => (fallback, conn2)

/-- The shape `try { body } catch (error) { console.error(...); throw error }`. -/
def catchRethrow {α : Type} (body : DbM α) (conn : Conn) : Except DbError α × Conn :=
  match body conn with
  | (.ok value, conn2) => (.ok value, conn2)
  | (.error e, conn2) => (.error e, conn2)

/-! ## Local store: the active workout -/

/-- The `try` block of `saveActiveWorkout(workout)`; `nowIso` is the clock
read of the insert. -/
def saveActiveWorkoutBody (workout : WorkoutLog) (nowIso : String) : DbM WorkoutLog := do
  runSync (fun db => { db with active_workout := db.active_workout.deleteAll })
  runSync (fun db =>
    { db with
      active_workout :=
        db.active_workout.insert { workout_data := workout, last_updated := nowIso } })
  pure workout

/-- `saveActiveWorkout(workout)`: an exception is logged and thrown again. -/
def saveActiveWorkout (workout : WorkoutLog) (nowIso : String) (conn : Conn) :
    Except DbError WorkoutLog × Conn :=
  catchRethrow (saveActiveWorkoutBody workout nowIso) conn

/-- The `try` block of `getActiveWorkout()`: the first row of the table, if
any, parsed. -/
def getActiveWorkoutBody : DbM (Option WorkoutLog) := do
  let result ← querySync (fun db => db.active_workout.scan.head?)
  match result with
  | none => pure none
  | some row => pure (some row.2.workout_data)

/-- `getActiveWorkout()`: an exception is logged and `null` returned. -/
def getActiveWorkout (conn : Conn) : Option WorkoutLog × Conn :=
  catchReturn getActiveWorkoutBody none conn

/-- `clearActiveWorkout()`: an exception is logged and swallowed. -/
def clearActiveWorkout (conn : Conn) : Unit × Conn :=
  catchReturn (runSync (fun db => { db with active_workout := db.active_workout.deleteAll }))
    () conn

/-- A call made on the active-workout table. -/
inductive ActiveOp where
  | save (workout : WorkoutLog) (nowIso : String)
  | clear
  deriving DecidableEq

/-- The store after one call. -/
def ActiveOp.apply (conn : Conn) : ActiveOp → Conn
  | .save workout nowIso => (saveActiveWorkout workout nowIso conn).2
  | .clear => (clearActiveWorkout conn).2

/-- The store after a sequence of calls, first to last. -/
def applyActiveOps (conn : Conn) (ops : List ActiveOp) : Conn :=
  ops.foldl ActiveOp.apply conn

/-- The log of the last call when that call is a save, `none` when it is a
clear or there is no call. -/
def lastSaved (ops : List ActiveOp) : Option WorkoutLog :=
  match ops.getLast? with
  | some (.save workout _) => some workout
  | _ => none

/-! ## Continuing the active workout (`HomeScreen.js`, `WorkoutScreen.js`) -/

/-- The length `Array.from({ length: ex.sets }, ...)` reads when `ex.sets` is
an array of set entries: the array converts to a string that is not a number
(`"[object Object],..."`, or `""` for the empty array), so the length is 0. -/
def lengthOfSetArray (_sets : List SetEntry) : Nat := 0

/-- The active log read as the `template` route parameter: the Continue
button passes `activeWorkout` to `handleStartWorkout`, which navigates with
`{ template }`.  Each exercise keeps its fields; its `sets`, an array, is read
where a template has a count. -/
def logAsTemplate (activeWorkout : WorkoutLog) : WorkoutTemplate :=
  { templateId := activeWorkout.templateId
    name := activeWorkout.name
    type := activeWorkout.type
    estimatedDuration := none
    createdAt := none
    exercises :=
      activeWorkout.exercises.map (fun ex =>
        { id := ex.id, name := ex.name, bodyPart := ex.bodyPart, target := ex.target,
          equipment := ex.equipment, gifUrl := ex.gifUrl, sets := lengthOfSetArray ex.sets,
          targetReps := ex.targetReps, restTime := ex.restTime, notes := ex.notes }) }

/-- The log the workout screen starts with when the user continues the active
workout: the mount effect always runs `createWorkoutLog(template)`. -/
def continueWorkout (nowMs : Nat) (nowIso : String) (activeWorkout : WorkoutLog) : WorkoutLog :=
  createWorkoutLog nowMs nowIso (logAsTemplate activeWorkout)

/-! ## Local store: values with `|| null` and `|| 0` -/

/-- The expression `text || null`: the empty string is falsy. -/
def textOrNull (text : Option String) : Option String :=
  match text with
  | none => none
  | some s => if s = "" then none else some s

/-- The expression `number || null`: zero is falsy. -/
def numberOrNull (number : Option ℚ) : Option ℚ :=
  match number with
  | none => none
  | some x => if x = 0 then none else some x

/-! ## Local store: the user profile -/

/-- The profile object of the onboarding screen. -/
structure UserProfileRecord where
  userId : String
  createdAt : String
  fitnessGoals : Option (List String)
  experienceLevel : String
  availableEquipment : List String
  workoutFrequency : Option Nat
  preferredSplit : Option String
  restTimerDefault : Option Nat
  weightUnit : Option String
  deriving DecidableEq

/-- The `try` block of `saveUserProfile(profile)`: `INSERT OR REPLACE` removes
the row with the same `user_id`, if any, and inserts the new one. -/
def saveUserProfileBody (profile : UserProfileRecord) : DbM UserProfileRecord := do
  runSync (fun db =>
    { db with
      user_profile :=
        Table.insert
          { db.user_profile with
            rows := db.user_profile.rows.filter (fun row => row.2.user_id ≠ profile.userId) }
          { user_id := profile.userId
            fitness_goals := profile.fitnessGoals
            experience_level := profile.experienceLevel
            available_equipment := profile.availableEquipment
            workout_frequency := profile.workoutFrequency
            preferred_split := profile.preferredSplit
            rest_timer_default := profile.restTimerDefault
            weight_unit := profile.weightUnit
            created_at := profile.createdAt } })
  pure profile

/-- `saveUserProfile(profile)`: an exception is logged and thrown again. -/
def saveUserProfile (profile : UserProfileRecord) (conn : Conn) :
    Except DbError UserProfileRecord × Conn :=
  catchRethrow (saveUserProfileBody profile) conn

/-- The `try` block of `getUserProfile()`: the row with the largest id. -/
def getUserProfileBody : DbM (Option UserProfileRecord) := do
  let result ← querySync (fun db => db.user_profile.scan.getLast?)
  match result with
  | none => pure none
  | some row =>
    pure (some
      { userId := row.2.user_id
        fitnessGoals := row.2.fitness_goals
        experienceLevel := row.2.experience_level
        availableEquipment := row.2.available_equipment
        workoutFrequency := row.2.workout_frequency
        preferredSplit := row.2.preferred_split
        restTimerDefault := row.2.rest_timer_default
        weightUnit := row.2.weight_unit
        createdAt := row.2.created_at })

/-- `getUserProfile()`: an exception is logged and `null` returned. -/
def getUserProfile (conn : Conn) : Option UserProfileRecord × Conn :=
  catchReturn getUserProfileBody none conn

/-! ## Local store: the workout templates -/

/-- The insert into `workout_templates`: `template_id` and `created_at` are
`NOT NULL` and `template_id` is `UNIQUE`. -/
def insertTemplate (template : WorkoutTemplate) : DbM Unit :=
  statement (fun db =>
    match template.templateId, template.createdAt with
    | some templateId, some createdAt =>
      if db.workout_templates.rows.any (fun row => row.2.template_id = templateId) then
        .error (.constraint "UNIQUE constraint failed: workout_templates.template_id")
      else
        .ok ((),
          { db with
            workout_templates :=
              db.workout_templates.insert
                { template_id := templateId, name := template.name, type := template.type,
                  estimated_duration := template.estimatedDuration, created_at := createdAt } })
    | _, _ => .error (.constraint "NOT NULL constraint failed"))

/-- The insert into `template_exercises` of the exercise at position `i`. -/
def insertTemplateExercise (template : WorkoutTemplate) (i : Nat)
    (exercise : TemplateExercise) : DbM Unit :=
  statement (fun db =>
    match template.templateId with
    | none => .error (.constraint "NOT NULL constraint failed: template_exercises.template_id")
    | some templateId =>
      .ok ((),
        { db with
          template_exercises :=
            db.template_exercises.insert
              { template_id := templateId, exercise_id := exercise.id, name := exercise.name,
                body_part := exercise.bodyPart, target := exercise.target,
                equipment := exercise.equipment, gif_url := exercise.gifUrl,
                sets := exercise.sets, target_reps := exercise.targetReps,
                rest_time := exercise.restTime, notes := textOrNull exercise.notes,
                exercise_order := i } }))

/-- The `try` block of `saveWorkoutTemplates(templates)`: two deletes, then
one insert per template and per exercise, with no transaction around them. -/
def saveWorkoutTemplatesBody (templates : List WorkoutTemplate) :
    DbM (List WorkoutTemplate) := do
  runSync (fun db => { db with template_exercises := db.template_exercises.deleteAll })
  runSync (fun db => { db with workout_templates := db.workout_templates.deleteAll })
  forEach templates (fun template => do
    insertTemplate template
    forEach template.exercises.enum (fun ie => insertTemplateExercise template ie.1 ie.2))
  pure templates

/-- `saveWorkoutTemplates(templates)`: an exception is logged and thrown
again. -/
def saveWorkoutTemplates (templates : List WorkoutTemplate) (conn : Conn) :
    Except DbError (List WorkoutTemplate) × Conn :=
  catchRethrow (saveWorkoutTemplatesBody templates) conn

/-- The exercises of one stored template, `ORDER BY exercise_order`. -/
def templateExercisesOf (db : Db) (templateId : String) : List TemplateExercise :=
  ((db.template_exercises.scan.filter (fun row => row.2.template_id = templateId)).insertionSort
      (fun a b => a.2.exercise_order ≤ b.2.exercise_order)).map
    (fun ex =>
      { id := ex.2.exercise_id, name := ex.2.name, bodyPart := ex.2.body_part,
        target := ex.2.target, equipment := ex.2.equipment, gifUrl := ex.2.gif_url,
        sets := ex.2.sets, targetReps := ex.2.target_reps, restTime := ex.2.rest_time,
        notes := ex.2.notes })

/-- The `try` block of `getWorkoutTemplates()`: one query for the templates,
then one query per template for its exercises. -/
def getWorkoutTemplatesBody : DbM (List WorkoutTemplate) := do
  let templates ← querySync (fun db => db.workout_templates.scan)
  if templates.isEmpty then pure []
  else
    mapEach templates (fun template => do
      let exercises ← querySync (fun db => templateExercisesOf db template.2.template_id)
      pure
        { templateId := some template.2.template_id
          name := template.2.name
          type := template.2.type
          estimatedDuration := template.2.estimated_duration
          createdAt := some template.2.created_at
          exercises := exercises })

/-- `getWorkoutTemplates()`: an exception is logged and `[]` returned. -/
def getWorkoutTemplates (conn : Conn) : List WorkoutTemplate × Conn :=
  catchReturn getWorkoutTemplatesBody [] conn

/-! ## Local store: the workout history -/

/-- An exercise of a log read back from the history tables. -/
structure HistoryExercise where
  id : String
  name : String
  bodyPart : String
  target : String
  equipment : String
  gifUrl : Option String
  sets : List SetEntry
  deriving DecidableEq

/-- A log read back from the history tables. -/
structure HistoryLog where
  logId : String
  templateId : Option String
  name : String
  type : String
  startedAt : String
  completedAt : Option String
  totalVolume : Option ℚ
  totalSets : Option Nat
  totalReps : Option ℚ
  durationMinutes : Option Nat
  notes : Option String
  exercises : List HistoryExercise
  deriving DecidableEq

/-- The insert into `workout_logs`; `log_id` is `UNIQUE`. -/
def insertWorkoutLog (workoutLog : WorkoutLog) : DbM Unit :=
  statement (fun db =>
    if db.workout_logs.rows.any (fun row => row.2.log_id = workoutLog.logId) then
      .error (.constraint "UNIQUE constraint failed: workout_logs.log_id")
    else
      .ok ((),
        { db with
          workout_logs :=
            db.workout_logs.insert
              { log_id := workoutLog.logId
                template_id := textOrNull workoutLog.templateId
                name := workoutLog.name
                type := workoutLog.type
                started_at := workoutLog.startedAt
                completed_at := workoutLog.completedAt
                total_volume := some workoutLog.totalVolume
                total_sets := some workoutLog.totalSets
                total_reps := some workoutLog.totalReps
                duration_minutes := some workoutLog.durationMinutes
                notes := textOrNull workoutLog.notes } }))

/-- The insert into `logged_exercises` of the exercise at position `i`; the
result is `lastInsertRowId`. -/
def insertLoggedExercise (workoutLog : WorkoutLog) (i : Nat) (exercise : LoggedExercise) :
    DbM Nat :=
  statement (fun db =>
    .ok (db.logged_exercises.nextId,
      { db with
        logged_exercises :=
          db.logged_exercises.insert
            { log_id := workoutLog.logId, exercise_id := exercise.id, name := exercise.name,
              body_part := exercise.bodyPart, target := exercise.target,
              equipment := exercise.equipment, exercise_order := i } }))

/-- The insert into `sets` of one set entry. -/
def insertSet (loggedExerciseId : Nat) (set : SetEntry) : DbM Unit :=
  runSync (fun db =>
    { db with
      sets :=
        db.sets.insert
          { logged_exercise_id := loggedExerciseId
            set_number := set.setNumber
            weight := numberOrNull set.weight
            reps := numberOrNull set.reps
            completed := if set.completed then 1 else 0
            rpe := numberOrNull set.rpe
            notes := textOrNull set.notes } })

/-- The `try` block of `addWorkoutToHistory(workoutLog)`: one insert for the
log, one per exercise and one per set, with no transaction around them. -/
def addWorkoutToHistoryBody (workoutLog : WorkoutLog) : DbM WorkoutLog := do
  insertWorkoutLog workoutLog
  forEach workoutLog.exercises.enum (fun ie => do
    let loggedExerciseId ← insertLoggedExercise workoutLog ie.1 ie.2
    forEach ie.2.sets (fun set => insertSet loggedExerciseId set))
  pure workoutLog

/-- `addWorkoutToHistory(workoutLog)`: an exception is logged and thrown
again. -/
def addWorkoutToHistory (workoutLog : WorkoutLog) (conn : Conn) :
    Except DbError WorkoutLog × Conn :=
  catchRethrow (addWorkoutToHistoryBody workoutLog) conn

/-- The order of `ORDER BY` on a nullable text column: `NULL` sorts before
every text. -/
def nullsFirstLe : Option String → Option String → Bool
  | none, _ => true
  | some _, none => false
  | some a, some b => decide (a ≤ b)

/-- The sets of one logged exercise, `ORDER BY set_number`. -/
def setsOf (db : Db) (loggedExerciseId : Nat) : List SetEntry :=
  ((db.sets.scan.filter (fun row => row.2.logged_exercise_id = loggedExerciseId)).insertionSort
      (fun a b => a.2.set_number ≤ b.2.set_number)).map
    (fun s =>
      { setNumber := s.2.set_number, weight := s.2.weight, reps := s.2.reps,
        completed := decide (s.2.completed = 1), rpe := s.2.rpe, notes := s.2.notes })

/-- The `try` block of `getWorkoutHistory(limit)`: one query for the logs,
newest first, one per log for its exercises and one per exercise for its
sets. -/
def getWorkoutHistoryBody (limit : Nat) : DbM (List HistoryLog) := do
  let logs ← querySync (fun db =>
    (db.workout_logs.scan.insertionSort
      (fun a b => nullsFirstLe b.2.completed_at a.2.completed_at = true)).take limit)
  if logs.isEmpty then pure []
  else
    mapEach logs (fun log => do
      let exercises ← querySync (fun db =>
        (db.logged_exercises.scan.filter (fun row => row.2.log_id = log.2.log_id)).insertionSort
          (fun a b => a.2.exercise_order ≤ b.2.exercise_order))
      let loggedExercises ← mapEach exercises (fun ex => do
        let sets ← querySync (fun db => setsOf db ex.1)
        pure
          ({ id := ex.2.exercise_id, name := ex.2.name, bodyPart := ex.2.body_part,
             target := ex.2.target, equipment := ex.2.equipment, gifUrl := none,
             sets := sets } : HistoryExercise))
      pure
        ({ logId := log.2.log_id
           templateId := log.2.template_id
           name := log.2.name
           type := log.2.type
           startedAt := log.2.started_at
           completedAt := log.2.completed_at
           totalVolume := log.2.total_volume
           totalSets := log.2.total_sets
           totalReps := log.2.total_reps
           durationMinutes := log.2.duration_minutes
           notes := log.2.notes
           exercises := loggedExercises } : HistoryLog))

/-- `getWorkoutHistory(limit = 50)`: an exception is logged and `[]`
returned. -/
def getWorkoutHistory (limit : Nat) (conn : Conn) : List HistoryLog × Conn :=
  catchReturn (getWorkoutHistoryBody limit) [] conn

/-! ## Local store: analytics -/

/-- The row `getExercisePR` returns. -/
structure PRRow where
  max_weight : Option ℚ
  reps : Option ℚ
  deriving DecidableEq

/-- The rows of `sets s JOIN logged_exercises le ON s.logged_exercise_id =
le.id WHERE le.name = ? AND s.completed = 1`, as set rows. -/
def completedSetsOf (db : Db) (exerciseName : String) : List SetRow :=
  db.sets.scan.flatMap (fun s =>
    db.logged_exercises.scan.filterMap (fun le =>
      if s.2.logged_exercise_id = le.1 ∧ le.2.name = exerciseName ∧ s.2.completed = 1 then
        some s.2
      else none))

/-- The larger of two nullable numbers in the order of `ORDER BY`, where
`NULL` is below every number. -/
def sqlMax : Option ℚ → Option ℚ → Option ℚ
  | none, b => b
  | some a, none => some a
  | some a, some b => some (max a b)

/-- The weight of the first group of `GROUP BY s.weight ORDER BY s.weight
DESC`: the largest weight, `NULL` when every weight is `NULL`. -/
def topWeight (rows : List SetRow) : Option ℚ :=
  rows.foldl (fun largest row => sqlMax largest row.weight) none

/-- The query of `getExercisePR`.  The first group in descending order of
weight is the group of the largest weight; `MAX(weight)` is that weight, and
the bare column `reps` comes from one row of the group, which SQLite picks:
`pick first others` is that row for the group `first :: others`. -/
def exercisePRQuery (pick : SetRow → List SetRow → SetRow) (db : Db)
    (exerciseName : String) : Option PRRow :=
  match completedSetsOf db exerciseName with
  | [] => none
  | row :: rows =>
    match (row :: rows).filter (fun r => r.weight = topWeight (row :: rows)) with
    | [] => none
    | first :: others =>
      some { max_weight := topWeight (row :: rows), reps := (pick first others).reps }

/-- `getExercisePR(exerciseName)`: `result || null`; an exception is logged
and `null` returned. -/
def getExercisePR (pick : SetRow → List SetRow → SetRow) (exerciseName : String)
    (conn : Conn) : Option PRRow × Conn :=
  catchReturn (querySync (fun db => exercisePRQuery pick db exerciseName)) none conn

/-- A row `getExerciseVolumeTrend` returns. -/
structure VolumeRow where
  completed_at : String
  volume : Option ℚ
  deriving DecidableEq

/-- The product `s.weight * s.reps`: `NULL` when a factor is `NULL`. -/
def sqlProduct (weight reps : Option ℚ) : Option ℚ :=
  match weight, reps with
  | some w, some r => some (w * r)
  | _, _ => none

/-- The aggregate `SUM`: the sum of the values that are not `NULL`, and `NULL`
when there is none. -/
def sqlSum (values : List (Option ℚ)) : Option ℚ :=
  match values.filterMap id with
  | [] => none
  | x :: xs => some (x :: xs).sum

/-- The rows of the three-table join of `getExerciseVolumeTrend` that pass its
`WHERE`, each as the log's `completed_at` and the product of the set: the set
is completed, its exercise has the name, and the log's `completed_at` is not
`NULL` and not before the cutoff (text comparison). -/
def volumeRowsOf (db : Db) (exerciseName cutoff : String) : List (String × Option ℚ) :=
  db.sets.scan.flatMap (fun s =>
    db.logged_exercises.scan.flatMap (fun le =>
      db.workout_logs.scan.filterMap (fun wl =>
        match wl.2.completed_at with
        | none => none
        | some completedAt =>
          if s.2.logged_exercise_id = le.1 ∧ le.2.log_id = wl.2.log_id ∧
              le.2.name = exerciseName ∧ s.2.completed = 1 ∧ cutoff ≤ completedAt then
            some (completedAt, sqlProduct s.2.weight s.2.reps)
          else none)))

/-- The query of `getExerciseVolumeTrend`: `GROUP BY wl.completed_at ORDER BY
wl.completed_at ASC` with `SUM(s.weight * s.reps)` per group. -/
def volumeTrendQuery (db : Db) (exerciseName cutoff : String) : List VolumeRow :=
  (((volumeRowsOf db exerciseName cutoff).map Prod.fst).dedup.insertionSort (· ≤ ·)).map
    (fun completedAt =>
      { completed_at := completedAt
        volume :=
          sqlSum (((volumeRowsOf db exerciseName cutoff).filter
            (fun row => row.1 = completedAt)).map Prod.snd) })

/-- `getExerciseVolumeTrend(exerciseName, days)`; `cutoff` is the ISO text of
the clock set back by `days` days.  An exception is logged and `[]`
returned. -/
def getExerciseVolumeTrend (exerciseName cutoff : String) (conn : Conn) :
    List VolumeRow × Conn :=
  catchReturn (querySync (fun db => volumeTrendQuery db exerciseName cutoff)) [] conn

/-- The calendar date of an ISO time: its first ten characters. -/
def isoDate (iso : String) : String := String.mk (iso.data.take 10)

/-! ## Exercise detail: when an exercise was last performed -/

/-- The state `lastPerformed` after `loadExerciseData`: the `completedAt` of
the first log of the history that has an exercise with the name, and the
previous state when there is none (`null` when the screen was just opened). -/
def loadLastPerformed (previous : Option String) (history : List HistoryLog)
    (exerciseName : String) : Option String :=
  match history.find? (fun workout => workout.exercises.any (fun ex => ex.name = exerciseName)) with
  | some lastWorkout => lastWorkout.completedAt
  | none => previous

/-! ## History: repeating a workout -/

/-- The template `handleRepeatWorkout(workout)` navigates with. -/
def handleRepeatWorkout (workout : HistoryLog) : WorkoutTemplate :=
  { templateId := workout.templateId
    name := workout.name
    type := workout.type
    estimatedDuration := none
    createdAt := none
    exercises :=
      workout.exercises.map (fun ex =>
        { id := ex.id, name := ex.name, bodyPart := ex.bodyPart, target := ex.target,
          equipment := ex.equipment, gifUrl := textOrNull ex.gifUrl, sets := ex.sets.length,
          targetReps := "8-12", restTime := 90, notes := none }) }

/-! ## Exercise catalog: the cache of `fetchAllExercises` -/

/-- The module variable `exerciseCache`. -/
structure ExerciseCache where
  data : Option (List ExerciseRecord)
  timestamp : Option Nat
  expiryMs : Nat
  deriving DecidableEq

/-- Twenty-four hours in milliseconds. -/
def dayMs : Nat := 24 * 60 * 60 * 1000

/-- The cache when the module is loaded and after `clearCache()`. -/
def emptyCache : ExerciseCache := { data := none, timestamp := none, expiryMs := dayMs }

/-- `isCacheValid()` at the clock read `now`: `null` data, a `null` timestamp
and the timestamp 0 are falsy. -/
def isCacheValid (cache : ExerciseCache) (now : Nat) : Bool :=
  match cache.data, cache.timestamp with
  | some _, some timestamp =>
    if timestamp = 0 then false
    else decide ((now : Int) - (timestamp : Int) < (cache.expiryMs : Int))
  | _, _ => false

/-- What `apiClient.get('/exercises')` does: it resolves with a response whose
`data` is a list or `null`, or it rejects with an error. -/
inductive FetchOutcome where
  | response (data : Option (List ExerciseRecord))
  | failure (message : String)
  deriving DecidableEq

/-- The result of a call of `fetchAllExercises`: the list returned, the cache
left, and whether the request was made. -/
structure FetchResult where
  exercises : List ExerciseRecord
  cache : ExerciseCache
  requested : Bool
  deriving DecidableEq

/-- `fetchAllExercises()`; `now` is the clock read of `isCacheValid`,
`stamp` the one stored with a response, `outcome` what the request does if it
is made.  A response without data makes `response.data.length` raise after
the cache was written, and the `catch` then finds the cache empty. -/
def fetchAllExercises (cache : ExerciseCache) (now stamp : Nat) (outcome : FetchOutcome) :
    FetchResult :=
  if isCacheValid cache now then
    { exercises := cache.data.getD [], cache := cache, requested := false }
  else
    match outcome with
    | .response (some data) =>
      { exercises := data
        cache := { cache with data := some data, timestamp := some stamp }
        requested := true }
    | .response none =>
      { exercises := []
        cache := { cache with data := none, timestamp := some stamp }
        requested := true }
    | .failure _ =>
      { exercises := cache.data.getD [], cache := cache, requested := true }

/-! ## Sample inputs -/

/-- A world with a fixed clock whose random sort reverses its input. -/
def demoWorld : World :=
  { dateNow := fun _ => 1700000000000
    isoNow := fun _ => "2024-01-01T00:00:00.000Z"
    shuffle := fun _ _ exercises => exercises.reverse }

/-- A catalog of two dumbbell chest exercises and a barbell back exercise. -/
def demoCatalog : List ExerciseRecord :=
  [{ id := "0001", name := "dumbbell bench press", bodyPart := "chest", target := "pectorals",
     equipment := "dumbbell", gifUrl := none },
   { id := "0002", name := "Dumbbell Fly", bodyPart := "Chest", target := "pectorals",
     equipment := "Dumbbell", gifUrl := none },
   { id := "0003", name := "barbell bent over row", bodyPart := "back", target := "upper back",
     equipment := "barbell", gifUrl := none }]

/-- The profile of the scenario: strength, beginner, full body, dumbbells. -/
def demoProfile : UserProfile :=
  { fitnessGoals := some ["Strength"], experienceLevel := "Beginner",
    availableEquipment := ["Dumbbells"], preferredSplit := "FullBody" }

/-- The one exercise `demoWorld` selects for `demoProfile` from `demoCatalog`. -/
def demoExercise : TemplateExercise :=
  { id := "0002", name := "Dumbbell Fly", bodyPart := "Chest", target := "pectorals",
    equipment := "Dumbbell", gifUrl := none, sets := 3, targetReps := "5-8", restTime := 180,
    notes := none }

/-- The template generated for `demoProfile`. -/
def demoTemplate : WorkoutTemplate :=
  { templateId := some "template-1700000000000-0", name := "Full Body Day", type := "Full Body",
    estimatedDuration := some 9, createdAt := some "2024-01-01T00:00:00.000Z",
    exercises := [demoExercise] }

/-- A PPL profile whose only equipment tag is the name of an inherited member. -/
def inheritedTagProfile : UserProfile :=
  { fitnessGoals := some ["Strength"], experienceLevel := "Beginner",
    availableEquipment := ["constructor"], preferredSplit := "PPL" }

/-- The log a session starts with for `demoTemplate`: one exercise, three
empty sets. -/
def demoLog : WorkoutLog :=
  createWorkoutLog 1700000000000 "2024-01-01T08:00:00.000Z" demoTemplate

/-- A profile whose only equipment is absent from `demoCatalog`. -/
def kettlebellProfile : UserProfile :=
  { fitnessGoals := some ["Strength"], experienceLevel := "Beginner",
    availableEquipment := ["Kettlebell"], preferredSplit := "PPL" }

/-- A store on a fresh database that does not fail. -/
def freshConn : Conn := { db := Db.empty, failAfter := none }

/-- A store on a fresh database that fails at the next statement. -/
def failedConn : Conn := { db := Db.empty, failAfter := some 0 }

/-- The sample log after the first set was given a weight and reps and
completed. -/
def editedLog : WorkoutLog :=
  applyOps demoLog
    [.updateSet 0 0 (.weight (some 100)), .updateSet 0 0 (.reps (some 5)), .completeSet 0 0]

/-- A completed log of a Bench Press with two completed sets, 100 × 5 and
80 × 10, finished on the morning of 2024-01-01. -/
def benchLog : WorkoutLog :=
  { logId := "log-1704096000000"
    templateId := none
    name := "Push Day"
    type := "Push"
    startedAt := "2024-01-01T07:00:00.000Z"
    completedAt := some "2024-01-01T08:00:00.000Z"
    totalVolume := 1300
    totalSets := 2
    totalReps := 15
    durationMinutes := 60
    notes := none
    exercises :=
      [{ id := "0025", name := "Bench Press", bodyPart := "chest", target := "pectorals",
         equipment := "barbell", gifUrl := none,
         sets :=
           [{ setNumber := 1, weight := some 100, reps := some 5, completed := true,
              rpe := none, notes := none },
            { setNumber := 2, weight := some 80, reps := some 10, completed := true,
              rpe := none, notes := none }],
         targetReps := "8-12", restTime := 90, notes := none }] }

/-- A completed log of the evening of the same day whose only Bench Press set
was ticked off without a weight or reps. -/
def eveningLog : WorkoutLog :=
  { logId := "log-1704132000000"
    templateId := none
    name := "Push Day"
    type := "Push"
    startedAt := "2024-01-01T17:30:00.000Z"
    completedAt := some "2024-01-01T18:00:00.000Z"
    totalVolume := 0
    totalSets := 0
    totalReps := 0
    durationMinutes := 30
    notes := none
    exercises :=
      [{ id := "0025", name := "Bench Press", bodyPart := "chest", target := "pectorals",
         equipment := "barbell", gifUrl := none,
         sets :=
           [{ setNumber := 1, weight := none, reps := none, completed := true,
              rpe := none, notes := none }],
         targetReps := "8-12", restTime := 90, notes := none }] }

/-- The store after `benchLog` was added to an empty history. -/
def benchConn : Conn := (addWorkoutToHistory benchLog freshConn).2

/-- The store after `eveningLog` was added as well. -/
def trendConn : Conn := (addWorkoutToHistory eveningLog benchConn).2

/-- The choice of the first row of a group. -/
def pickFirst (first : SetRow) (_others : List SetRow) : SetRow := first

/-- A profile as the onboarding screen saves it. -/
def demoProfileRecord : UserProfileRecord :=
  { userId := "user-1704096000000"
    createdAt := "2024-01-01T08:00:00.000Z"
    fitnessGoals := some ["strength"]
    experienceLevel := "beginner"
    availableEquipment := ["barbell"]
    workoutFrequency := some 3
    preferredSplit := some "ppl"
    restTimerDefault := some 90
    weightUnit := some "lbs" }

/-- A store that holds the sample log as the active workout and fails after
one more statement. -/
def fadingConn : Conn :=
  { db := (saveActiveWorkout demoLog "2024-01-01T08:00:00.000Z" freshConn).2.db
    failAfter := some 1 }

/-- A store that holds the two logs of 2024-01-01 in its history and fails at
the next statement. -/
def brokenConn : Conn := { db := trendConn.db, failAfter := some 0 }

/-- A store that holds the two logs of 2024-01-01 in its history and fails
after one more statement. -/
def stallingConn : Conn := { db := trendConn.db, failAfter := some 1 }

/-! # Theorems -/

/-! ## Theorems: totals of a log -/

/-- What one set adds to the totals, in the wording of the spec. -/
theorem statsStep_eq (acc : WorkoutStats) (s : SetEntry) :
    statsStep acc s =
      if s.counts then
        { totalVolume := acc.totalVolume + s.weight.getD 0 * s.reps.getD 0
          totalSets := acc.totalSets + 1
          totalReps := acc.totalReps + s.reps.getD 0 }
      else acc := by
  obtain ⟨n, w, r, c, e, t⟩ := s
  cases c <;> cases w <;> cases r <;> simp [statsStep, SetEntry.counts]

/-- The inner loop adds the contributions of the sets that count. -/
theorem foldl_statsStep (sets : List SetEntry) (acc : WorkoutStats) :
    sets.foldl statsStep acc =
      { totalVolume := acc.totalVolume +
          ((sets.filter SetEntry.counts).map (fun s => s.weight.getD 0 * s.reps.getD 0)).sum
        totalSets := acc.totalSets + (sets.filter SetEntry.counts).length
        totalReps := acc.totalReps +
          ((sets.filter SetEntry.counts).map (fun s => s.reps.getD 0)).sum } := by
  induction sets generalizing acc with
  | nil => simp
  | cons s rest ih =>
    rw [List.foldl_cons, ih, statsStep_eq]
    by_cases h : s.counts = true
    · simp [h, List.filter_cons, add_assoc, Nat.add_comm 1]
    · simp [h, List.filter_cons]

/-- The outer loop adds the contributions of the sets of every exercise. -/
theorem foldl_exercises_statsStep (exercises : List LoggedExercise) (acc : WorkoutStats) :
    exercises.foldl (fun acc exercise => exercise.sets.foldl statsStep acc) acc =
      (exercises.flatMap (fun ex => ex.sets)).foldl statsStep acc := by
  induction exercises generalizing acc with
  | nil => rfl
  | cons ex rest ih => simp [List.foldl_cons, ih, List.foldl_append]

theorem allSets_countedOnly (log : WorkoutLog) :
    log.countedOnly.allSets = log.allSets.filter SetEntry.counts := by
  unfold WorkoutLog.countedOnly WorkoutLog.allSets
  induction log.exercises with
  | nil => rfl
  | cons ex rest ih => simp_all [List.filter_append]

/-- The result of `calculateWorkoutStats` in closed form. -/
theorem calculateWorkoutStats_eq (log : WorkoutLog) :
    calculateWorkoutStats log =
      { totalVolume :=
          ((log.allSets.filter SetEntry.counts).map
            (fun s => s.weight.getD 0 * s.reps.getD 0)).sum
        totalSets := (log.allSets.filter SetEntry.counts).length
        totalReps := ((log.allSets.filter SetEntry.counts).map (fun s => s.reps.getD 0)).sum } := by
  unfold calculateWorkoutStats WorkoutLog.allSets
  rw [foldl_exercises_statsStep, foldl_statsStep]
  simp

/-- C1: the totals of `calculateWorkoutStats` are the volume sum, the number
and the reps sum of exactly the sets that are completed with weight and reps
present and non-zero; a set fails that test exactly when it is incomplete or
has a null or zero weight or reps, and deleting all such sets from the log
changes none of the three totals. -/
theorem calculateWorkoutStats_totals (log : WorkoutLog) :
    calculateWorkoutStats log =
        { totalVolume :=
            ((log.allSets.filter SetEntry.counts).map
              (fun s => s.weight.getD 0 * s.reps.getD 0)).sum
          totalSets := (log.allSets.filter SetEntry.counts).length
          totalReps := ((log.allSets.filter SetEntry.counts).map (fun s => s.reps.getD 0)).sum } ∧
      (∀ s : SetEntry, s.counts = false ↔
        (s.completed = false ∨ s.weight = none ∨ s.weight = some 0 ∨
          s.reps = none ∨ s.reps = some 0)) ∧
      calculateWorkoutStats log.countedOnly = calculateWorkoutStats log := by
  refine ⟨calculateWorkoutStats_eq log, ?_, ?_⟩
  · intro s
    obtain ⟨n, w, r, c, e, t⟩ := s
    cases c <;> cases w <;> cases r <;> simp [SetEntry.counts]
    tauto
  · rw [calculateWorkoutStats_eq log.countedOnly, calculateWorkoutStats_eq log,
      allSets_countedOnly]
    simp [List.filter_filter]

/-! ## Theorems: beginning and finishing a log -/

/-- Every set entry of a freshly created log is `emptySet` of its position. -/
theorem logExercise_sets_getElem? (ex : TemplateExercise) (j : Nat) :
    (logExercise ex).sets[j]? = if j < ex.sets then some (emptySet j) else none := by
  simp only [logExercise, List.getElem?_map, List.getElem?_range']
  by_cases h : j < ex.sets
  · simp [h, List.getElem?_range h]
  · simp [h, List.getElem?_eq_none (l := List.range ex.sets) (by simpa using h)]

theorem mem_logExercise_sets (ex : TemplateExercise) (s : SetEntry)
    (h : s ∈ (logExercise ex).sets) : ∃ j, j < ex.sets ∧ s = emptySet j := by
  simp only [logExercise, List.mem_map, List.mem_range] at h
  obtain ⟨j, hj, rfl⟩ := h
  exact ⟨j, hj, rfl⟩

/-- No set of a freshly created log counts towards the totals. -/
theorem createWorkoutLog_allSets_counts (nowMs : Nat) (nowIso : String)
    (template : WorkoutTemplate) :
    (createWorkoutLog nowMs nowIso template).allSets.filter SetEntry.counts = [] := by
  rw [List.filter_eq_nil_iff]
  intro s hs
  simp only [WorkoutLog.allSets, createWorkoutLog, List.mem_flatMap, List.mem_map] at hs
  obtain ⟨le, ⟨ex, -, rfl⟩, hs⟩ := hs
  obtain ⟨j, -, rfl⟩ := mem_logExercise_sets ex s hs
  simp [SetEntry.counts, emptySet]

/-- C2: the log of `createWorkoutLog` has one exercise per template exercise,
in the template's order; the exercise at position `i` keeps the display fields
of the template exercise at `i` and has exactly as many set entries as that
exercise prescribes, the entry at position `j` being set number `j + 1` with
weight, reps, rpe and notes null and not completed; the log has no completion
time and zero totals and duration. -/
theorem createWorkoutLog_shape (nowMs : Nat) (nowIso : String) (template : WorkoutTemplate) :
    (createWorkoutLog nowMs nowIso template).exercises.length = template.exercises.length ∧
      (∀ (i : Nat) (ex : TemplateExercise), template.exercises[i]? = some ex →
        ∃ le : LoggedExercise,
          (createWorkoutLog nowMs nowIso template).exercises[i]? = some le ∧
          le.id = ex.id ∧ le.name = ex.name ∧ le.bodyPart = ex.bodyPart ∧
          le.target = ex.target ∧ le.equipment = ex.equipment ∧ le.gifUrl = ex.gifUrl ∧
          le.sets.length = ex.sets ∧
          (∀ j : Nat, j < ex.sets →
            le.sets[j]? = some { setNumber := j + 1, weight := none, reps := none,
                                 completed := false, rpe := none, notes := none }) ∧
          (∀ s ∈ le.sets, s.weight = none ∧ s.reps = none ∧ s.rpe = none ∧
            s.notes = none ∧ s.completed = false)) ∧
      (createWorkoutLog nowMs nowIso template).completedAt = none ∧
      (createWorkoutLog nowMs nowIso template).totalVolume = 0 ∧
      (createWorkoutLog nowMs nowIso template).totalSets = 0 ∧
      (createWorkoutLog nowMs nowIso template).totalReps = 0 ∧
      (createWorkoutLog nowMs nowIso template).durationMinutes = 0 := by
  refine ⟨by simp [createWorkoutLog], ?_, rfl, rfl, rfl, rfl, rfl⟩
  intro i ex hi
  refine ⟨logExercise ex, by simp [createWorkoutLog, List.getElem?_map, hi],
    rfl, rfl, rfl, rfl, rfl, rfl, by simp [logExercise], ?_, ?_⟩
  · intro j hj
    rw [logExercise_sets_getElem?, if_pos hj]
    rfl
  · intro s hs
    obtain ⟨j, -, rfl⟩ := mem_logExercise_sets ex s hs
    simp [emptySet]

/-- C3: a log created from any template and finished at once, with no set
completed, is a completed log with zero volume, zero sets, zero reps and a
completion time that is not null. -/
theorem begin_then_finish (nowMs : Nat) (nowIso : String) (template : WorkoutTemplate)
    (elapsed : Nat) (finishIso : String) :
    (handleFinishWorkout (createWorkoutLog nowMs nowIso template) elapsed finishIso).totalVolume
        = 0 ∧
      (handleFinishWorkout (createWorkoutLog nowMs nowIso template) elapsed finishIso).totalSets
        = 0 ∧
      (handleFinishWorkout (createWorkoutLog nowMs nowIso template) elapsed finishIso).totalReps
        = 0 ∧
      (handleFinishWorkout (createWorkoutLog nowMs nowIso template) elapsed finishIso).completedAt
        = some finishIso := by
  simp [handleFinishWorkout, calculateWorkoutStats_eq, createWorkoutLog_allSets_counts]

/-! ## Theorems: the plan generator -/

/-- Pushing the images of a list one by one appends the mapped list. -/
theorem foldl_push {α β : Type} (f : α → β) (l : List α) (init : List β) :
    l.foldl (fun acc a => acc ++ [f a]) init = init ++ l.map f := by
  induction l generalizing init with
  | nil => simp
  | cons a rest ih => simp [ih]

/-- A loop that appends a block per element appends the concatenated blocks. -/
theorem foldl_append_blocks {α β : Type} (h : α → List β) (l : List α) (init : List β) :
    l.foldl (fun acc a => acc ++ h a) init = init ++ l.flatMap h := by
  induction l generalizing init with
  | nil => simp
  | cons a rest ih => simp [ih]

/-- The exercises selected for body part number `k` of template `i`, stamped
with the rep scheme. -/
theorem selectWorkoutExercises_eq (world : World) (repScheme : RepScheme)
    (availableExercises : List ExerciseRecord) (i : Nat) (structure_ : WorkoutStructure) :
    selectWorkoutExercises world repScheme availableExercises i structure_ =
      structure_.bodyParts.enum.flatMap (fun kb =>
        (selectRandomExercises (world.shuffle i kb.1)
          (availableExercises.filter (fun ex => toLowerCase ex.bodyPart = toLowerCase kb.2))
          ((structure_.exerciseCount.lookup kb.2).getD
            (availableExercises.filter
              (fun ex => toLowerCase ex.bodyPart = toLowerCase kb.2)).length)).map
          (stampExercise repScheme)) := by
  unfold selectWorkoutExercises
  simp only [foldl_push]
  rw [foldl_append_blocks]
  simp

/-- The templates of the outer loop: one per day label that has a structure. -/
theorem buildTemplates_eq (world : World) (repScheme : RepScheme)
    (availableExercises : List ExerciseRecord) (uniqueWorkoutTypes : List String) :
    buildTemplates world repScheme availableExercises uniqueWorkoutTypes =
      uniqueWorkoutTypes.enum.flatMap (fun iw =>
        match WORKOUT_STRUCTURES.lookup iw.2 with
        | none => []
        | some structure_ =>
          [makeTemplate world iw.1 iw.2
            (selectWorkoutExercises world repScheme availableExercises iw.1 structure_)]) := by
  unfold buildTemplates
  have step : (fun (templates : List WorkoutTemplate) (iw : Nat × String) =>
      match WORKOUT_STRUCTURES.lookup iw.2 with
      | none => templates
      | some structure_ =>
        templates ++
          [makeTemplate world iw.1 iw.2
            (selectWorkoutExercises world repScheme availableExercises iw.1 structure_)]) =
      (fun templates iw => templates ++
        (match WORKOUT_STRUCTURES.lookup iw.2 with
        | none => []
        | some structure_ =>
          [makeTemplate world iw.1 iw.2
            (selectWorkoutExercises world repScheme availableExercises iw.1 structure_)])) := by
    funext templates iw
    cases WORKOUT_STRUCTURES.lookup iw.2 <;> simp
  rw [step, foldl_append_blocks]
  simp

/-- Every exercise of a built template carries the rep scheme. -/
theorem buildTemplates_stamped (world : World) (repScheme : RepScheme)
    (availableExercises : List ExerciseRecord) (uniqueWorkoutTypes : List String)
    (t : WorkoutTemplate) (ex : TemplateExercise)
    (ht : t ∈ buildTemplates world repScheme availableExercises uniqueWorkoutTypes)
    (hex : ex ∈ t.exercises) :
    ex.sets = repScheme.sets ∧ ex.targetReps = repScheme.reps ∧ ex.restTime = repScheme.rest := by
  rw [buildTemplates_eq, List.mem_flatMap] at ht
  obtain ⟨iw, -, ht⟩ := ht
  cases hs : WORKOUT_STRUCTURES.lookup iw.2 with
  | none => simp [hs] at ht
  | some st =>
    simp only [hs, List.mem_singleton] at ht
    subst ht
    simp only [makeTemplate, selectWorkoutExercises_eq, List.mem_flatMap, List.mem_map] at hex
    obtain ⟨kb, -, r, -, rfl⟩ := hex
    exact ⟨rfl, rfl, rfl⟩

/-- The goal key is always one of the four goal names of `REP_SCHEMES`. -/
theorem getPrimaryGoal_mem (goals : Option (List String)) :
    getPrimaryGoal goals ∈ ["strength", "hypertrophy", "endurance", "weight loss"] := by
  unfold getPrimaryGoal
  split
  · simp
  · simp
  · dsimp only
    split_ifs <;> simp

/-- The experience key is always one of the three level names. -/
theorem getExperienceKey_mem (level : String) :
    getExperienceKey level ∈ ["beginner", "intermediate", "advanced"] := by
  unfold getExperienceKey
  dsimp only
  split_ifs <;> simp

/-- The rep-scheme read always finds an entry. -/
theorem repSchemeFor_isSome (goals : Option (List String)) (level : String) :
    (repSchemeFor (getPrimaryGoal goals) (getExperienceKey level)).isSome = true := by
  have hg := getPrimaryGoal_mem goals
  have hl := getExperienceKey_mem level
  simp only [List.mem_cons, List.mem_singleton, List.not_mem_nil, or_false] at hg hl
  rcases hg with hg | hg | hg | hg <;> rcases hl with hl | hl | hl <;> rw [hg, hl] <;>
    decide

/-- The plan is either empty or the templates built for the split. -/
theorem generateWorkoutPlan_cases (world : World) (allExercises : List ExerciseRecord)
    (userProfile : UserProfile) :
    generateWorkoutPlan world allExercises userProfile = [] ∨
      ∃ repScheme availableExercises splitConfig,
        repSchemeFor (getPrimaryGoal userProfile.fitnessGoals)
          (getExperienceKey userProfile.experienceLevel) = some repScheme ∧
        jsLookup WORKOUT_SPLITS userProfile.preferredSplit = .own splitConfig ∧
        filterExercises allExercises
          { equipment := some (.list (userProfile.availableEquipment.map normalizeEquipment)) }
            = some availableExercises ∧
        allExercises ≠ [] ∧
        generateWorkoutPlan world allExercises userProfile =
          buildTemplates world repScheme availableExercises (newSet splitConfig.workouts) := by
  unfold generateWorkoutPlan
  by_cases he : allExercises.isEmpty = true
  · simp [he]
  · simp only [he, Bool.false_eq_true, if_false]
    cases hf : filterExercises allExercises
        { equipment := some (.list (userProfile.availableEquipment.map normalizeEquipment)) } with
    | none => simp
    | some avail =>
      cases hs : jsLookup WORKOUT_SPLITS userProfile.preferredSplit with
      | undefined => simp
      | inherited k => simp
      | own cfg =>
        cases hr : repSchemeFor (getPrimaryGoal userProfile.fitnessGoals)
            (getExperienceKey userProfile.experienceLevel) with
        | none => simp
        | some rs =>
          right
          refine ⟨rs, avail, cfg, rfl, rfl, rfl, ?_, by simp [hr]⟩
          intro h
          simp [h] at he

/-- C4: every exercise of every generated template carries the sets, reps and
rest of the `REP_SCHEMES` entry for the resolved goal and experience key, for
every clock and every outcome of the random sort. -/
theorem generateWorkoutPlan_repScheme (world : World) (allExercises : List ExerciseRecord)
    (userProfile : UserProfile) (t : WorkoutTemplate) (ex : TemplateExercise)
    (ht : t ∈ generateWorkoutPlan world allExercises userProfile) (hex : ex ∈ t.exercises) :
    ∃ scheme : RepScheme,
      repSchemeFor (getPrimaryGoal userProfile.fitnessGoals)
        (getExperienceKey userProfile.experienceLevel) = some scheme ∧
      ex.sets = scheme.sets ∧ ex.targetReps = scheme.reps ∧ ex.restTime = scheme.rest := by
  rcases generateWorkoutPlan_cases world allExercises userProfile with h | h
  · rw [h] at ht
    cases ht
  · obtain ⟨rs, avail, cfg, hrs, -, -, -, h⟩ := h
    rw [h] at ht
    exact ⟨rs, hrs, buildTemplates_stamped world rs avail _ t ex ht hex⟩

/-- C4 at the sample profile and catalog: the generated template and its
exercise carry the strength/beginner scheme. -/
theorem generateWorkoutPlan_repScheme_witness :
    demoTemplate ∈ generateWorkoutPlan demoWorld demoCatalog demoProfile ∧
      demoExercise ∈ demoTemplate.exercises ∧
      ∃ scheme : RepScheme,
        repSchemeFor (getPrimaryGoal demoProfile.fitnessGoals)
          (getExperienceKey demoProfile.experienceLevel) = some scheme ∧
        demoExercise.sets = scheme.sets ∧ demoExercise.targetReps = scheme.reps ∧
        demoExercise.restTime = scheme.rest :=
  ⟨by decide, by decide,
    generateWorkoutPlan_repScheme demoWorld demoCatalog demoProfile demoTemplate demoExercise
      (by decide) (by decide)⟩

/-! ## Theorems: the equipment step -/

/-- On string tags the `some` callback is plain membership. -/
theorem someTagMatches_text (ex : ExerciseRecord) (tags : List String) :
    someTagMatches ex (tags.map EquipmentTag.text) =
      some (tags.any (fun eq => decide (toLowerCase ex.equipment = toLowerCase eq))) := by
  induction tags with
  | nil => rfl
  | cons eq rest ih =>
    simp only [List.map_cons, someTagMatches, ih, List.any_cons]
    by_cases h : toLowerCase ex.equipment = toLowerCase eq <;> simp [h]

/-- On string tags the equipment step never raises and is a filter. -/
theorem filterByTags_text (tags : List String) (exercises : List ExerciseRecord) :
    filterByTags (tags.map EquipmentTag.text) exercises =
      some (exercises.filter (fun ex =>
        tags.any (fun eq => decide (toLowerCase ex.equipment = toLowerCase eq)))) := by
  induction exercises with
  | nil => rfl
  | cons ex rest ih =>
    simp only [filterByTags, someTagMatches_text, ih, List.filter_cons]

/-- A tag whose lower-case form is not the name of an inherited member
normalizes to a string. -/
theorem normalizeEquipment_text (equipment : String)
    (h : toLowerCase equipment ∉ objectPrototypeKeys) :
    ∃ s, normalizeEquipment equipment = .text s := by
  unfold normalizeEquipment jsLookup
  dsimp only
  cases equipmentMapping.lookup (toLowerCase equipment) with
  | none => simp [h]
  | some v => by_cases hv : v = "" <;> simp [hv]

/-- A tag list without inherited names normalizes to a list of strings. -/
theorem map_normalizeEquipment_text (equipment : List String)
    (h : ∀ e ∈ equipment, toLowerCase e ∉ objectPrototypeKeys) :
    ∃ tags : List String, equipment.map normalizeEquipment = tags.map EquipmentTag.text := by
  induction equipment with
  | nil => exact ⟨[], rfl⟩
  | cons e rest ih =>
    obtain ⟨tags, htags⟩ := ih (fun x hx => h x (List.mem_cons_of_mem _ hx))
    obtain ⟨s, hs⟩ := normalizeEquipment_text e (h e (List.mem_cons_self _ _))
    exact ⟨s :: tags, by simp [hs, htags]⟩

/-- The names and types of the templates built for a list of day labels that
all have a structure. -/
theorem buildTemplates_names (world : World) (repScheme : RepScheme)
    (availableExercises : List ExerciseRecord) (uniqueWorkoutTypes : List String)
    (h : ∀ w ∈ uniqueWorkoutTypes, (WORKOUT_STRUCTURES.lookup w).isSome = true) :
    (buildTemplates world repScheme availableExercises uniqueWorkoutTypes).map
        (fun t => (t.name, t.type)) =
      uniqueWorkoutTypes.map (fun w => (w ++ " Day", w)) := by
  rw [buildTemplates_eq]
  unfold List.enum
  generalize 0 = n
  induction uniqueWorkoutTypes generalizing n with
  | nil => rfl
  | cons w rest ih =>
    have hw := h w (List.mem_cons_self _ _)
    obtain ⟨st, hst⟩ := Option.isSome_iff_exists.mp hw
    simp only [List.enumFrom_cons, List.flatMap_cons, hst, List.map_append, List.map_cons,
      List.map_nil, List.singleton_append]
    rw [ih (fun x hx => h x (List.mem_cons_of_mem _ hx))]
    rfl

/-- The split part of C5, away from the defect of `normalizeEquipment`: when
no equipment tag lower-cases to the name of an inherited member and the catalog
is not empty, a known split yields one template per distinct day label, in
first-occurrence order, named after the label. -/
theorem generateWorkoutPlan_names (world : World) (allExercises : List ExerciseRecord)
    (userProfile : UserProfile) (hne : allExercises ≠ [])
    (htags : ∀ e ∈ userProfile.availableEquipment, toLowerCase e ∉ objectPrototypeKeys) :
    (userProfile.preferredSplit = "PPL" →
      (generateWorkoutPlan world allExercises userProfile).map (fun t => (t.name, t.type)) =
        [("Push Day", "Push"), ("Pull Day", "Pull"), ("Legs Day", "Legs")]) ∧
    (userProfile.preferredSplit = "UpperLower" →
      (generateWorkoutPlan world allExercises userProfile).map (fun t => (t.name, t.type)) =
        [("Upper Day", "Upper"), ("Lower Day", "Lower")]) ∧
    (userProfile.preferredSplit = "FullBody" →
      (generateWorkoutPlan world allExercises userProfile).map (fun t => (t.name, t.type)) =
        [("Full Body Day", "Full Body")]) := by
  obtain ⟨tags, htext⟩ := map_normalizeEquipment_text _ htags
  obtain ⟨rs, hrs⟩ := Option.isSome_iff_exists.mp
    (repSchemeFor_isSome userProfile.fitnessGoals userProfile.experienceLevel)
  have hempty : allExercises.isEmpty = false := by
    cases allExercises with
    | nil => exact absurd rfl hne
    | cons a l => rfl
  have hfilter : filterExercises allExercises
      { equipment := some (.list (userProfile.availableEquipment.map normalizeEquipment)) } =
      some (allExercises.filter (fun ex =>
        tags.any (fun eq => decide (toLowerCase ex.equipment = toLowerCase eq)))) := by
    simp [filterExercises, hempty, filterByEquipment, filterByBodyPart, filterByTarget,
      filterBySearch, htext, filterByTags_text]
  refine ⟨?_, ?_, ?_⟩ <;> intro hsplit
  · have hl : jsLookup WORKOUT_SPLITS userProfile.preferredSplit =
        .own { name := "Push Pull Legs", frequency := 6,
               workouts := ["Push", "Pull", "Legs", "Push", "Pull", "Legs"] } := by
      rw [hsplit]; decide
    simp only [generateWorkoutPlan, hempty, Bool.false_eq_true, if_false, hfilter, hl, hrs]
    have hs : newSet ["Push", "Pull", "Legs", "Push", "Pull", "Legs"] = ["Push", "Pull", "Legs"] := by
      decide
    rw [hs, buildTemplates_names _ _ _ _ (by decide)]
    rfl
  · have hl : jsLookup WORKOUT_SPLITS userProfile.preferredSplit =
        .own { name := "Upper/Lower", frequency := 4,
               workouts := ["Upper", "Lower", "Upper", "Lower"] } := by
      rw [hsplit]; decide
    simp only [generateWorkoutPlan, hempty, Bool.false_eq_true, if_false, hfilter, hl, hrs]
    have hs : newSet ["Upper", "Lower", "Upper", "Lower"] = ["Upper", "Lower"] := by decide
    rw [hs, buildTemplates_names _ _ _ _ (by decide)]
    rfl
  · have hl : jsLookup WORKOUT_SPLITS userProfile.preferredSplit =
        .own { name := "Full Body", frequency := 3,
               workouts := ["Full Body", "Full Body", "Full Body"] } := by
      rw [hsplit]; decide
    simp only [generateWorkoutPlan, hempty, Bool.false_eq_true, if_false, hfilter, hl, hrs]
    have hs : newSet ["Full Body", "Full Body", "Full Body"] = ["Full Body"] := by decide
    rw [hs, buildTemplates_names _ _ _ _ (by decide)]
    rfl

/-- C5, at a failing input: for the PPL profile whose only equipment tag is
`"constructor"` and the three-exercise sample catalog, the generator returns
no template, whatever the clock and the random sort, where the claim promises
Push Day, Pull Day and Legs Day.  `normalizeEquipment` hands the inherited
member `mapping["constructor"]` to the equipment filter, whose call of
`toLowerCase` on it raises, and the generator's `catch` returns `[]`. -/
theorem generateWorkoutPlan_inherited_tag (world : World) :
    generateWorkoutPlan world demoCatalog inheritedTagProfile = [] ∧
      demoCatalog ≠ [] ∧ inheritedTagProfile.preferredSplit = "PPL" := by
  refine ⟨?_, by decide, rfl⟩
  have hf : filterExercises demoCatalog
      { equipment := some (.list (inheritedTagProfile.availableEquipment.map normalizeEquipment)) }
      = none := by decide
  have hne : demoCatalog.isEmpty = false := by decide
  simp only [generateWorkoutPlan, hne, hf, Bool.false_eq_true, if_false]

/-- C6: for the profile with goals `["Strength"]`, experience `"Beginner"`,
split `"FullBody"` and equipment `["Dumbbells"]`, and every catalog with at
least two dumbbell chest exercises, the generator returns exactly one
template, named "Full Body Day", whose exercises are all prescribed 3 sets,
rep text "5-8" and 180 seconds of rest, for every clock and random sort. -/
theorem generateWorkoutPlan_scenario (world : World) (allExercises : List ExerciseRecord)
    (h : 2 ≤ (allExercises.filter (fun ex =>
      decide (toLowerCase ex.equipment = "dumbbell" ∧ toLowerCase ex.bodyPart = "chest"))).length) :
    ∃ t : WorkoutTemplate,
      generateWorkoutPlan world allExercises
          { fitnessGoals := some ["Strength"], experienceLevel := "Beginner",
            availableEquipment := ["Dumbbells"], preferredSplit := "FullBody" } = [t] ∧
        t.name = "Full Body Day" ∧
        ∀ ex ∈ t.exercises, ex.sets = 3 ∧ ex.targetReps = "5-8" ∧ ex.restTime = 180 := by
  have hempty : allExercises.isEmpty = false := by
    cases allExercises with
    | nil => simp at h
    | cons a l => rfl
  have hnorm : ["Dumbbells"].map normalizeEquipment = ["dumbbell"].map EquipmentTag.text := by
    decide
  have hfilter : filterExercises allExercises
      { equipment := some (.list (["Dumbbells"].map normalizeEquipment)) } =
      some (allExercises.filter (fun ex =>
        ["dumbbell"].any (fun eq => decide (toLowerCase ex.equipment = toLowerCase eq)))) := by
    simp only [filterExercises, hempty, filterByEquipment, filterByBodyPart, filterByTarget,
      filterBySearch, hnorm, filterByTags_text, Bool.false_eq_true, if_false, Option.map_some']
  have hl : jsLookup WORKOUT_SPLITS "FullBody" =
      .own { name := "Full Body", frequency := 3,
             workouts := ["Full Body", "Full Body", "Full Body"] } := by decide
  have hrs : repSchemeFor (getPrimaryGoal (some ["Strength"])) (getExperienceKey "Beginner") =
      some { sets := 3, reps := "5-8", rest := 180 } := by decide
  have hs : newSet ["Full Body", "Full Body", "Full Body"] = ["Full Body"] := by decide
  have hst : WORKOUT_STRUCTURES.lookup "Full Body" =
      some { bodyParts := ["chest", "back", "legs", "shoulders"],
             exerciseCount := [("chest", 1), ("back", 2), ("legs", 2), ("shoulders", 1)] } := by
    decide
  have hgen : generateWorkoutPlan world allExercises
      { fitnessGoals := some ["Strength"], experienceLevel := "Beginner",
        availableEquipment := ["Dumbbells"], preferredSplit := "FullBody" } =
      buildTemplates world { sets := 3, reps := "5-8", rest := 180 }
        (allExercises.filter (fun ex =>
          ["dumbbell"].any (fun eq => decide (toLowerCase ex.equipment = toLowerCase eq))))
        ["Full Body"] := by
    simp only [generateWorkoutPlan, hempty, Bool.false_eq_true, if_false, hfilter, hl, hrs, hs]
  have hb : buildTemplates world { sets := 3, reps := "5-8", rest := 180 }
      (allExercises.filter (fun ex =>
        ["dumbbell"].any (fun eq => decide (toLowerCase ex.equipment = toLowerCase eq))))
      ["Full Body"] =
      [makeTemplate world 0 "Full Body"
        (selectWorkoutExercises world { sets := 3, reps := "5-8", rest := 180 }
          (allExercises.filter (fun ex =>
            ["dumbbell"].any (fun eq => decide (toLowerCase ex.equipment = toLowerCase eq)))) 0
          { bodyParts := ["chest", "back", "legs", "shoulders"],
            exerciseCount := [("chest", 1), ("back", 2), ("legs", 2), ("shoulders", 1)] })] := by
    simp only [buildTemplates, List.enum, List.enumFrom, List.foldl_cons, List.foldl_nil, hst,
      List.nil_append]
  refine ⟨_, hgen.trans hb, rfl, ?_⟩
  intro ex hex
  exact buildTemplates_stamped world _ _ _ _ ex (hb ▸ List.mem_singleton_self _) hex

/-- C6 at the sample catalog, which holds two dumbbell chest exercises. -/
theorem generateWorkoutPlan_scenario_witness :
    2 ≤ (demoCatalog.filter (fun ex =>
        decide (toLowerCase ex.equipment = "dumbbell" ∧ toLowerCase ex.bodyPart = "chest"))).length ∧
      ∃ t : WorkoutTemplate,
        generateWorkoutPlan demoWorld demoCatalog
            { fitnessGoals := some ["Strength"], experienceLevel := "Beginner",
              availableEquipment := ["Dumbbells"], preferredSplit := "FullBody" } = [t] ∧
          t.name = "Full Body Day" ∧
          ∀ ex ∈ t.exercises, ex.sets = 3 ∧ ex.targetReps = "5-8" ∧ ex.restTime = 180 :=
  ⟨by decide, generateWorkoutPlan_scenario demoWorld demoCatalog (by decide)⟩

/-! ## Theorems: goal, experience and equipment resolution -/

/-- C7: `getPrimaryGoal` answers `hypertrophy` for an absent and for an empty
goal list; otherwise it looks at the first goal only, lower-cased, and returns
the first of strength, hypertrophy, endurance, weight loss (tried in that
order) whose word occurs in it, the weight-loss goal being matched by `weight`
or `loss`; goals that agree up to letter case resolve alike, and a first goal
that matches none of the four resolves to `hypertrophy`. -/
theorem getPrimaryGoal_resolution :
    getPrimaryGoal none = "hypertrophy" ∧
      getPrimaryGoal (some []) = "hypertrophy" ∧
      (∀ (first : String) (rest : List String),
        getPrimaryGoal (some (first :: rest)) =
          resolveBySubstring goalWords "hypertrophy" first) ∧
      (∀ (a b : String) (restA restB : List String), toLowerCase a = toLowerCase b →
        getPrimaryGoal (some (a :: restA)) = getPrimaryGoal (some (b :: restB))) ∧
      (∀ (first : String) (rest : List String),
        (∀ word ∈ ["strength", "hypertrophy", "endurance", "weight", "loss"],
          includes (toLowerCase first) word = false) →
        getPrimaryGoal (some (first :: rest)) = "hypertrophy") := by
  refine ⟨rfl, rfl, ?_, ?_, ?_⟩
  · intro first rest
    simp only [getPrimaryGoal, resolveBySubstring, goalWords, List.find?, List.any_cons,
      List.any_nil, Bool.or_false]
    by_cases h1 : includes (toLowerCase first) "strength" = true
    · simp [h1]
    · by_cases h2 : includes (toLowerCase first) "hypertrophy" = true
      · simp [h1, h2]
      · by_cases h3 : includes (toLowerCase first) "endurance" = true
        · simp [h1, h2, h3]
        · by_cases h4 : (includes (toLowerCase first) "weight" ||
              includes (toLowerCase first) "loss") = true
          · simp [h1, h2, h3, h4]
          · simp [h1, h2, h3, h4]
  · intro a b restA restB hab
    simp only [getPrimaryGoal, hab]
  · intro first rest hnone
    have h1 := hnone "strength" (by simp)
    have h2 := hnone "hypertrophy" (by simp)
    have h3 := hnone "endurance" (by simp)
    have h4 := hnone "weight" (by simp)
    have h5 := hnone "loss" (by simp)
    simp [getPrimaryGoal, h1, h2, h3, h4, h5]

/-- C8: `getExperienceKey` returns the first of beginner, intermediate,
advanced (tried in that order) that occurs in the lower-cased level, and
`beginner` when none occurs; levels that agree up to letter case resolve
alike. -/
theorem getExperienceKey_resolution :
    (∀ level : String,
        getExperienceKey level = resolveBySubstring experienceWords "beginner" level) ∧
      (∀ a b : String, toLowerCase a = toLowerCase b →
        getExperienceKey a = getExperienceKey b) ∧
      (∀ level : String,
        (∀ word ∈ ["beginner", "intermediate", "advanced"],
          includes (toLowerCase level) word = false) →
        getExperienceKey level = "beginner") := by
  refine ⟨?_, ?_, ?_⟩
  · intro level
    simp only [getExperienceKey, resolveBySubstring, experienceWords, List.find?, List.any_cons,
      List.any_nil, Bool.or_false]
    by_cases h1 : includes (toLowerCase level) "beginner" = true
    · simp [h1]
    · by_cases h2 : includes (toLowerCase level) "intermediate" = true
      · simp [h1, h2]
      · by_cases h3 : includes (toLowerCase level) "advanced" = true
        · simp [h1, h2, h3]
        · simp [h1, h2, h3]
  · intro a b hab
    simp only [getExperienceKey, hab]
  · intro level hnone
    have h1 := hnone "beginner" (by simp)
    have h2 := hnone "intermediate" (by simp)
    have h3 := hnone "advanced" (by simp)
    simp [getExperienceKey, h1, h2, h3]

/-- Away from the names of inherited members `normalizeEquipment` is the
synonym table with the lower-cased tag as fallback. -/
theorem normalizeEquipment_of_not_inherited (equipment : String)
    (h : toLowerCase equipment ∉ objectPrototypeKeys) :
    normalizeEquipment equipment =
      .text ((equipmentMapping.lookup (toLowerCase equipment)).getD (toLowerCase equipment)) := by
  unfold normalizeEquipment jsLookup
  dsimp only
  cases hl : equipmentMapping.lookup (toLowerCase equipment) with
  | none => simp [h]
  | some v =>
    have hv : v ≠ "" := by
      intro hv
      subst hv
      revert hl
      generalize toLowerCase equipment = key
      simp only [equipmentMapping, List.lookup]
      intro hl
      repeat' split at hl
      all_goals simp at hl
    simp [hv]

/-- The four synonyms quoted by the spec. -/
theorem normalizeEquipment_examples :
    normalizeEquipment "Dumbbells" = .text "dumbbell" ∧
      normalizeEquipment "Cable Machine" = .text "cable" ∧
      normalizeEquipment "Resistance Bands" = .text "band" ∧
      normalizeEquipment "Bodyweight" = .text "body weight" ∧
      normalizeEquipment "Trap Bar" = .text "trap bar" := by
  decide

/-- C9, at a failing input: for the tag `"constructor"` the read
`mapping["constructor"]` finds the member every object inherits, a truthy
object, so `normalizeEquipment` returns that object and not the lower-cased
tag the claim promises for a tag without a synonym. -/
theorem normalizeEquipment_inherited :
    equipmentMapping.lookup (toLowerCase "constructor") = none ∧
      normalizeEquipment "constructor" = .object "constructor" ∧
      normalizeEquipment "constructor" ≠ .text (toLowerCase "constructor") := by
  decide

/-! ## Theorems: `filterExercises` -/

/-- A list of string tags is the image of a list of strings. -/
theorem exists_text_of_all_isText (tags : List EquipmentTag)
    (h : tags.all EquipmentTag.isText = true) :
    ∃ texts : List String, tags = texts.map EquipmentTag.text := by
  induction tags with
  | nil => exact ⟨[], rfl⟩
  | cons tag rest ih =>
    simp only [List.all_cons, Bool.and_eq_true] at h
    obtain ⟨texts, rfl⟩ := ih h.2
    cases tag with
    | text s => exact ⟨s :: texts, rfl⟩
    | object k => simp [EquipmentTag.isText] at h

/-- On string tags the equipment step is the filter of the spec wording. -/
theorem filterByTags_of_isText (tags : List EquipmentTag) (exercises : List ExerciseRecord)
    (h : tags.all EquipmentTag.isText = true) :
    filterByTags tags exercises =
      some (exercises.filter (fun ex => tags.any (EquipmentTag.matchesEquipment ex))) := by
  obtain ⟨texts, rfl⟩ := exists_text_of_all_isText tags h
  have hany : ∀ ex : ExerciseRecord,
      (texts.map EquipmentTag.text).any (EquipmentTag.matchesEquipment ex) =
        texts.any (fun eq => decide (toLowerCase ex.equipment = toLowerCase eq)) := by
    intro ex
    induction texts with
    | nil => rfl
    | cons eq rest ih =>
      simp only [List.map_cons, List.all_cons, Bool.and_eq_true] at h
      simp only [List.map_cons, List.any_cons, EquipmentTag.matchesEquipment, ih h.2]
  simp only [filterByTags_text, hany]

/-- C10 as amended: for criteria whose tag list holds strings,
`filterExercises` returns exactly the records, in input order, that satisfy
every criterion that is present and not the empty string; an absent criterion
and an empty-string criterion remove no record. -/
theorem filterExercises_nonEmpty (exercises : List ExerciseRecord) (filters : ExerciseFilters)
    (h : filters.tagsAreStrings = true) :
    filterExercises exercises filters =
      some (exercises.filter (satisfiesPresent filters.nonEmpty)) := by
  obtain ⟨bodyPart, equipment, target, search⟩ := filters
  by_cases he : exercises.isEmpty = true
  · have : exercises = [] := by simpa using he
    subst this
    rfl
  · simp only [filterExercises, he, Bool.false_eq_true, if_false]
    have hb : filterByBodyPart bodyPart exercises =
        exercises.filter (fun ex =>
          match nonEmptyText bodyPart with
          | none => true
          | some b => decide (toLowerCase ex.bodyPart = toLowerCase b)) := by
      cases bodyPart with
      | none => simp [filterByBodyPart, nonEmptyText]
      | some b => by_cases hb : b = "" <;> simp [filterByBodyPart, nonEmptyText, hb]
    have ht : ∀ l : List ExerciseRecord, filterByTarget target l =
        l.filter (fun ex =>
          match nonEmptyText target with
          | none => true
          | some t => decide (toLowerCase ex.target = toLowerCase t)) := by
      intro l
      cases target with
      | none => simp [filterByTarget, nonEmptyText]
      | some t => by_cases ht : t = "" <;> simp [filterByTarget, nonEmptyText, ht]
    have hs : ∀ l : List ExerciseRecord, filterBySearch search l =
        l.filter (fun ex =>
          match nonEmptyText search with
          | none => true
          | some text => includes (toLowerCase ex.name) (toLowerCase text)) := by
      intro l
      cases search with
      | none => simp [filterBySearch, nonEmptyText]
      | some t => by_cases ht : t = "" <;> simp [filterBySearch, nonEmptyText, ht]
    have hq : ∀ l : List ExerciseRecord, filterByEquipment equipment l =
        some (l.filter (fun ex =>
          match (ExerciseFilters.nonEmpty ⟨bodyPart, equipment, target, search⟩).equipment with
          | none => true
          | some (.single tag) => decide (toLowerCase ex.equipment = toLowerCase tag)
          | some (.list tags) => tags.any (EquipmentTag.matchesEquipment ex))) := by
      intro l
      cases equipment with
      | none => simp [filterByEquipment, ExerciseFilters.nonEmpty]
      | some eq =>
        cases eq with
        | single tag =>
          by_cases htag : tag = "" <;> simp [filterByEquipment, ExerciseFilters.nonEmpty, htag]
        | list tags =>
          exact filterByTags_of_isText tags l h
    rw [hb, hq, Option.map_some', hs, ht]
    simp only [List.filter_filter]
    congr 2
    funext ex
    simp only [satisfiesPresent, ExerciseFilters.nonEmpty]
    generalize (match nonEmptyText bodyPart with
      | none => true
      | some b => decide (toLowerCase ex.bodyPart = toLowerCase b)) = c1
    generalize (match nonEmptyText target with
      | none => true
      | some t => decide (toLowerCase ex.target = toLowerCase t)) = c3
    generalize (match nonEmptyText search with
      | none => true
      | some text => includes (toLowerCase ex.name) (toLowerCase text)) = c4
    cases c1 <;> cases c3 <;> cases c4 <;> simp

/-- C10 as amended, at the sample catalog with a body part, a tag list, an
empty target and a search text. -/
theorem filterExercises_nonEmpty_witness :
    ExerciseFilters.tagsAreStrings
        { bodyPart := some "CHEST", equipment := some (.list [.text "Cable", .text "DUMBBELL"]),
          target := some "", search := some "fly" } = true ∧
      filterExercises demoCatalog
          { bodyPart := some "CHEST", equipment := some (.list [.text "Cable", .text "DUMBBELL"]),
            target := some "", search := some "fly" } =
        some (demoCatalog.filter (satisfiesPresent (ExerciseFilters.nonEmpty
          { bodyPart := some "CHEST", equipment := some (.list [.text "Cable", .text "DUMBBELL"]),
            target := some "", search := some "fly" }))) :=
  ⟨by decide, filterExercises_nonEmpty demoCatalog _ (by decide)⟩

/-- C10 as stated fails: with the body-part criterion present as the empty
string, `filterExercises` keeps all three records of the sample catalog,
although none of them has a body part equal to the empty string. -/
theorem filterExercises_empty_bodyPart :
    filterExercises demoCatalog { bodyPart := some "" } = some demoCatalog ∧
      demoCatalog.filter (satisfiesPresent { bodyPart := some "" }) = [] ∧
      filterExercises demoCatalog { bodyPart := some "" } ≠
        some (demoCatalog.filter (satisfiesPresent { bodyPart := some "" })) := by
  decide

/-! ## Theorems: random selection -/

/-- The selection is the length-`count` front of the shuffled candidates. -/
theorem selectRandomExercises_eq_take (shuffle : List ExerciseRecord → List ExerciseRecord)
    (exercises : List ExerciseRecord) (count : Nat)
    (hperm : (shuffle exercises).Perm exercises) :
    selectRandomExercises shuffle exercises count = (shuffle exercises).take count := by
  unfold selectRandomExercises
  cases exercises with
  | nil =>
    have : shuffle [] = [] := List.perm_nil.mp hperm
    simp [this]
  | cons a l => simp

/-- The selection never exceeds the requested count. -/
theorem selectRandomExercises_length_le (shuffle : List ExerciseRecord → List ExerciseRecord)
    (exercises : List ExerciseRecord) (count : Nat) :
    (selectRandomExercises shuffle exercises count).length ≤ count := by
  unfold selectRandomExercises
  split_ifs
  · simp
  · simp [List.length_take]

/-- The selection uses every candidate position at most once. -/
theorem selectRandomExercises_subperm (shuffle : List ExerciseRecord → List ExerciseRecord)
    (exercises : List ExerciseRecord) (count : Nat)
    (hperm : (shuffle exercises).Perm exercises) :
    (selectRandomExercises shuffle exercises count).Subperm exercises := by
  rw [selectRandomExercises_eq_take shuffle exercises count hperm]
  exact (List.Perm.subperm_left hperm).mp (List.take_sublist _ _).subperm

/-- C11: whenever the random sort returns a rearrangement of the candidates,
`selectRandomExercises` returns exactly `min count (number of candidates)`
exercises, drawn from the candidates with no candidate position used twice,
and all of the candidates when there are no more than `count` of them; it is a
total function, so it never fails, and it never pads. -/
theorem selectRandomExercises_sample (shuffle : List ExerciseRecord → List ExerciseRecord)
    (exercises : List ExerciseRecord) (count : Nat)
    (hperm : (shuffle exercises).Perm exercises) :
    (selectRandomExercises shuffle exercises count).length = min count exercises.length ∧
      (selectRandomExercises shuffle exercises count).Subperm exercises ∧
      (exercises.length ≤ count →
        (selectRandomExercises shuffle exercises count).Perm exercises) := by
  refine ⟨?_, selectRandomExercises_subperm shuffle exercises count hperm, ?_⟩
  · rw [selectRandomExercises_eq_take shuffle exercises count hperm, List.length_take,
      hperm.length_eq]
  · intro hle
    rw [selectRandomExercises_eq_take shuffle exercises count hperm,
      List.take_of_length_le (by rw [hperm.length_eq]; exact hle)]
    exact hperm

/-- C11 at the sample catalog, shuffled by reversal, with two requested. -/
theorem selectRandomExercises_sample_witness :
    (List.reverse demoCatalog).Perm demoCatalog ∧
      (selectRandomExercises List.reverse demoCatalog 2).length = min 2 demoCatalog.length ∧
      (selectRandomExercises List.reverse demoCatalog 2).Subperm demoCatalog ∧
      (demoCatalog.length ≤ 2 →
        (selectRandomExercises List.reverse demoCatalog 2).Perm demoCatalog) :=
  ⟨List.reverse_perm _,
    selectRandomExercises_sample List.reverse demoCatalog 2 (List.reverse_perm _)⟩

/-! ## Theorems: the exercises and the duration of a template -/

/-- A template of the outer loop is the one made for some day label with a
structure. -/
theorem mem_buildTemplates (world : World) (repScheme : RepScheme)
    (availableExercises : List ExerciseRecord) (uniqueWorkoutTypes : List String)
    (t : WorkoutTemplate)
    (ht : t ∈ buildTemplates world repScheme availableExercises uniqueWorkoutTypes) :
    ∃ (i : Nat) (workoutType : String) (structure_ : WorkoutStructure),
      WORKOUT_STRUCTURES.lookup workoutType = some structure_ ∧
      t = makeTemplate world i workoutType
        (selectWorkoutExercises world repScheme availableExercises i structure_) := by
  rw [buildTemplates_eq, List.mem_flatMap] at ht
  obtain ⟨iw, -, ht⟩ := ht
  cases hs : WORKOUT_STRUCTURES.lookup iw.2 with
  | none => simp [hs] at ht
  | some st =>
    simp only [hs, List.mem_singleton] at ht
    exact ⟨iw.1, iw.2, st, hs, ht⟩

/-- The `reduce` that totals the prescribed sets is the sum of the set counts. -/
theorem foldl_sets_eq_sum (exercises : List TemplateExercise) (init : Nat) :
    exercises.foldl (fun sum ex => sum + ex.sets) init =
      init + (exercises.map (fun ex => ex.sets)).sum := by
  induction exercises generalizing init with
  | nil => simp
  | cons ex rest ih => simp [ih, Nat.add_assoc]

/-- When every exercise prescribes `n` sets the total is `n` per exercise. -/
theorem sum_sets_of_forall (exercises : List TemplateExercise) (n : Nat)
    (h : ∀ ex ∈ exercises, ex.sets = n) :
    (exercises.map (fun ex => ex.sets)).sum = n * exercises.length := by
  induction exercises with
  | nil => simp
  | cons ex rest ih =>
    have h1 := h ex (List.mem_cons_self _ _)
    have h2 := ih (fun x hx => h x (List.mem_cons_of_mem _ hx))
    simp only [List.map_cons, List.sum_cons, List.length_cons, h1, h2]
    ring

/-- C13: the estimated duration of every generated template is three times
the total of the prescribed sets of its exercises, which is three times the
rep scheme's set count times the number of exercises, and zero for a template
without exercises. -/
theorem generateWorkoutPlan_estimatedDuration (world : World)
    (allExercises : List ExerciseRecord) (userProfile : UserProfile) (t : WorkoutTemplate)
    (ht : t ∈ generateWorkoutPlan world allExercises userProfile) :
    t.estimatedDuration = some (3 * (t.exercises.map (fun ex => ex.sets)).sum) ∧
      (∃ scheme : RepScheme,
        repSchemeFor (getPrimaryGoal userProfile.fitnessGoals)
          (getExperienceKey userProfile.experienceLevel) = some scheme ∧
        t.estimatedDuration = some (3 * scheme.sets * t.exercises.length)) ∧
      (t.exercises = [] → t.estimatedDuration = some 0) := by
  rcases generateWorkoutPlan_cases world allExercises userProfile with h | h
  · rw [h] at ht
    cases ht
  · obtain ⟨rs, avail, cfg, hrs, -, -, -, h⟩ := h
    rw [h] at ht
    have hstamp := fun ex hex => (buildTemplates_stamped world rs avail _ t ex ht hex).1
    obtain ⟨i, w, st, -, rfl⟩ := mem_buildTemplates world rs avail _ t ht
    have hdur : (makeTemplate world i w (selectWorkoutExercises world rs avail i st)).estimatedDuration
        = some (3 * ((selectWorkoutExercises world rs avail i st).map (fun ex => ex.sets)).sum) := by
      simp only [makeTemplate, foldl_sets_eq_sum, Nat.zero_add, Nat.mul_comm]
    have hexs : (makeTemplate world i w (selectWorkoutExercises world rs avail i st)).exercises =
        selectWorkoutExercises world rs avail i st := rfl
    rw [hexs] at hstamp
    refine ⟨hdur, ⟨rs, hrs, ?_⟩, ?_⟩
    · rw [hdur, hexs, sum_sets_of_forall _ rs.sets hstamp, Nat.mul_assoc]
    · intro hnil
      rw [hexs] at hnil
      rw [hdur, hnil]
      rfl

/-- C13 at the template generated for the sample profile: one exercise of
three sets, nine minutes. -/
theorem generateWorkoutPlan_estimatedDuration_witness :
    demoTemplate ∈ generateWorkoutPlan demoWorld demoCatalog demoProfile ∧
      demoTemplate.estimatedDuration =
        some (3 * (demoTemplate.exercises.map (fun ex => ex.sets)).sum) ∧
      (∃ scheme : RepScheme,
        repSchemeFor (getPrimaryGoal demoProfile.fitnessGoals)
          (getExperienceKey demoProfile.experienceLevel) = some scheme ∧
        demoTemplate.estimatedDuration = some (3 * scheme.sets * demoTemplate.exercises.length)) ∧
      (demoTemplate.exercises = [] → demoTemplate.estimatedDuration = some 0) :=
  ⟨by decide,
    generateWorkoutPlan_estimatedDuration demoWorld demoCatalog demoProfile demoTemplate
      (by decide)⟩

/-- A match reported by the `some` callback comes from a string tag. -/
theorem someTagMatches_true (ex : ExerciseRecord) (tags : List EquipmentTag)
    (h : someTagMatches ex tags = some true) :
    ∃ eq : String, EquipmentTag.text eq ∈ tags ∧
      toLowerCase ex.equipment = toLowerCase eq := by
  induction tags with
  | nil => simp [someTagMatches] at h
  | cons tag rest ih =>
    cases tag with
    | object k => simp [someTagMatches] at h
    | text eq =>
      simp only [someTagMatches] at h
      by_cases hm : toLowerCase ex.equipment = toLowerCase eq
      · exact ⟨eq, List.mem_cons_self _ _, hm⟩
      · rw [if_neg hm] at h
        obtain ⟨eq2, hmem, heq⟩ := ih h
        exact ⟨eq2, List.mem_cons_of_mem _ hmem, heq⟩

/-- Every record the equipment step keeps is a record of its input whose
equipment equals one of the string tags, ignoring case. -/
theorem mem_filterByTags (tags : List EquipmentTag) (exercises kept : List ExerciseRecord)
    (h : filterByTags tags exercises = some kept) (r : ExerciseRecord) (hr : r ∈ kept) :
    r ∈ exercises ∧
      ∃ eq : String, EquipmentTag.text eq ∈ tags ∧
        toLowerCase r.equipment = toLowerCase eq := by
  induction exercises generalizing kept with
  | nil =>
    simp only [filterByTags, Option.some.injEq] at h
    subst h
    cases hr
  | cons ex rest ih =>
    simp only [filterByTags] at h
    cases hm : someTagMatches ex tags with
    | none => simp [hm] at h
    | some keep =>
      cases hrest : filterByTags tags rest with
      | none => simp [hm, hrest] at h
      | some keptRest =>
        simp only [hm, hrest, Option.some.injEq] at h
        subst h
        cases keep with
        | false =>
          simp only [Bool.false_eq_true, if_false] at hr
          obtain ⟨h1, h2⟩ := ih keptRest hrest hr
          exact ⟨List.mem_cons_of_mem _ h1, h2⟩
        | true =>
          simp only [if_true, List.mem_cons] at hr
          rcases hr with rfl | hr
          · exact ⟨List.mem_cons_self _ _, someTagMatches_true _ tags hm⟩
          · obtain ⟨h1, h2⟩ := ih keptRest hrest hr
            exact ⟨List.mem_cons_of_mem _ h1, h2⟩

/-- The records available to the generator are catalog records whose equipment
equals one of the normalized string tags, ignoring case. -/
theorem mem_filterExercises_equipment (tags : List EquipmentTag)
    (exercises available : List ExerciseRecord)
    (h : filterExercises exercises { equipment := some (.list tags) } = some available)
    (r : ExerciseRecord) (hr : r ∈ available) :
    r ∈ exercises ∧
      ∃ eq : String, EquipmentTag.text eq ∈ tags ∧
        toLowerCase r.equipment = toLowerCase eq := by
  unfold filterExercises at h
  by_cases he : exercises.isEmpty = true
  · simp only [he, if_true, Option.some.injEq] at h
    subst h
    cases hr
  · simp only [he, Bool.false_eq_true, if_false, filterByBodyPart, filterByEquipment,
      filterByTarget, filterBySearch] at h
    cases hk : filterByTags tags exercises with
    | none => simp [hk] at h
    | some kept =>
      simp only [hk, Option.map_some', Option.some.injEq] at h
      subst h
      exact mem_filterByTags tags exercises kept hk r hr

/-- A relation that holds between every element and the image of its numbered
pair holds between the list and the mapped enumeration. -/
theorem forall2_enumFrom_map {α β : Type} (R : α → β → Prop) (f : Nat × α → β) (l : List α)
    (n : Nat) (h : ∀ (k : Nat) (a : α), a ∈ l → R a (f (k, a))) :
    List.Forall₂ R l ((l.enumFrom n).map f) := by
  induction l generalizing n with
  | nil => exact List.Forall₂.nil
  | cons a rest ih =>
    simp only [List.enumFrom_cons, List.map_cons]
    exact List.Forall₂.cons (h n a (List.mem_cons_self _ _))
      (ih (n + 1) (fun k b hb => h k b (List.mem_cons_of_mem _ hb)))

/-- A value found by `lookup` is the second component of an entry. -/
theorem mem_of_lookup_eq_some {β : Type} (table : List (String × β)) (key : String) (value : β)
    (h : table.lookup key = some value) : (key, value) ∈ table := by
  induction table with
  | nil => simp [List.lookup] at h
  | cons entry rest ih =>
    obtain ⟨k, v⟩ := entry
    simp only [List.lookup] at h
    by_cases hk : key == k
    · simp only [hk, Option.some.injEq] at h
      have : key = k := by simpa using hk
      subst this
      subst h
      exact List.mem_cons_self _ _
    · simp only [hk] at h
      exact List.mem_cons_of_mem _ (ih h)

/-- Every body part of every structure has an exercise count. -/
theorem exerciseCount_isSome (workoutType : String) (structure_ : WorkoutStructure)
    (h : WORKOUT_STRUCTURES.lookup workoutType = some structure_) (bodyPart : String)
    (hb : bodyPart ∈ structure_.bodyParts) :
    (structure_.exerciseCount.lookup bodyPart).isSome = true := by
  have hmem := mem_of_lookup_eq_some _ _ _ h
  have hall : ∀ entry ∈ WORKOUT_STRUCTURES, ∀ b ∈ entry.2.bodyParts,
      (entry.2.exerciseCount.lookup b).isSome = true := by decide
  exact hall _ hmem bodyPart hb

/-- C12: when the random sort returns rearrangements, the exercise list of
every generated template of day label `D` is the concatenation, in the
body-part order of `WORKOUT_STRUCTURES[D]`, of one stamped selection per body
part; the selection for body part `b` holds at most `exerciseCount[b]` records,
each a catalog record whose body part equals `b` ignoring case and whose
equipment equals, ignoring case, one of the profile's normalized tags. -/
theorem generateWorkoutPlan_exercises (world : World) (allExercises : List ExerciseRecord)
    (userProfile : UserProfile) (t : WorkoutTemplate)
    (hperm : ∀ (i k : Nat) (l : List ExerciseRecord), (world.shuffle i k l).Perm l)
    (ht : t ∈ generateWorkoutPlan world allExercises userProfile) :
    ∃ (structure_ : WorkoutStructure) (scheme : RepScheme)
      (selections : List (List ExerciseRecord)),
      WORKOUT_STRUCTURES.lookup t.type = some structure_ ∧
      t.exercises = (selections.map (List.map (stampExercise scheme))).flatten ∧
      List.Forall₂
        (fun bodyPart selection =>
          (∃ count : Nat, structure_.exerciseCount.lookup bodyPart = some count ∧
            selection.length ≤ count) ∧
          ∀ r ∈ selection,
            r ∈ allExercises ∧ toLowerCase r.bodyPart = toLowerCase bodyPart ∧
            ∃ tag : String,
              EquipmentTag.text tag ∈ userProfile.availableEquipment.map normalizeEquipment ∧
              toLowerCase r.equipment = toLowerCase tag)
        structure_.bodyParts selections := by
  rcases generateWorkoutPlan_cases world allExercises userProfile with h | h
  · rw [h] at ht
    cases ht
  · obtain ⟨rs, avail, cfg, -, -, hfilter, -, h⟩ := h
    rw [h] at ht
    obtain ⟨i, w, st, hst, rfl⟩ := mem_buildTemplates world rs avail _ t ht
    refine ⟨st, rs,
      st.bodyParts.enum.map (fun kb =>
        selectRandomExercises (world.shuffle i kb.1)
          (avail.filter (fun ex => toLowerCase ex.bodyPart = toLowerCase kb.2))
          ((st.exerciseCount.lookup kb.2).getD
            (avail.filter (fun ex => toLowerCase ex.bodyPart = toLowerCase kb.2)).length)),
      hst, ?_, ?_⟩
    · show selectWorkoutExercises world rs avail i st = _
      rw [selectWorkoutExercises_eq, List.flatMap_def, List.map_map]
      rfl
    · apply forall2_enumFrom_map
      intro k b hb
      obtain ⟨count, hcount⟩ := Option.isSome_iff_exists.mp (exerciseCount_isSome w st hst b hb)
      refine ⟨⟨count, hcount, ?_⟩, ?_⟩
      · simp only [hcount, Option.getD_some]
        exact selectRandomExercises_length_le _ _ _
      · intro r hr
        have hsub := (selectRandomExercises_subperm (world.shuffle i k)
          (avail.filter (fun ex => toLowerCase ex.bodyPart = toLowerCase b))
          ((st.exerciseCount.lookup b).getD
            (avail.filter (fun ex => toLowerCase ex.bodyPart = toLowerCase b)).length)
          (hperm i k _)).subset hr
        rw [List.mem_filter] at hsub
        obtain ⟨hmem, htag⟩ := mem_filterExercises_equipment _ allExercises avail hfilter r hsub.1
        exact ⟨hmem, by simpa using hsub.2, htag⟩

/-- C12 at the template generated for the sample profile, with the random
sort that reverses its input. -/
theorem generateWorkoutPlan_exercises_witness :
    (∀ (i k : Nat) (l : List ExerciseRecord), (demoWorld.shuffle i k l).Perm l) ∧
      demoTemplate ∈ generateWorkoutPlan demoWorld demoCatalog demoProfile ∧
      ∃ (structure_ : WorkoutStructure) (scheme : RepScheme)
        (selections : List (List ExerciseRecord)),
        WORKOUT_STRUCTURES.lookup demoTemplate.type = some structure_ ∧
        demoTemplate.exercises = (selections.map (List.map (stampExercise scheme))).flatten ∧
        List.Forall₂
          (fun bodyPart selection =>
            (∃ count : Nat, structure_.exerciseCount.lookup bodyPart = some count ∧
              selection.length ≤ count) ∧
            ∀ r ∈ selection,
              r ∈ demoCatalog ∧ toLowerCase r.bodyPart = toLowerCase bodyPart ∧
              ∃ tag : String,
                EquipmentTag.text tag ∈ demoProfile.availableEquipment.map normalizeEquipment ∧
                toLowerCase r.equipment = toLowerCase tag)
          structure_.bodyParts selections :=
  ⟨fun _ _ l => List.reverse_perm l, by decide,
    generateWorkoutPlan_exercises demoWorld demoCatalog demoProfile demoTemplate
      (fun _ _ l => List.reverse_perm l) (by decide)⟩

/-! ## Theorems: degraded inputs of the generator -/

/-- With no available exercise every body part selects nothing. -/
theorem selectWorkoutExercises_nil (world : World) (repScheme : RepScheme) (i : Nat)
    (structure_ : WorkoutStructure) :
    selectWorkoutExercises world repScheme [] i structure_ = [] := by
  rw [selectWorkoutExercises_eq]
  simp [selectRandomExercises]

/-- With no available exercise the loop still makes one template per day
label, with no exercises and a zero duration. -/
theorem buildTemplates_nil (world : World) (repScheme : RepScheme)
    (uniqueWorkoutTypes : List String)
    (h : ∀ w ∈ uniqueWorkoutTypes, (WORKOUT_STRUCTURES.lookup w).isSome = true) :
    (buildTemplates world repScheme [] uniqueWorkoutTypes).map
        (fun t => (t.name, t.type, t.exercises, t.estimatedDuration)) =
      uniqueWorkoutTypes.map (fun w => (w ++ " Day", w, [], some 0)) := by
  rw [buildTemplates_eq]
  unfold List.enum
  simp only [selectWorkoutExercises_nil]
  have aux : ∀ n : Nat,
      ((uniqueWorkoutTypes.enumFrom n).flatMap (fun iw =>
        match WORKOUT_STRUCTURES.lookup iw.2 with
        | none => []
        | some _ => [makeTemplate world iw.1 iw.2 []])).map
          (fun t => (t.name, t.type, t.exercises, t.estimatedDuration)) =
        uniqueWorkoutTypes.map (fun w => (w ++ " Day", w, [], some 0)) := by
    induction uniqueWorkoutTypes with
    | nil => intro n; rfl
    | cons w rest ih =>
      intro n
      have hw := h w (List.mem_cons_self _ _)
      obtain ⟨st, hst⟩ := Option.isSome_iff_exists.mp hw
      simp only [List.enumFrom_cons, List.flatMap_cons, hst, List.map_append, List.map_cons,
        List.map_nil, List.singleton_append]
      rw [ih (fun x hx => h x (List.mem_cons_of_mem _ hx)) (n + 1)]
      rfl
  exact aux 0

/-- Every day label of every split has a structure. -/
theorem splitLabels_have_structure (key : String) (splitConfig : SplitConfig)
    (h : jsLookup WORKOUT_SPLITS key = .own splitConfig) :
    key ∈ ["PPL", "UpperLower", "FullBody"] ∧
      ∀ w ∈ newSet splitConfig.workouts, (WORKOUT_STRUCTURES.lookup w).isSome = true := by
  have hl : WORKOUT_SPLITS.lookup key = some splitConfig := by
    unfold jsLookup at h
    cases hk : WORKOUT_SPLITS.lookup key with
    | none =>
      rw [hk] at h
      dsimp only at h
      split_ifs at h
    | some v =>
      rw [hk] at h
      simp only [JsLookup.own.injEq] at h
      rw [h]
  have hmem := mem_of_lookup_eq_some _ _ _ hl
  have hall : ∀ entry ∈ WORKOUT_SPLITS,
      entry.1 ∈ ["PPL", "UpperLower", "FullBody"] ∧
      ∀ w ∈ newSet entry.2.workouts, (WORKOUT_STRUCTURES.lookup w).isSome = true := by
    decide
  exact hall _ hmem

/-- C14 as amended: when the catalog is not empty and the equipment filter
leaves nothing, the generator still returns one template per distinct day
label of a recognised split, each with no exercises and an estimated duration
of zero; it returns no template only for a split it does not recognise. -/
theorem generateWorkoutPlan_no_match (world : World) (allExercises : List ExerciseRecord)
    (userProfile : UserProfile) (hne : allExercises ≠ [])
    (hfilter : filterExercises allExercises
      { equipment := some (.list (userProfile.availableEquipment.map normalizeEquipment)) } =
        some []) :
    (generateWorkoutPlan world allExercises userProfile).map
        (fun t => (t.name, t.type, t.exercises, t.estimatedDuration)) =
      match jsLookup WORKOUT_SPLITS userProfile.preferredSplit with
      | .own splitConfig =>
        (newSet splitConfig.workouts).map (fun w => (w ++ " Day", w, [], some 0))
      | _ => [] := by
  have hempty : allExercises.isEmpty = false := by
    cases allExercises with
    | nil => exact absurd rfl hne
    | cons a l => rfl
  obtain ⟨rs, hrs⟩ := Option.isSome_iff_exists.mp
    (repSchemeFor_isSome userProfile.fitnessGoals userProfile.experienceLevel)
  simp only [generateWorkoutPlan, hempty, Bool.false_eq_true, if_false, hfilter]
  cases hl : jsLookup WORKOUT_SPLITS userProfile.preferredSplit with
  | undefined => rfl
  | inherited k => rfl
  | own cfg =>
    simp only [hrs]
    exact buildTemplates_nil world rs _ (splitLabels_have_structure _ cfg hl).2

/-- C14 as amended, at the sample catalog and a kettlebell-only PPL profile. -/
theorem generateWorkoutPlan_no_match_witness :
    demoCatalog ≠ [] ∧
      filterExercises demoCatalog
        { equipment := some (.list (kettlebellProfile.availableEquipment.map normalizeEquipment)) }
          = some [] ∧
      (generateWorkoutPlan demoWorld demoCatalog kettlebellProfile).map
          (fun t => (t.name, t.type, t.exercises, t.estimatedDuration)) =
        match jsLookup WORKOUT_SPLITS kettlebellProfile.preferredSplit with
        | .own splitConfig =>
          (newSet splitConfig.workouts).map (fun w => (w ++ " Day", w, [], some 0))
        | _ => [] :=
  ⟨by decide, by decide,
    generateWorkoutPlan_no_match demoWorld demoCatalog kettlebellProfile (by decide) (by decide)⟩

/-- C14 as stated fails: the sample catalog is not empty and none of its
records is kettlebell equipment, yet for the kettlebell-only PPL profile the
generator returns three templates, Push Day, Pull Day and Legs Day, each
without exercises. -/
theorem generateWorkoutPlan_no_match_templates :
    demoCatalog ≠ [] ∧
      filterExercises demoCatalog
        { equipment := some (.list (kettlebellProfile.availableEquipment.map normalizeEquipment)) }
          = some [] ∧
      (generateWorkoutPlan demoWorld demoCatalog kettlebellProfile).map
          (fun t => (t.name, t.exercises)) =
        [("Push Day", []), ("Pull Day", []), ("Legs Day", [])] ∧
      generateWorkoutPlan demoWorld demoCatalog kettlebellProfile ≠ [] := by
  decide

/-- C15: for a profile whose split is none of PPL, UpperLower and FullBody the
generator returns the empty list, for every catalog, clock and random sort; it
is a total function, every exception being caught inside it. -/
theorem generateWorkoutPlan_unknown_split (world : World) (allExercises : List ExerciseRecord)
    (userProfile : UserProfile)
    (h : userProfile.preferredSplit ∉ ["PPL", "UpperLower", "FullBody"]) :
    generateWorkoutPlan world allExercises userProfile = [] := by
  rcases generateWorkoutPlan_cases world allExercises userProfile with hnil | hcase
  · exact hnil
  · obtain ⟨rs, avail, cfg, -, hl, -, -, -⟩ := hcase
    exact absurd (splitLabels_have_structure _ cfg hl).1 h

/-- C15 at the sample catalog for the split name `"toString"`. -/
theorem generateWorkoutPlan_unknown_split_witness :
    ({ demoProfile with preferredSplit := "toString" } : UserProfile).preferredSplit ∉
        ["PPL", "UpperLower", "FullBody"] ∧
      generateWorkoutPlan demoWorld demoCatalog { demoProfile with preferredSplit := "toString" }
        = [] :=
  ⟨by decide,
    generateWorkoutPlan_unknown_split demoWorld demoCatalog
      { demoProfile with preferredSplit := "toString" } (by decide)⟩

/-! ## Theorems: editing a log -/

/-- An index pair is in range exactly when it addresses a set entry. -/
theorem inRange_iff (log : WorkoutLog) (i j : Nat) :
    inRange log i j = true ↔
      ∃ (exercise : LoggedExercise) (set : SetEntry),
        log.exercises[i]? = some exercise ∧ exercise.sets[j]? = some set := by
  unfold inRange
  cases hi : log.exercises[i]? with
  | none => simp
  | some exercise =>
    simp only [decide_eq_true_eq, Option.some.injEq, exists_and_left, exists_eq_left']
    constructor
    · intro hj
      exact ⟨exercise.sets[j], List.getElem?_eq_getElem hj⟩
    · rintro ⟨set, hset⟩
      exact (List.getElem?_eq_some_iff.mp hset).1

/-- C16 as amended: when the exercise index or the set index is out of range,
the updater of `updateSet` raises a `TypeError` (the source checks no bounds and
has no error of its own for a violated precondition), so it does not silently
do nothing, and the state of the session is left as it was. -/
theorem updateSet_out_of_range (log : WorkoutLog) (i j : Nat) (update : SetUpdate)
    (h : inRange log i j = false) :
    (∃ message : String, updateSet log i j update = .error (.typeError message)) ∧
      setWorkoutLog log (updateSet log i j update) = log := by
  unfold inRange at h
  unfold updateSet
  cases hi : log.exercises[i]? with
  | none => exact ⟨⟨_, rfl⟩, rfl⟩
  | some exercise =>
    rw [hi] at h
    have hj : exercise.sets[j]? = none := by
      apply List.getElem?_eq_none
      simpa using h
    simp only [hj]
    exact ⟨⟨_, rfl⟩, rfl⟩

/-- C16 as amended, at the sample log (one exercise of three sets) with
exercise index 5. -/
theorem updateSet_out_of_range_witness :
    inRange demoLog 5 0 = false ∧
      (∃ message : String,
        updateSet demoLog 5 0 (.weight (some 100)) = .error (.typeError message)) ∧
      setWorkoutLog demoLog (updateSet demoLog 5 0 (.weight (some 100))) = demoLog :=
  ⟨by decide, updateSet_out_of_range demoLog 5 0 (.weight (some 100)) (by decide)⟩

/-- C16 as stated fails: on the sample log, whose only exercise has index 0,
`updateSet` with exercise index 5 raises the `TypeError` of a property read
through `undefined`, not a precondition violation; the same holds for set index
3 of exercise 0, which has three sets. -/
theorem updateSet_raises_typeError :
    updateSet demoLog 5 0 (.weight (some 100)) =
        .error (.typeError "cannot read property sets of undefined") ∧
      updateSet demoLog 5 0 (.weight (some 100)) ≠ .error .preconditionViolation ∧
      updateSet demoLog 0 3 (.weight (some 100)) =
        .error (.typeError "cannot set a property of undefined") ∧
      updateSet demoLog 0 3 (.weight (some 100)) ≠ .error .preconditionViolation := by
  decide

/-- C17: for in-range indices `updateSet` succeeds; in the new log the
addressed entry has the given field equal to the given value and its other
fields as before, every other entry of that exercise, every other field of
that exercise, every other exercise and every log-level field are unchanged. -/
theorem updateSet_in_range (log : WorkoutLog) (i j : Nat) (update : SetUpdate)
    (exercise : LoggedExercise) (set : SetEntry)
    (hi : log.exercises[i]? = some exercise) (hj : exercise.sets[j]? = some set) :
    ∃ (next : WorkoutLog) (exercise2 : LoggedExercise) (set2 : SetEntry),
      updateSet log i j update = .ok next ∧
      next.exercises[i]? = some exercise2 ∧ exercise2.sets[j]? = some set2 ∧
      (∀ value, update = .weight value →
        set2.weight = value ∧ set2.reps = set.reps ∧ set2.notes = set.notes) ∧
      (∀ value, update = .reps value →
        set2.reps = value ∧ set2.weight = set.weight ∧ set2.notes = set.notes) ∧
      (∀ value, update = .notes value →
        set2.notes = value ∧ set2.weight = set.weight ∧ set2.reps = set.reps) ∧
      set2.setNumber = set.setNumber ∧ set2.completed = set.completed ∧ set2.rpe = set.rpe ∧
      exercise2.sets.length = exercise.sets.length ∧
      (∀ j2 : Nat, j2 ≠ j → exercise2.sets[j2]? = exercise.sets[j2]?) ∧
      { exercise2 with sets := exercise.sets } = exercise ∧
      next.exercises.length = log.exercises.length ∧
      (∀ i2 : Nat, i2 ≠ i → next.exercises[i2]? = log.exercises[i2]?) ∧
      { next with exercises := log.exercises } = log := by
  have hilt : i < log.exercises.length := (List.getElem?_eq_some_iff.mp hi).1
  have hjlt : j < exercise.sets.length := (List.getElem?_eq_some_iff.mp hj).1
  refine ⟨{ log with
      exercises :=
        log.exercises.set i { exercise with sets := exercise.sets.set j (update.assign set) } },
    { exercise with sets := exercise.sets.set j (update.assign set) },
    update.assign set, by simp only [updateSet, hi, hj], ?_, ?_, ?_, ?_, ?_, ?_, ?_, ?_, ?_, ?_,
    rfl, ?_, ?_, rfl⟩
  · exact List.getElem?_set_self hilt
  · exact List.getElem?_set_self hjlt
  · rintro value rfl
    exact ⟨rfl, rfl, rfl⟩
  · rintro value rfl
    exact ⟨rfl, rfl, rfl⟩
  · rintro value rfl
    exact ⟨rfl, rfl, rfl⟩
  · cases update <;> rfl
  · cases update <;> rfl
  · cases update <;> rfl
  · simp
  · intro j2 hne
    exact List.getElem?_set_ne (Ne.symm hne)
  · simp
  · intro i2 hne
    exact List.getElem?_set_ne (Ne.symm hne)

/-- C17 at the sample log: the weight of the second set of the only exercise
is set to 100. -/
theorem updateSet_in_range_witness :
    demoLog.exercises[0]? = some (logExercise demoExercise) ∧
      (logExercise demoExercise).sets[1]? = some (emptySet 1) ∧
      ∃ (next : WorkoutLog) (exercise2 : LoggedExercise) (set2 : SetEntry),
        updateSet demoLog 0 1 (.weight (some 100)) = .ok next ∧
        next.exercises[0]? = some exercise2 ∧ exercise2.sets[1]? = some set2 ∧
        (∀ value, SetUpdate.weight (some 100) = .weight value →
          set2.weight = value ∧ set2.reps = (emptySet 1).reps ∧
            set2.notes = (emptySet 1).notes) ∧
        (∀ value, SetUpdate.weight (some 100) = .reps value →
          set2.reps = value ∧ set2.weight = (emptySet 1).weight ∧
            set2.notes = (emptySet 1).notes) ∧
        (∀ value, SetUpdate.weight (some 100) = .notes value →
          set2.notes = value ∧ set2.weight = (emptySet 1).weight ∧
            set2.reps = (emptySet 1).reps) ∧
        set2.setNumber = (emptySet 1).setNumber ∧ set2.completed = (emptySet 1).completed ∧
        set2.rpe = (emptySet 1).rpe ∧
        exercise2.sets.length = (logExercise demoExercise).sets.length ∧
        (∀ j2 : Nat, j2 ≠ 1 → exercise2.sets[j2]? = (logExercise demoExercise).sets[j2]?) ∧
        { exercise2 with sets := (logExercise demoExercise).sets } = logExercise demoExercise ∧
        next.exercises.length = demoLog.exercises.length ∧
        (∀ i2 : Nat, i2 ≠ 0 → next.exercises[i2]? = demoLog.exercises[i2]?) ∧
        { next with exercises := demoLog.exercises } = demoLog :=
  ⟨by decide, by decide,
    updateSet_in_range demoLog 0 1 (.weight (some 100)) (logExercise demoExercise) (emptySet 1)
      (by decide) (by decide)⟩

/-- C18: for in-range indices `completeSet` succeeds; in the new log the
addressed entry has its completed flag negated and its other fields as before,
and every other entry, every other field of that exercise, every other
exercise and every log-level field are unchanged. -/
theorem completeSet_in_range (log : WorkoutLog) (i j : Nat)
    (exercise : LoggedExercise) (set : SetEntry)
    (hi : log.exercises[i]? = some exercise) (hj : exercise.sets[j]? = some set) :
    ∃ (next : WorkoutLog) (exercise2 : LoggedExercise) (set2 : SetEntry),
      completeSet log i j = .ok next ∧
      next.exercises[i]? = some exercise2 ∧ exercise2.sets[j]? = some set2 ∧
      set2.completed = !set.completed ∧
      (set.completed = false → set2.completed = true) ∧
      (set.completed = true → set2.completed = false) ∧
      { set2 with completed := set.completed } = set ∧
      exercise2.sets.length = exercise.sets.length ∧
      (∀ j2 : Nat, j2 ≠ j → exercise2.sets[j2]? = exercise.sets[j2]?) ∧
      { exercise2 with sets := exercise.sets } = exercise ∧
      next.exercises.length = log.exercises.length ∧
      (∀ i2 : Nat, i2 ≠ i → next.exercises[i2]? = log.exercises[i2]?) ∧
      { next with exercises := log.exercises } = log := by
  have hilt : i < log.exercises.length := (List.getElem?_eq_some_iff.mp hi).1
  have hjlt : j < exercise.sets.length := (List.getElem?_eq_some_iff.mp hj).1
  refine ⟨{ log with
      exercises :=
        log.exercises.set i
          { exercise with sets := exercise.sets.set j { set with completed := !set.completed } } },
    { exercise with sets := exercise.sets.set j { set with completed := !set.completed } },
    { set with completed := !set.completed }, by simp only [completeSet, hi, hj], ?_, ?_, rfl,
    ?_, ?_, rfl, ?_, ?_, rfl, ?_, ?_, rfl⟩
  · exact List.getElem?_set_self hilt
  · exact List.getElem?_set_self hjlt
  · intro h
    simp [h]
  · intro h
    simp [h]
  · simp
  · intro j2 hne
    exact List.getElem?_set_ne (Ne.symm hne)
  · simp
  · intro i2 hne
    exact List.getElem?_set_ne (Ne.symm hne)

/-- C18 at the sample log: the third set of the only exercise is completed. -/
theorem completeSet_in_range_witness :
    demoLog.exercises[0]? = some (logExercise demoExercise) ∧
      (logExercise demoExercise).sets[2]? = some (emptySet 2) ∧
      ∃ (next : WorkoutLog) (exercise2 : LoggedExercise) (set2 : SetEntry),
        completeSet demoLog 0 2 = .ok next ∧
        next.exercises[0]? = some exercise2 ∧ exercise2.sets[2]? = some set2 ∧
        set2.completed = !(emptySet 2).completed ∧
        ((emptySet 2).completed = false → set2.completed = true) ∧
        ((emptySet 2).completed = true → set2.completed = false) ∧
        { set2 with completed := (emptySet 2).completed } = emptySet 2 ∧
        exercise2.sets.length = (logExercise demoExercise).sets.length ∧
        (∀ j2 : Nat, j2 ≠ 2 → exercise2.sets[j2]? = (logExercise demoExercise).sets[j2]?) ∧
        { exercise2 with sets := (logExercise demoExercise).sets } = logExercise demoExercise ∧
        next.exercises.length = demoLog.exercises.length ∧
        (∀ i2 : Nat, i2 ≠ 0 → next.exercises[i2]? = demoLog.exercises[i2]?) ∧
        { next with exercises := demoLog.exercises } = demoLog :=
  ⟨by decide, by decide,
    completeSet_in_range demoLog 0 2 (logExercise demoExercise) (emptySet 2)
      (by decide) (by decide)⟩

/-! ## Theorems: what a session of edits preserves -/

/-- Replacing an element by one with the same image leaves the mapped list. -/
theorem map_set_of_eq {α β : Type} (f : α → β) (l : List α) (i : Nat) (a x : α)
    (h : l[i]? = some a) (hf : f x = f a) : (l.set i x).map f = l.map f := by
  apply List.ext_getElem?
  intro k
  simp only [List.getElem?_map, List.getElem?_set]
  by_cases hk : i = k
  · subst hk
    have hlt : i < l.length := (List.getElem?_eq_some_iff.mp h).1
    simp [hlt, h, hf]
  · simp [hk]

/-- A successful `updateSet` changes nothing outside the editable fields. -/
theorem updateSet_frame (log next : WorkoutLog) (i j : Nat) (update : SetUpdate)
    (h : updateSet log i j update = .ok next) : next.frame = log.frame := by
  unfold updateSet at h
  cases hi : log.exercises[i]? with
  | none => simp [hi] at h
  | some exercise =>
    cases hj : exercise.sets[j]? with
    | none => simp [hi, hj] at h
    | some set =>
      simp only [hi, hj, Except.ok.injEq] at h
      subst h
      simp only [WorkoutLog.frame]
      congr 1
      apply map_set_of_eq _ _ _ exercise _ hi
      simp only [LoggedExercise.frame]
      congr 1
      apply map_set_of_eq _ _ _ set _ hj
      cases update <;> rfl

/-- A successful `completeSet` changes nothing outside the editable fields. -/
theorem completeSet_frame (log next : WorkoutLog) (i j : Nat)
    (h : completeSet log i j = .ok next) : next.frame = log.frame := by
  unfold completeSet at h
  cases hi : log.exercises[i]? with
  | none => simp [hi] at h
  | some exercise =>
    cases hj : exercise.sets[j]? with
    | none => simp [hi, hj] at h
    | some set =>
      simp only [hi, hj, Except.ok.injEq] at h
      subst h
      simp only [WorkoutLog.frame]
      congr 1
      apply map_set_of_eq _ _ _ exercise _ hi
      simp only [LoggedExercise.frame]
      congr 1
      exact map_set_of_eq _ _ _ set _ hj rfl

/-- One edit, successful or not, changes nothing outside the editable fields. -/
theorem apply_frame (log : WorkoutLog) (op : SessionOp) :
    (op.apply log).frame = log.frame := by
  cases op with
  | updateSet i j update =>
    simp only [SessionOp.apply]
    cases h : updateSet log i j update with
    | error e => rfl
    | ok next => exact updateSet_frame log next i j update h
  | completeSet i j =>
    simp only [SessionOp.apply]
    cases h : completeSet log i j with
    | error e => rfl
    | ok next => exact completeSet_frame log next i j h

/-- A sequence of edits changes nothing outside the editable fields. -/
theorem applyOps_frame (log : WorkoutLog) (ops : List SessionOp) :
    (applyOps log ops).frame = log.frame := by
  unfold applyOps
  induction ops generalizing log with
  | nil => rfl
  | cons op rest ih => rw [List.foldl_cons, ih, apply_frame]

/-- The set numbers are read off the frame. -/
theorem setNumbers_frame (log : WorkoutLog) : log.frame.setNumbers = log.setNumbers := by
  simp [WorkoutLog.setNumbers, WorkoutLog.frame, LoggedExercise.frame, Function.comp_def]

/-- The set numbers of a fresh log are `1..N` for each exercise. -/
theorem createWorkoutLog_setNumbers (nowMs : Nat) (nowIso : String)
    (template : WorkoutTemplate) :
    (createWorkoutLog nowMs nowIso template).setNumbers =
      template.exercises.map (fun ex => (List.range ex.sets).map (fun j => j + 1)) := by
  simp [WorkoutLog.setNumbers, createWorkoutLog, logExercise, emptySet, Function.comp_def]

/-- C19: after every finite sequence of `updateSet` and `completeSet` edits of
a log made by `createWorkoutLog`, the set numbers of each exercise are still
`1..N` in order, each exercise has the number of set entries its template
exercise prescribes, and the log differs from the created one at most in the
weight, reps, completed and notes fields of its set entries. -/
theorem applyOps_setNumbers (nowMs : Nat) (nowIso : String) (template : WorkoutTemplate)
    (ops : List SessionOp) :
    (applyOps (createWorkoutLog nowMs nowIso template) ops).setNumbers =
        template.exercises.map (fun ex => (List.range ex.sets).map (fun j => j + 1)) ∧
      (applyOps (createWorkoutLog nowMs nowIso template) ops).exercises.map
          (fun exercise => exercise.sets.length) =
        template.exercises.map (fun ex => ex.sets) ∧
      (applyOps (createWorkoutLog nowMs nowIso template) ops).frame =
        (createWorkoutLog nowMs nowIso template).frame := by
  have hframe := applyOps_frame (createWorkoutLog nowMs nowIso template) ops
  have hnum : (applyOps (createWorkoutLog nowMs nowIso template) ops).setNumbers =
      template.exercises.map (fun ex => (List.range ex.sets).map (fun j => j + 1)) := by
    rw [← setNumbers_frame, hframe, setNumbers_frame, createWorkoutLog_setNumbers]
  refine ⟨hnum, ?_, hframe⟩
  have hlen := congrArg (List.map List.length) hnum
  simpa [WorkoutLog.setNumbers, Function.comp_def] using hlen

/-- C20: the completed log built by the finish handler has the totals of
`calculateWorkoutStats` of the active log, a duration that is the elapsed
seconds over 60 rounded to the nearest whole minute (halves up), a completion
time that is not null, and every other field of the active log unchanged. -/
theorem handleFinishWorkout_completed (log : WorkoutLog) (elapsed : Nat) (nowIso : String) :
    (handleFinishWorkout log elapsed nowIso).totalVolume =
        (calculateWorkoutStats log).totalVolume ∧
      (handleFinishWorkout log elapsed nowIso).totalSets = (calculateWorkoutStats log).totalSets ∧
      (handleFinishWorkout log elapsed nowIso).totalReps = (calculateWorkoutStats log).totalReps ∧
      60 * (handleFinishWorkout log elapsed nowIso).durationMinutes ≤ elapsed + 30 ∧
      elapsed < 60 * (handleFinishWorkout log elapsed nowIso).durationMinutes + 30 ∧
      |((handleFinishWorkout log elapsed nowIso).durationMinutes : ℚ) - (elapsed : ℚ) / 60|
        ≤ 1 / 2 ∧
      (handleFinishWorkout log elapsed nowIso).completedAt = some nowIso ∧
      (handleFinishWorkout log elapsed nowIso).logId = log.logId ∧
      (handleFinishWorkout log elapsed nowIso).templateId = log.templateId ∧
      (handleFinishWorkout log elapsed nowIso).name = log.name ∧
      (handleFinishWorkout log elapsed nowIso).type = log.type ∧
      (handleFinishWorkout log elapsed nowIso).startedAt = log.startedAt ∧
      (handleFinishWorkout log elapsed nowIso).notes = log.notes ∧
      (handleFinishWorkout log elapsed nowIso).exercises = log.exercises := by
  have h1 : 60 * roundMinutes elapsed ≤ elapsed + 30 := by
    unfold roundMinutes
    exact Nat.mul_div_le (elapsed + 30) 60
  have h2 : elapsed < 60 * roundMinutes elapsed + 30 := by
    unfold roundMinutes
    have := Nat.lt_mul_div_succ (elapsed + 30) (by decide : 0 < 60)
    omega
  refine ⟨rfl, rfl, rfl, h1, h2, ?_, rfl, rfl, rfl, rfl, rfl, rfl, rfl, rfl⟩
  show |((roundMinutes elapsed : ℕ) : ℚ) - (elapsed : ℚ) / 60| ≤ 1 / 2
  have h1q : (60 : ℚ) * (roundMinutes elapsed : ℚ) ≤ (elapsed : ℚ) + 30 := by
    exact_mod_cast h1
  have h2q : (elapsed : ℚ) < 60 * (roundMinutes elapsed : ℚ) + 30 := by
    exact_mod_cast h2
  rw [abs_le]
  constructor <;> linarith


/-! ## Theorems: the active workout in the store -/

/-- A save on a store that does not fail leaves exactly the saved row. -/
theorem saveActiveWorkout_ok (workout : WorkoutLog) (nowIso : String) (db : Db) :
    saveActiveWorkout workout nowIso { db := db, failAfter := none } =
      (.ok workout,
        { db :=
            { db with
              active_workout :=
                { rows := [(db.active_workout.deleteAll.nextId,
                    { workout_data := workout, last_updated := nowIso })]
                  sequence := db.active_workout.deleteAll.nextId } }
          failAfter := none }) := by
  rfl

/-- A clear on a store that does not fail leaves no row. -/
theorem clearActiveWorkout_ok (db : Db) :
    clearActiveWorkout { db := db, failAfter := none } =
      ((), { db := { db with active_workout := db.active_workout.deleteAll },
             failAfter := none }) := by
  rfl

/-- Reading the active workout from a store that does not fail. -/
theorem getActiveWorkout_ok (db : Db) :
    (getActiveWorkout { db := db, failAfter := none }).1 =
      (db.active_workout.scan.head?).map (fun row => row.2.workout_data) := by
  simp only [getActiveWorkout, catchReturn, getActiveWorkoutBody, querySync, statement, bind,
    DbM.bind, pure, DbM.pure]
  cases db.active_workout.scan.head? <;> rfl

/-- After one call on a store that does not fail, the table holds the saved
row alone, or nothing after a clear, and the store still does not fail. -/
theorem activeOp_apply_ok (db : Db) (op : ActiveOp) :
    ∃ db2 : Db, op.apply { db := db, failAfter := none } = { db := db2, failAfter := none } ∧
      db2.active_workout.rows.length ≤ 1 ∧
      (db2.active_workout.scan.head?).map (fun row => row.2.workout_data) =
        lastSaved [op] := by
  cases op with
  | save workout nowIso =>
    refine ⟨_, by rw [ActiveOp.apply, saveActiveWorkout_ok], ?_, ?_⟩
    · simp
    · simp [Table.scan, lastSaved]
  | clear =>
    refine ⟨_, by rw [ActiveOp.apply, clearActiveWorkout_ok], ?_, ?_⟩
    · simp [Table.deleteAll]
    · simp [Table.scan, Table.deleteAll, lastSaved]

/-- A sequence of calls keeps a store that does not fail that way. -/
theorem applyActiveOps_failAfter (db : Db) (ops : List ActiveOp) :
    ∃ db2 : Db, applyActiveOps { db := db, failAfter := none } ops =
      { db := db2, failAfter := none } := by
  unfold applyActiveOps
  induction ops generalizing db with
  | nil => exact ⟨db, rfl⟩
  | cons op rest ih =>
    obtain ⟨db1, h1, -, -⟩ := activeOp_apply_ok db op
    rw [List.foldl_cons, h1]
    exact ih db1

/-- After a non-empty sequence of calls on a store that does not fail, the
table has at most one row and holds what the last call left. -/
theorem applyActiveOps_concat (db : Db) (ops : List ActiveOp) (op : ActiveOp) :
    (applyActiveOps { db := db, failAfter := none } (ops ++ [op])).db.active_workout.rows.length
        ≤ 1 ∧
      (getActiveWorkout (applyActiveOps { db := db, failAfter := none } (ops ++ [op]))).1 =
        lastSaved (ops ++ [op]) := by
  obtain ⟨db1, h1⟩ := applyActiveOps_failAfter db ops
  obtain ⟨db2, h2, hlen, hget⟩ := activeOp_apply_ok db1 op
  have hrun : applyActiveOps { db := db, failAfter := none } (ops ++ [op]) =
      { db := db2, failAfter := none } := by
    unfold applyActiveOps at h1 ⊢
    rw [List.foldl_append, h1, List.foldl_cons, List.foldl_nil, h2]
  have hlast : lastSaved (ops ++ [op]) = lastSaved [op] := by
    simp [lastSaved]
  rw [hrun, getActiveWorkout_ok, hget, hlast]
  exact ⟨hlen, rfl⟩

/-- C21, at a failing input: the edited sample log (first set 100 × 5,
completed) is saved as the active workout and read back unchanged, but the
log the workout screen builds when the user continues it has no set entry at
all, where the snapshot has three; this happens for every snapshot, because
the screen runs `createWorkoutLog` on the active log as if it were a template
and `Array.from` reads the array of set entries as the length 0. -/
theorem continueWorkout_drops_sets (nowMs : Nat) (nowIso : String) :
    (getActiveWorkout (saveActiveWorkout editedLog "2024-01-01T08:30:00.000Z" freshConn).2).1 =
        some editedLog ∧
      editedLog.exercises.map (fun exercise => exercise.sets.length) = [3] ∧
      (continueWorkout nowMs nowIso editedLog).exercises.map (fun exercise => exercise.sets) =
        [[]] ∧
      ∀ snapshot : WorkoutLog,
        (continueWorkout nowMs nowIso snapshot).exercises.map (fun exercise => exercise.sets) =
          snapshot.exercises.map (fun _ => []) := by
  have hall : ∀ snapshot : WorkoutLog,
      (continueWorkout nowMs nowIso snapshot).exercises.map (fun exercise => exercise.sets) =
        snapshot.exercises.map (fun _ => []) := by
    intro snapshot
    simp [continueWorkout, createWorkoutLog, logAsTemplate, logExercise, lengthOfSetArray,
      Function.comp_def]
  exact ⟨by decide, by decide, (hall editedLog).trans (by decide), hall⟩

/-- C22 as amended: two saves of the same log in succession on a store that
does not fail leave, like the first save alone, exactly one row whose
serialized log is that log, and `getActiveWorkout` returns the log after
either; the row left by the second save has the next id and the time of the
second save, and no other table is touched. -/
theorem saveActiveWorkout_twice (workout : WorkoutLog) (time1 time2 : String) (db : Db) :
    ((saveActiveWorkout workout time1 { db := db, failAfter := none }).2.db.active_workout.rows.map
        (fun row => row.2.workout_data) = [workout]) ∧
      ((saveActiveWorkout workout time2
          (saveActiveWorkout workout time1 { db := db, failAfter := none }).2).2.db.active_workout.rows.map
        (fun row => row.2.workout_data) = [workout]) ∧
      (getActiveWorkout (saveActiveWorkout workout time1 { db := db, failAfter := none }).2).1 =
        some workout ∧
      (getActiveWorkout (saveActiveWorkout workout time2
          (saveActiveWorkout workout time1 { db := db, failAfter := none }).2).2).1 =
        some workout ∧
      ((saveActiveWorkout workout time2
          (saveActiveWorkout workout time1 { db := db, failAfter := none }).2).2.db.active_workout.rows.map
        (fun row => (row.1, row.2.last_updated)) =
        (saveActiveWorkout workout time1 { db := db, failAfter := none }).2.db.active_workout.rows.map
          (fun row => (row.1 + 1, time2))) ∧
      { (saveActiveWorkout workout time2
          (saveActiveWorkout workout time1 { db := db, failAfter := none }).2).2.db with
        active_workout := db.active_workout } = db := by
  refine ⟨?_, ?_, ?_, ?_, ?_, ?_⟩
  · simp only [saveActiveWorkout_ok, List.map_cons, List.map_nil]
  · simp only [saveActiveWorkout_ok, List.map_cons, List.map_nil]
  · simp [saveActiveWorkout_ok, getActiveWorkout_ok, Table.scan]
  · simp [saveActiveWorkout_ok, getActiveWorkout_ok, Table.scan]
  · simp [saveActiveWorkout_ok, Table.nextId, Table.deleteAll]
  · simp only [saveActiveWorkout_ok]

/-- C22 as stated fails: after two saves of the edited sample log on a fresh
database, even with the same clock read, the stored row is not the row the
first save left: its id is 2, not 1. -/
theorem saveActiveWorkout_twice_differs :
    (saveActiveWorkout editedLog "2024-01-01T08:30:00.000Z" freshConn).2.db.active_workout.rows =
        [(1, { workout_data := editedLog, last_updated := "2024-01-01T08:30:00.000Z" })] ∧
      (saveActiveWorkout editedLog "2024-01-01T08:30:00.000Z"
          (saveActiveWorkout editedLog "2024-01-01T08:30:00.000Z"
            freshConn).2).2.db.active_workout.rows =
        [(2, { workout_data := editedLog, last_updated := "2024-01-01T08:30:00.000Z" })] ∧
      (saveActiveWorkout editedLog "2024-01-01T08:30:30.000Z"
          (saveActiveWorkout editedLog "2024-01-01T08:30:00.000Z" freshConn).2).2.db ≠
        (saveActiveWorkout editedLog "2024-01-01T08:30:00.000Z" freshConn).2.db := by
  decide

/-- C23: after every sequence of saves and clears on a store that does not
fail, begun on a fresh database, the active-workout table holds at most one
row and `getActiveWorkout` returns the log of the last call when it is a save
and `null` when it is a clear or there was no call; begun on any database the
same holds after at least one call. -/
theorem activeWorkout_single_row :
    (∀ ops : List ActiveOp,
        (applyActiveOps freshConn ops).db.active_workout.rows.length ≤ 1 ∧
        (getActiveWorkout (applyActiveOps freshConn ops)).1 = lastSaved ops) ∧
      (∀ (db : Db) (ops : List ActiveOp), ops ≠ [] →
        (applyActiveOps { db := db, failAfter := none } ops).db.active_workout.rows.length ≤ 1 ∧
        (getActiveWorkout (applyActiveOps { db := db, failAfter := none } ops)).1 =
          lastSaved ops) := by
  have hgen : ∀ (db : Db) (ops : List ActiveOp), ops ≠ [] →
      (applyActiveOps { db := db, failAfter := none } ops).db.active_workout.rows.length ≤ 1 ∧
      (getActiveWorkout (applyActiveOps { db := db, failAfter := none } ops)).1 =
        lastSaved ops := by
    intro db ops hne
    rcases List.eq_nil_or_concat ops with h | ⟨init, last, h⟩
    · exact absurd h hne
    · rw [h, List.concat_eq_append]
      exact applyActiveOps_concat db init last
  refine ⟨?_, hgen⟩
  intro ops
  by_cases hne : ops = []
  · subst hne
    decide
  · exact hgen Db.empty ops hne


/-! ## Theorems: the exercise cache -/

/-- C24: `fetchAllExercises` is a total function, so it never raises to its
caller.  When the request fails and the cache holds data, of whatever age, it
returns that data; when the request fails and the cache holds nothing it
returns the empty list; and when the cache holds data stamped less than 24
hours before the clock read it returns that data, makes no request and leaves
the cache as it is. -/
theorem fetchAllExercises_fallback :
    (∀ (cache : ExerciseCache) (now stamp : Nat) (message : String)
        (data : List ExerciseRecord), cache.data = some data →
        (fetchAllExercises cache now stamp (.failure message)).exercises = data) ∧
      (∀ (cache : ExerciseCache) (now stamp : Nat) (message : String), cache.data = none →
        (fetchAllExercises cache now stamp (.failure message)).exercises = []) ∧
      (∀ (data : List ExerciseRecord) (timestamp now stamp : Nat) (outcome : FetchOutcome),
        0 < timestamp → (now : Int) - (timestamp : Int) < (dayMs : Int) →
        fetchAllExercises { data := some data, timestamp := some timestamp, expiryMs := dayMs }
            now stamp outcome =
          { exercises := data
            cache := { data := some data, timestamp := some timestamp, expiryMs := dayMs }
            requested := false }) ∧
      (∀ (data : List ExerciseRecord) (timestamp now stamp : Nat) (message : String),
        (dayMs : Int) ≤ (now : Int) - (timestamp : Int) →
        fetchAllExercises { data := some data, timestamp := some timestamp, expiryMs := dayMs }
            now stamp (.failure message) =
          { exercises := data
            cache := { data := some data, timestamp := some timestamp, expiryMs := dayMs }
            requested := true }) := by
  refine ⟨?_, ?_, ?_, ?_⟩
  · intro cache now stamp message data hdata
    unfold fetchAllExercises
    split_ifs <;> simp [hdata]
  · intro cache now stamp message hdata
    unfold fetchAllExercises
    split_ifs <;> simp [hdata]
  · intro data timestamp now stamp outcome hpos hage
    have hne : timestamp ≠ 0 := Nat.pos_iff_ne_zero.mp hpos
    simp [fetchAllExercises, isCacheValid, hne, hage]
  · intro data timestamp now stamp message hage
    have hnot : ¬ ((now : Int) - (timestamp : Int) < (dayMs : Int)) := not_lt.mpr hage
    simp [fetchAllExercises, isCacheValid, hnot]

/-! ## Theorems: last performed, rep schemes, repeating a workout -/

/-- C27: on a freshly opened screen the last-performed lookup yields the
`completedAt` of the first log of the list that has an exercise with exactly
the given name, and `null` when no log of the list has one. -/
theorem loadLastPerformed_first_match :
    (∀ (before after : List HistoryLog) (log : HistoryLog) (exerciseName : String),
        (∃ ex ∈ log.exercises, ex.name = exerciseName) →
        (∀ earlier ∈ before, ∀ ex ∈ earlier.exercises, ex.name ≠ exerciseName) →
        loadLastPerformed none (before ++ log :: after) exerciseName = log.completedAt) ∧
      (∀ (history : List HistoryLog) (exerciseName : String),
        (∀ log ∈ history, ∀ ex ∈ log.exercises, ex.name ≠ exerciseName) →
        loadLastPerformed none history exerciseName = none) := by
  constructor
  · intro before after log exerciseName hlog hbefore
    have hfind : (before ++ log :: after).find?
        (fun workout => workout.exercises.any (fun ex => ex.name = exerciseName)) = some log := by
      induction before with
      | nil =>
        obtain ⟨ex, hex, hname⟩ := hlog
        have : log.exercises.any (fun ex => decide (ex.name = exerciseName)) = true := by
          rw [List.any_eq_true]
          exact ⟨ex, hex, by simpa using hname⟩
        simp [List.find?, this]
      | cons earlier rest ih =>
        have hno : earlier.exercises.any (fun ex => decide (ex.name = exerciseName)) = false := by
          rw [List.any_eq_false]
          intro ex hex
          simpa using hbefore earlier (List.mem_cons_self _ _) ex hex
        simp only [List.cons_append, List.find?, hno]
        exact ih (fun e he => hbefore e (List.mem_cons_of_mem _ he))
    simp only [loadLastPerformed, hfind]
  · intro history exerciseName hnone
    have hfind : history.find?
        (fun workout => workout.exercises.any (fun ex => ex.name = exerciseName)) = none := by
      rw [List.find?_eq_none]
      intro log hlog
      simp only [List.any_eq_true, decide_eq_true_eq, not_exists, not_and]
      exact fun ex hex => hnone log hlog ex hex
    simp only [loadLastPerformed, hfind]

/-- C29: for every goal list, absent and empty included, and every experience
level, the goal key names an entry of `REP_SCHEMES` and the experience key an
entry of that entry, so the rep-scheme read of the generator always yields a
scheme. -/
theorem repScheme_defined (goals : Option (List String)) (level : String) :
    getPrimaryGoal goals ∈ REP_SCHEMES.map Prod.fst ∧
      ∃ (byLevel : List (String × RepScheme)) (scheme : RepScheme),
        REP_SCHEMES.lookup (getPrimaryGoal goals) = some byLevel ∧
        byLevel.lookup (getExperienceKey level) = some scheme ∧
        repSchemeFor (getPrimaryGoal goals) (getExperienceKey level) = some scheme := by
  obtain ⟨scheme, hscheme⟩ := Option.isSome_iff_exists.mp (repSchemeFor_isSome goals level)
  have hsplit := hscheme
  unfold repSchemeFor at hsplit
  cases hby : REP_SCHEMES.lookup (getPrimaryGoal goals) with
  | none => simp [hby] at hsplit
  | some byLevel =>
    rw [hby] at hsplit
    refine ⟨?_, byLevel, scheme, rfl, hsplit, hscheme⟩
    have hmem := mem_of_lookup_eq_some _ _ _ hby
    exact List.mem_map.mpr ⟨_, hmem, rfl⟩

/-- C30: the template `handleRepeatWorkout` builds from a history log has the
log's exercises in the log's order, each prescribing as many sets as the log
holds set entries for it, and the log `createWorkoutLog` makes of that
template has, for each exercise, that many set entries, numbered from 1, with
no weight, reps, rpe or notes and not completed. -/
theorem handleRepeatWorkout_sets (workout : HistoryLog) (nowMs : Nat) (nowIso : String) :
    (handleRepeatWorkout workout).exercises.map
        (fun ex => (ex.id, ex.name, ex.bodyPart, ex.target, ex.equipment)) =
        workout.exercises.map
          (fun ex => (ex.id, ex.name, ex.bodyPart, ex.target, ex.equipment)) ∧
      (handleRepeatWorkout workout).exercises.map (fun ex => ex.sets) =
        workout.exercises.map (fun ex => ex.sets.length) ∧
      (createWorkoutLog nowMs nowIso (handleRepeatWorkout workout)).exercises.map
          (fun ex => (ex.id, ex.name)) =
        workout.exercises.map (fun ex => (ex.id, ex.name)) ∧
      (createWorkoutLog nowMs nowIso (handleRepeatWorkout workout)).exercises.map
          (fun ex => ex.sets) =
        workout.exercises.map (fun ex =>
          (List.range ex.sets.length).map (fun j =>
            { setNumber := j + 1, weight := none, reps := none, completed := false,
              rpe := none, notes := none })) := by
  refine ⟨?_, ?_, ?_, ?_⟩ <;>
    simp [handleRepeatWorkout, createWorkoutLog, logExercise, emptySet, Function.comp_def]


/-! ## Theorems: personal record -/

/-- A scan lists exactly the rows of the table. -/
theorem mem_scan {ρ : Type} (t : Table ρ) (row : Nat × ρ) : row ∈ t.scan ↔ row ∈ t.rows :=
  (List.perm_insertionSort _ _).mem_iff

/-- The completed sets of an exercise name are the rows of `sets` that are
completed and belong to a logged exercise with exactly that name. -/
theorem mem_completedSetsOf (db : Db) (exerciseName : String) (row : SetRow) :
    row ∈ completedSetsOf db exerciseName ↔
      ∃ s ∈ db.sets.rows, ∃ le ∈ db.logged_exercises.rows,
        s.2 = row ∧ s.2.logged_exercise_id = le.1 ∧ le.2.name = exerciseName ∧
          s.2.completed = 1 := by
  simp only [completedSetsOf, List.mem_flatMap, List.mem_filterMap, mem_scan]
  constructor
  · rintro ⟨s, hs, le, hle, h⟩
    split_ifs at h with hc
    simp only [Option.some.injEq] at h
    exact ⟨s, hs, le, hle, h, hc.1, hc.2.1, hc.2.2⟩
  · rintro ⟨s, hs, le, hle, h1, h2, h3, h4⟩
    exact ⟨s, hs, le, hle, by rw [if_pos ⟨h2, h3, h4⟩, h1]⟩

/-- Below the larger of two is below both. -/
theorem sqlMax_le_of_sqlMax (a b c : Option ℚ) (h : sqlMax (sqlMax a b) c = c) :
    sqlMax a c = c ∧ sqlMax b c = c := by
  cases a <;> cases b <;> cases c <;> simp_all [sqlMax]

/-- The larger of two is one of them. -/
theorem sqlMax_eq_or (a b : Option ℚ) : sqlMax a b = a ∨ sqlMax a b = b := by
  cases a with
  | none => exact Or.inr rfl
  | some a =>
    cases b with
    | none => exact Or.inl rfl
    | some b =>
      rcases max_choice a b with h | h
      · exact Or.inl (by rw [sqlMax, h])
      · exact Or.inr (by rw [sqlMax, h])

/-- The running largest weight bounds its start value and every row. -/
theorem foldl_sqlMax_bound (rows : List SetRow) (start : Option ℚ) :
    sqlMax start (rows.foldl (fun largest row => sqlMax largest row.weight) start) =
        rows.foldl (fun largest row => sqlMax largest row.weight) start ∧
      ∀ row ∈ rows,
        sqlMax row.weight (rows.foldl (fun largest row => sqlMax largest row.weight) start) =
          rows.foldl (fun largest row => sqlMax largest row.weight) start := by
  induction rows generalizing start with
  | nil =>
    refine ⟨?_, fun row h => absurd h (List.not_mem_nil _)⟩
    cases start <;> simp [sqlMax]
  | cons r rest ih =>
    obtain ⟨h1, h2⟩ := ih (sqlMax start r.weight)
    obtain ⟨ha, hb⟩ := sqlMax_le_of_sqlMax _ _ _ h1
    refine ⟨ha, ?_⟩
    intro row hrow
    rcases List.mem_cons.mp hrow with rfl | hrow
    · exact hb
    · exact h2 row hrow

/-- The running largest weight is its start value or the weight of a row. -/
theorem foldl_sqlMax_attained (rows : List SetRow) (start : Option ℚ) :
    rows.foldl (fun largest row => sqlMax largest row.weight) start = start ∨
      ∃ row ∈ rows,
        row.weight = rows.foldl (fun largest row => sqlMax largest row.weight) start := by
  induction rows generalizing start with
  | nil => exact Or.inl rfl
  | cons r rest ih =>
    rcases ih (sqlMax start r.weight) with h | ⟨row, hrow, h⟩
    · rcases sqlMax_eq_or start r.weight with hs | hr
      · left
        rw [List.foldl_cons, h, hs]
      · right
        exact ⟨r, List.mem_cons_self _ _, by rw [List.foldl_cons, h, hr]⟩
    · exact Or.inr ⟨row, List.mem_cons_of_mem _ hrow, h⟩

/-- The largest weight of a non-empty list of rows is the weight of a row. -/
theorem topWeight_attained (row : SetRow) (rows : List SetRow) :
    ∃ r ∈ row :: rows, r.weight = topWeight (row :: rows) := by
  unfold topWeight
  rcases foldl_sqlMax_attained (row :: rows) none with h | h
  · refine ⟨row, List.mem_cons_self _ _, ?_⟩
    have hb := (foldl_sqlMax_bound (row :: rows) none).2 row (List.mem_cons_self _ _)
    rw [h] at hb ⊢
    cases hw : row.weight with
    | none => rfl
    | some w => simp [hw, sqlMax] at hb
  · exact h

/-- The query on a store that does not fail. -/
theorem getExercisePR_ok (pick : SetRow → List SetRow → SetRow) (exerciseName : String)
    (db : Db) :
    (getExercisePR pick exerciseName { db := db, failAfter := none }).1 =
      exercisePRQuery pick db exerciseName := by
  rfl

/-- The record of the query: nothing without completed sets, and otherwise
the largest weight with the reps of a completed set of that weight. -/
theorem exercisePRQuery_spec (pick : SetRow → List SetRow → SetRow) (db : Db)
    (exerciseName : String)
    (hpick : ∀ (first : SetRow) (others : List SetRow), pick first others ∈ first :: others) :
    (exercisePRQuery pick db exerciseName = none ↔ completedSetsOf db exerciseName = []) ∧
      ∀ pr : PRRow, exercisePRQuery pick db exerciseName = some pr →
        pr.max_weight = topWeight (completedSetsOf db exerciseName) ∧
        ∃ row ∈ completedSetsOf db exerciseName,
          row.weight = pr.max_weight ∧ row.reps = pr.reps := by
  unfold exercisePRQuery
  cases hc : completedSetsOf db exerciseName with
  | nil => simp
  | cons row rows =>
    obtain ⟨r, hr, hrw⟩ := topWeight_attained row rows
    cases hg : (row :: rows).filter (fun r => r.weight = topWeight (row :: rows)) with
    | nil =>
      have : r ∈ (row :: rows).filter (fun r => r.weight = topWeight (row :: rows)) := by
        rw [List.mem_filter]
        exact ⟨hr, by simpa using hrw⟩
      rw [hg] at this
      cases this
    | cons first others =>
      simp only [hg]
      refine ⟨by simp, ?_⟩
      intro pr hpr
      simp only [Option.some.injEq] at hpr
      subst hpr
      refine ⟨rfl, pick first others, ?_, ?_, rfl⟩
      · have hmem : pick first others ∈
            (row :: rows).filter (fun r => r.weight = topWeight (row :: rows)) := by
          rw [hg]
          exact hpick first others
        exact (List.mem_filter.mp hmem).1
      · have hmem : pick first others ∈
            (row :: rows).filter (fun r => r.weight = topWeight (row :: rows)) := by
          rw [hg]
          exact hpick first others
        simpa using (List.mem_filter.mp hmem).2

/-- C25: `getExercisePR` returns `null` exactly when the history holds no
completed set of an exercise with exactly the given name; otherwise it returns
a weight that no completed set of that exercise exceeds, together with the
reps of one of the completed sets performed at that weight (whichever row of
that weight SQLite takes the bare column from).  For the history holding the
completed sets 100 × 5 and 80 × 10 of "Bench Press" it returns 100 with reps
5, and `null` for the name in lower case. -/
theorem getExercisePR_record (pick : SetRow → List SetRow → SetRow) (db : Db)
    (exerciseName : String)
    (hpick : ∀ (first : SetRow) (others : List SetRow), pick first others ∈ first :: others) :
    ((getExercisePR pick exerciseName { db := db, failAfter := none }).1 = none ↔
        ¬ ∃ s ∈ db.sets.rows, ∃ le ∈ db.logged_exercises.rows,
          s.2.logged_exercise_id = le.1 ∧ le.2.name = exerciseName ∧ s.2.completed = 1) ∧
      (∀ pr : PRRow,
        (getExercisePR pick exerciseName { db := db, failAfter := none }).1 = some pr →
        (∀ row ∈ completedSetsOf db exerciseName, ∀ w : ℚ, row.weight = some w →
          ∃ top : ℚ, pr.max_weight = some top ∧ w ≤ top) ∧
        ∃ row ∈ completedSetsOf db exerciseName,
          row.weight = pr.max_weight ∧ row.reps = pr.reps) ∧
      (getExercisePR pick "Bench Press" benchConn).1 =
        some { max_weight := some 100, reps := some 5 } ∧
      (getExercisePR pick "bench press" benchConn).1 = none := by
  obtain ⟨hnone, hsome⟩ := exercisePRQuery_spec pick db exerciseName hpick
  refine ⟨?_, ?_, ?_, ?_⟩
  · rw [getExercisePR_ok, hnone, List.eq_nil_iff_forall_not_mem]
    constructor
    · rintro h ⟨s, hs, le, hle, h1, h2, h3⟩
      exact h s.2 ((mem_completedSetsOf db exerciseName s.2).mpr ⟨s, hs, le, hle, rfl, h1, h2, h3⟩)
    · intro h row hrow
      obtain ⟨s, hs, le, hle, -, h1, h2, h3⟩ := (mem_completedSetsOf db exerciseName row).mp hrow
      exact h ⟨s, hs, le, hle, h1, h2, h3⟩
  · intro pr hpr
    rw [getExercisePR_ok] at hpr
    obtain ⟨htop, hrow⟩ := hsome pr hpr
    refine ⟨?_, hrow⟩
    intro row hrow w hw
    have hb := (foldl_sqlMax_bound (completedSetsOf db exerciseName) none).2 row hrow
    rw [← topWeight, ← htop, hw] at hb
    cases hm : pr.max_weight with
    | none => simp [hm, sqlMax] at hb
    | some top =>
      rw [hm] at hb
      simp only [sqlMax, Option.some.injEq] at hb
      exact ⟨top, rfl, max_eq_right_iff.mp hb⟩
  · have hdb : benchConn = { db := benchConn.db, failAfter := none } := by decide!
    have hrows : completedSetsOf benchConn.db "Bench Press" =
        [{ logged_exercise_id := 1, set_number := 1, weight := some 100, reps := some 5,
           completed := 1, rpe := none, notes := none },
         { logged_exercise_id := 1, set_number := 2, weight := some 80, reps := some 10,
           completed := 1, rpe := none, notes := none }] := by decide!
    have htop : topWeight (completedSetsOf benchConn.db "Bench Press") = some 100 := by decide!
    rw [hdb, getExercisePR_ok]
    obtain ⟨hn, hs⟩ := exercisePRQuery_spec pick benchConn.db "Bench Press" hpick
    cases hq : exercisePRQuery pick benchConn.db "Bench Press" with
    | none =>
      rw [hn.mp hq] at hrows
      cases hrows
    | some pr =>
      obtain ⟨hmax, row, hrow, hw, hr⟩ := hs pr hq
      rw [htop] at hmax
      rw [hrows] at hrow
      obtain ⟨mw, reps⟩ := pr
      simp only at hmax hw hr
      subst hmax
      simp only [List.mem_cons, List.mem_singleton, List.not_mem_nil, or_false] at hrow
      rcases hrow with rfl | rfl
      · simp only at hr
        rw [← hr]
      · simp only [Option.some.injEq] at hw
        norm_num at hw
  · have hdb : benchConn = { db := benchConn.db, failAfter := none } := by decide!
    have hrows : completedSetsOf benchConn.db "bench press" = [] := by decide!
    rw [hdb, getExercisePR_ok]
    unfold exercisePRQuery
    rw [hrows]

/-- C25 with the choice of the first row of the top group, on the history
holding the two Bench Press sets. -/
theorem getExercisePR_record_witness :
    (∀ (first : SetRow) (others : List SetRow), pickFirst first others ∈ first :: others) ∧
      (getExercisePR pickFirst "Bench Press" benchConn).1 =
        some { max_weight := some 100, reps := some 5 } :=
  ⟨fun first others => List.mem_cons_self first others,
    (getExercisePR_record pickFirst benchConn.db "Bench Press"
      (fun first others => List.mem_cons_self first others)).2.2.1⟩


/-! ## Theorems: volume trend -/

/-- The rows of the join of the trend query: a completed set of an exercise
with the name in a log completed at or after the cutoff. -/
theorem mem_volumeRowsOf (db : Db) (exerciseName cutoff completedAt : String)
    (product : Option ℚ) :
    (completedAt, product) ∈ volumeRowsOf db exerciseName cutoff ↔
      ∃ s ∈ db.sets.rows, ∃ le ∈ db.logged_exercises.rows, ∃ wl ∈ db.workout_logs.rows,
        wl.2.completed_at = some completedAt ∧ s.2.logged_exercise_id = le.1 ∧
          le.2.log_id = wl.2.log_id ∧ le.2.name = exerciseName ∧ s.2.completed = 1 ∧
          cutoff ≤ completedAt ∧ sqlProduct s.2.weight s.2.reps = product := by
  simp only [volumeRowsOf, List.mem_flatMap, List.mem_filterMap, mem_scan]
  constructor
  · rintro ⟨s, hs, le, hle, wl, hwl, h⟩
    cases hc : wl.2.completed_at with
    | none => simp [hc] at h
    | some at1 =>
      simp only [hc] at h
      split_ifs at h with hcond
      simp only [Option.some.injEq, Prod.mk.injEq] at h
      obtain ⟨h1, h2⟩ := h
      subst h1
      exact ⟨s, hs, le, hle, wl, hwl, hc, hcond.1, hcond.2.1, hcond.2.2.1, hcond.2.2.2.1,
        hcond.2.2.2.2, h2⟩
  · rintro ⟨s, hs, le, hle, wl, hwl, hc, h1, h2, h3, h4, h5, h6⟩
    refine ⟨s, hs, le, hle, wl, hwl, ?_⟩
    simp only [hc]
    rw [if_pos ⟨h1, h2, h3, h4, h5⟩, h6]

/-- The trend query on a store that does not fail. -/
theorem getExerciseVolumeTrend_ok (exerciseName cutoff : String) (db : Db) :
    (getExerciseVolumeTrend exerciseName cutoff { db := db, failAfter := none }).1 =
      volumeTrendQuery db exerciseName cutoff := by
  rfl

/-- The keys of the trend entries: the distinct completion times, sorted. -/
theorem volumeTrendQuery_keys (db : Db) (exerciseName cutoff : String) :
    (volumeTrendQuery db exerciseName cutoff).map VolumeRow.completed_at =
      ((volumeRowsOf db exerciseName cutoff).map Prod.fst).dedup.insertionSort (· ≤ ·) := by
  unfold volumeTrendQuery
  rw [List.map_map]
  exact List.map_id _

/-- The aggregate `SUM` is `NULL` exactly when every value is `NULL`, and
otherwise the sum of the values that are not. -/
theorem sqlSum_spec (values : List (Option ℚ)) :
    (sqlSum values = none ↔ ∀ v ∈ values, v = none) ∧
      ∀ total : ℚ, sqlSum values = some total → total = (values.filterMap id).sum := by
  unfold sqlSum
  cases h : values.filterMap id with
  | nil =>
    refine ⟨⟨fun _ v hv => ?_, fun _ => rfl⟩, fun total ht => Option.noConfusion ht⟩
    cases v with
    | none => rfl
    | some x =>
      have : x ∈ values.filterMap id := List.mem_filterMap.mpr ⟨some x, hv, rfl⟩
      rw [h] at this
      cases this
  | cons x xs =>
    refine ⟨⟨fun hn => Option.noConfusion hn, fun hall => ?_⟩, fun total ht => ?_⟩
    · have hx : x ∈ values.filterMap id := by
        rw [h]
        exact List.mem_cons_self _ _
      obtain ⟨v, hv, hvx⟩ := List.mem_filterMap.mp hx
      rw [hall v hv] at hvx
      cases hvx
    · simp only [Option.some.injEq] at ht
      exact ht.symm

/-- C26, as the code has it: on a store that does not fail the trend has one
entry per distinct `completed_at` time stamp (not per calendar day) of a log
completed at or after the cutoff in which an exercise with the name has a
completed set; the entries are in strictly ascending order of that time stamp;
the volume of an entry is the `SUM` of weight × reps over those completed sets
of its time stamp, which counts only sets that have both a weight and reps and
is `NULL` when no set of the group has both. -/
theorem getExerciseVolumeTrend_groups (db : Db) (exerciseName cutoff : String) :
    (((getExerciseVolumeTrend exerciseName cutoff { db := db, failAfter := none }).1).map
        VolumeRow.completed_at).Sorted (· < ·) ∧
      (∀ completedAt : String,
        completedAt ∈
            ((getExerciseVolumeTrend exerciseName cutoff { db := db, failAfter := none }).1).map
              VolumeRow.completed_at ↔
          ∃ s ∈ db.sets.rows, ∃ le ∈ db.logged_exercises.rows, ∃ wl ∈ db.workout_logs.rows,
            wl.2.completed_at = some completedAt ∧ s.2.logged_exercise_id = le.1 ∧
              le.2.log_id = wl.2.log_id ∧ le.2.name = exerciseName ∧ s.2.completed = 1 ∧
              cutoff ≤ completedAt) ∧
      (∀ entry ∈ (getExerciseVolumeTrend exerciseName cutoff { db := db, failAfter := none }).1,
        entry.volume =
          sqlSum (((volumeRowsOf db exerciseName cutoff).filter
            (fun row => row.1 = entry.completed_at)).map Prod.snd)) ∧
      (∀ values : List (Option ℚ),
        (sqlSum values = none ↔ ∀ v ∈ values, v = none) ∧
          ∀ total : ℚ, sqlSum values = some total → total = (values.filterMap id).sum) ∧
      ∀ weight reps : Option ℚ, ∀ product : ℚ,
        sqlProduct weight reps = some product ↔
          ∃ w r : ℚ, weight = some w ∧ reps = some r ∧ product = w * r := by
  rw [getExerciseVolumeTrend_ok, volumeTrendQuery_keys]
  refine ⟨?_, ?_, ?_, sqlSum_spec, ?_⟩
  · exact (List.sorted_insertionSort (· ≤ ·) _).lt_of_le
      ((List.perm_insertionSort (· ≤ ·) _).nodup_iff.mpr (List.nodup_dedup _))
  · intro completedAt
    rw [(List.perm_insertionSort (· ≤ ·) _).mem_iff, List.mem_dedup, List.mem_map]
    constructor
    · rintro ⟨⟨at1, product⟩, hrow, rfl⟩
      obtain ⟨s, hs, le, hle, wl, hwl, h1, h2, h3, h4, h5, h6, -⟩ :=
        (mem_volumeRowsOf db exerciseName cutoff at1 product).mp hrow
      exact ⟨s, hs, le, hle, wl, hwl, h1, h2, h3, h4, h5, h6⟩
    · rintro ⟨s, hs, le, hle, wl, hwl, h1, h2, h3, h4, h5, h6⟩
      exact ⟨(completedAt, sqlProduct s.2.weight s.2.reps),
        (mem_volumeRowsOf db exerciseName cutoff completedAt _).mpr
          ⟨s, hs, le, hle, wl, hwl, h1, h2, h3, h4, h5, h6, rfl⟩, rfl⟩
  · intro entry hentry
    unfold volumeTrendQuery at hentry
    obtain ⟨completedAt, -, rfl⟩ := List.mem_map.mp hentry
    rfl
  · intro weight reps product
    cases weight <;> cases reps <;> simp [sqlProduct, eq_comm]

/-- C26, the claim as worded fails: with a morning and an evening log of the
same day in the history, the trend of "Bench Press" has two entries of the
calendar date 2024-01-01 rather than one, and the volume of the second, whose
only completed set has no weight and no reps, is `NULL` rather than a sum. -/
theorem getExerciseVolumeTrend_same_day :
    (getExerciseVolumeTrend "Bench Press" "2023-12-02T18:00:00.000Z" trendConn).1 =
        [{ completed_at := "2024-01-01T08:00:00.000Z", volume := some 1300 },
         { completed_at := "2024-01-01T18:00:00.000Z", volume := none }] ∧
      isoDate "2024-01-01T08:00:00.000Z" = "2024-01-01" ∧
      isoDate "2024-01-01T18:00:00.000Z" = "2024-01-01" := by
  decide!


/-! ## Theorems: a failing store -/

/-- A statement on a store that has failed throws and leaves the store. -/
theorem statement_failed {α : Type} (action : Db → Except DbError (α × Db)) (conn : Conn)
    (h : conn.failAfter = some 0) : statement action conn = (.error .unavailable, conn) := by
  unfold statement
  rw [h]

/-- A sequence whose first step throws, throws. -/
theorem bind_failed {α β : Type} (first : DbM α) (next : α → DbM β) (conn conn2 : Conn)
    (e : DbError) (h : first conn = (.error e, conn2)) :
    (first >>= next) conn = (.error e, conn2) := by
  show DbM.bind first next conn = _
  unfold DbM.bind
  rw [h]

/-- A function that returns a fallback from its `catch` returns the fallback
when its body throws. -/
theorem catchReturn_failed {α : Type} (body : DbM α) (fallback : α) (conn : Conn)
    (e : DbError) (h : (body conn).1 = .error e) :
    catchReturn body fallback conn = (fallback, (body conn).2) := by
  unfold catchReturn
  cases hb : body conn with
  | mk result conn2 =>
    rw [hb] at h
    simp only at h
    subst h
    rfl

/-- A function that throws again from its `catch` throws what its body
throws. -/
theorem catchRethrow_failed {α : Type} (body : DbM α) (conn : Conn)
    (e : DbError) (h : (body conn).1 = .error e) :
    catchRethrow body conn = (.error e, (body conn).2) := by
  unfold catchRethrow
  cases hb : body conn with
  | mk result conn2 =>
    rw [hb] at h
    simp only at h
    subst h
    rfl

/-- C28, as the code has it: when the store fails at the first statement, the
four readers return their empty result (`null` for the profile and the active
workout, `[]` for the templates and the history) and `clearActiveWorkout`
returns normally, but the four writers `saveUserProfile`,
`saveWorkoutTemplates`, `saveActiveWorkout` and `addWorkoutToHistory` raise
the error to the caller; the store is left as it was.  Whatever statement
fails, a reader returns its empty result and never part of the data, and a
writer raises the error of that statement. -/
theorem storage_on_failure (conn : Conn) (profile : UserProfileRecord)
    (templates : List WorkoutTemplate) (workout : WorkoutLog) (nowIso : String) (limit : Nat)
    (hfail : conn.failAfter = some 0) :
    getUserProfile conn = (none, conn) ∧
      getWorkoutTemplates conn = ([], conn) ∧
      getActiveWorkout conn = (none, conn) ∧
      getWorkoutHistory limit conn = ([], conn) ∧
      clearActiveWorkout conn = ((), conn) ∧
      saveUserProfile profile conn = (.error .unavailable, conn) ∧
      saveWorkoutTemplates templates conn = (.error .unavailable, conn) ∧
      saveActiveWorkout workout nowIso conn = (.error .unavailable, conn) ∧
      addWorkoutToHistory workout conn = (.error .unavailable, conn) ∧
      (∀ (later : Conn) (e : DbError),
        ((getUserProfileBody later).1 = .error e → (getUserProfile later).1 = none) ∧
        ((getWorkoutTemplatesBody later).1 = .error e → (getWorkoutTemplates later).1 = []) ∧
        ((getActiveWorkoutBody later).1 = .error e → (getActiveWorkout later).1 = none) ∧
        ((getWorkoutHistoryBody limit later).1 = .error e →
          (getWorkoutHistory limit later).1 = []) ∧
        ((saveUserProfileBody profile later).1 = .error e →
          (saveUserProfile profile later).1 = .error e) ∧
        ((saveWorkoutTemplatesBody templates later).1 = .error e →
          (saveWorkoutTemplates templates later).1 = .error e) ∧
        ((saveActiveWorkoutBody workout nowIso later).1 = .error e →
          (saveActiveWorkout workout nowIso later).1 = .error e) ∧
        ((addWorkoutToHistoryBody workout later).1 = .error e →
          (addWorkoutToHistory workout later).1 = .error e)) := by
  have hq : ∀ {α : Type} (read : Db → α), querySync read conn = (.error .unavailable, conn) :=
    fun read => statement_failed _ conn hfail
  have hr : ∀ (change : Db → Db), runSync change conn = (.error .unavailable, conn) :=
    fun change => statement_failed _ conn hfail
  refine ⟨?_, ?_, ?_, ?_, ?_, ?_, ?_, ?_, ?_, ?_⟩
  · unfold getUserProfile getUserProfileBody catchReturn
    rw [bind_failed _ _ conn conn _ (hq _)]
  · unfold getWorkoutTemplates getWorkoutTemplatesBody catchReturn
    rw [bind_failed _ _ conn conn _ (hq _)]
  · unfold getActiveWorkout getActiveWorkoutBody catchReturn
    rw [bind_failed _ _ conn conn _ (hq _)]
  · unfold getWorkoutHistory getWorkoutHistoryBody catchReturn
    rw [bind_failed _ _ conn conn _ (hq _)]
  · unfold clearActiveWorkout catchReturn
    rw [hr]
  · unfold saveUserProfile saveUserProfileBody catchRethrow
    rw [bind_failed _ _ conn conn _ (hr _)]
  · unfold saveWorkoutTemplates saveWorkoutTemplatesBody catchRethrow
    rw [bind_failed _ _ conn conn _ (hr _)]
  · unfold saveActiveWorkout saveActiveWorkoutBody catchRethrow
    rw [bind_failed _ _ conn conn _ (hr _)]
  · unfold addWorkoutToHistory addWorkoutToHistoryBody catchRethrow
    rw [bind_failed (insertWorkoutLog workout) _ conn conn _ (statement_failed _ conn hfail)]
  · intro later e
    refine ⟨fun h => ?_, fun h => ?_, fun h => ?_, fun h => ?_, fun h => ?_, fun h => ?_,
      fun h => ?_, fun h => ?_⟩
    · rw [getUserProfile, catchReturn_failed _ _ _ e h]
    · rw [getWorkoutTemplates, catchReturn_failed _ _ _ e h]
    · rw [getActiveWorkout, catchReturn_failed _ _ _ e h]
    · rw [getWorkoutHistory, catchReturn_failed _ _ _ e h]
    · rw [saveUserProfile, catchRethrow_failed _ _ e h]
    · rw [saveWorkoutTemplates, catchRethrow_failed _ _ e h]
    · rw [saveActiveWorkout, catchRethrow_failed _ _ e h]
    · rw [addWorkoutToHistory, catchRethrow_failed _ _ e h]

/-- C28 on a store whose history holds two logs: read without a failure the
history has both; when the store fails at once the readers return their empty
result and the writers raise; and when the store fails at the second query of
`getWorkoutHistory`, after the logs were read, the result is the empty list
and not the part that was read. -/
theorem storage_on_failure_witness :
    brokenConn.failAfter = some 0 ∧
      (getWorkoutHistory 50 { db := trendConn.db, failAfter := none }).1.length = 2 ∧
      getWorkoutHistory 50 brokenConn = ([], brokenConn) ∧
      saveActiveWorkout editedLog "2024-01-01T19:00:00.000Z" brokenConn =
        (.error .unavailable, brokenConn) ∧
      addWorkoutToHistory editedLog brokenConn = (.error .unavailable, brokenConn) ∧
      (getWorkoutHistoryBody 50 stallingConn).1 = .error .unavailable ∧
      (getWorkoutHistory 50 stallingConn).1 = [] :=
  ⟨rfl, by decide!,
    (storage_on_failure brokenConn demoProfileRecord [demoTemplate] editedLog
      "2024-01-01T19:00:00.000Z" 50 rfl).2.2.2.1,
    (storage_on_failure brokenConn demoProfileRecord [demoTemplate] editedLog
      "2024-01-01T19:00:00.000Z" 50 rfl).2.2.2.2.2.2.2.1,
    (storage_on_failure brokenConn demoProfileRecord [demoTemplate] editedLog
      "2024-01-01T19:00:00.000Z" 50 rfl).2.2.2.2.2.2.2.2.1,
    by decide!,
    ((storage_on_failure brokenConn demoProfileRecord [demoTemplate] editedLog
      "2024-01-01T19:00:00.000Z" 50 rfl).2.2.2.2.2.2.2.2.2 stallingConn .unavailable).2.2.2.1
      (by decide!)⟩

/-- C28, the claim as worded fails for the writers: on a store that fails,
`saveUserProfile`, `saveWorkoutTemplates`, `saveActiveWorkout` and
`addWorkoutToHistory` raise to the caller instead of returning an empty
result; and a save that fails at its second statement has already deleted the
active workout that was stored. -/
theorem saveActiveWorkout_raises :
    (saveUserProfile demoProfileRecord failedConn).1 = .error .unavailable ∧
      (saveWorkoutTemplates [demoTemplate] failedConn).1 = .error .unavailable ∧
      (saveActiveWorkout editedLog "2024-01-01T09:00:00.000Z" failedConn).1 =
        .error .unavailable ∧
      (addWorkoutToHistory benchLog failedConn).1 = .error .unavailable ∧
      (getActiveWorkout { fadingConn with failAfter := none }).1 = some demoLog ∧
      (saveActiveWorkout editedLog "2024-01-01T09:00:00.000Z" fadingConn).1 =
        .error .unavailable ∧
      (saveActiveWorkout editedLog "2024-01-01T09:00:00.000Z"
        fadingConn).2.db.active_workout.rows = [] := by
  decide


end WorkoutBudy
